import Mathlib

/-!
# open_manipulator: transmit loop, waypoint queues, MoveIt replay and the pick sequencer

Shallow embedding of

* `open_manipulator_controller.cpp`: `commTimerThread`, `calThread`,
  `displayPlannedPathMsgCallback`, `moveitTimer`, the destructor, `startCommTimerThread`,
  `setActuatorStateCallback`, both overloads of `calcPlannedPath` and the two service
  callbacks that call them;
* `OpenManipulator.cpp`: `openManipulatorProcess`;
* `pick.cpp`: the callbacks and `pick()`.

Conventions.

* C `double` values are embedded as numbers: rationals in the controller, an arbitrary
  ordered field `R` in the sequencer (so the same definitions can be read over the
  rationals or the reals).  Where the code truncates or accumulates the result of a
  `double` operation, the rounding of that operation is part of the embedding
  (`roundDouble`): the product `getControlPeriod() * 1000`, which is cast to `int`, and
  the sum `tolerance + 0.005`, which the sequencer takes from `LibM.add`.  The other
  operations (one subtraction or comparison of times, the offsets added to a pose) are
  exact, and a decimal literal stands for the number it names.
* `int` is a 32 bit two's complement integer (`toInt32`), `uint8_t` and `uint32_t` wrap
  modulo `2^8` and `2^32`.  `time_t` and `long` are 64 bit and are not wrapped.
* Everything the code obtains from outside (clock readings, service replies, messages)
  is an explicit argument; everything it sends out is an explicit event.
-/

namespace OpenManipulator

/-! ## Controller: data -/

/-- One sample of a degree of freedom (`WayPoint` of robotis_manipulator). -/
structure WayPoint where
  value : ℚ
  velocity : ℚ
  acceleration : ℚ
  effort : ℚ
deriving DecidableEq, Repr

/-- The type `JointWayPoint` is `std::vector<WayPoint>`. -/
abbrev JointWayPoint := List WayPoint

/-- The type `struct timespec`. -/
structure Timespec where
  tv_sec : Int
  tv_nsec : Int
deriving DecidableEq, Repr

/-- Total number of nanoseconds denoted by a `timespec`. -/
def Timespec.totalNsec (t : Timespec) : Int := t.tv_sec * 1000000000 + t.tv_nsec

/-- One point of `trajectory_msgs::JointTrajectory`. -/
structure JointTrajectoryPoint where
  positions : List ℚ
  velocities : List ℚ
  accelerations : List ℚ
deriving DecidableEq, Repr

/-- The members of `OM_CONTROLLER` read or written by the modelled functions.
A `std::queue` is a list whose head is the front of the queue. -/
structure OM_CONTROLLER where
  joint_way_point_buf_ : List JointWayPoint
  tool_way_point_buf_ : List (List ℚ)
  present_joint_value : List WayPoint
  control_period_ : ℚ
  moveit_sampling_time_ : ℚ
  moveit_plan_flag_ : Bool
  joint_trajectory_ : List JointTrajectoryPoint
deriving DecidableEq, Repr

/-! ## The type `double` -/

/-- The integer nearest to `a / b`, the even one of two equally near ones. -/
def roundHalfEven (a b : Nat) : Nat :=
  if 2 * (a % b) < b then a / b
  else if b < 2 * (a % b) then a / b + 1
  else if (a / b) % 2 = 0 then a / b
  else a / b + 1

/-- Number of halvings that bring `n` below 2, counted with at most `fuel` steps. -/
def log2Aux : Nat → Nat → Nat
  | 0, _ => 0
  | fuel + 1, n => if n < 2 then 0 else log2Aux fuel (n / 2) + 1

/-- The exponent of the greatest power of 2 that is at most `n`, for `n` other than 0. -/
def floorLog2 (n : Nat) : Nat := log2Aux n n

/-- The exponent of the greatest power of 2 that is at most `n / d`, for positive `n` and
`d`. -/
def binade (n d : Nat) : Int :=
  if (floorLog2 d ≤ floorLog2 n ∧ d * 2 ^ (floorLog2 n - floorLog2 d) ≤ n)
      ∨ (floorLog2 n < floorLog2 d ∧ d ≤ n * 2 ^ (floorLog2 d - floorLog2 n)) then
    (floorLog2 n : Int) - (floorLog2 d : Int)
  else (floorLog2 n : Int) - (floorLog2 d : Int) - 1

/-- The `double` nearest to `n / d`, for positive `n` and `d`: a significand of 53 bits
(fewer below 2^-1022, where the exponent of the last bit stays -1074), rounded to the
nearest, to the even one of two equally near ones. -/
def roundMagnitude (n d : Nat) : ℚ :=
  if 0 ≤ max (binade n d - 52) (-1074) then
    ((roundHalfEven n (d * 2 ^ (max (binade n d - 52) (-1074)).toNat)
      * 2 ^ (max (binade n d - 52) (-1074)).toNat : Nat) : ℚ)
  else
    ((roundHalfEven (n * 2 ^ (-(max (binade n d - 52) (-1074))).toNat) d : Nat) : ℚ)
      / ((2 ^ (-(max (binade n d - 52) (-1074))).toNat : Nat) : ℚ)

/-- The `double` (IEEE 754 binary64) nearest to `q`, the even one of two equally near
ones: the value a `double` variable holds after `q` is stored in it, and the result of
a `double` operation whose exact result is `q`.  Magnitudes beyond the largest finite
`double` are not mapped to an infinity. -/
def roundDouble (q : ℚ) : ℚ :=
  if q = 0 then 0
  else if q < 0 then -roundMagnitude q.num.natAbs q.den
  else roundMagnitude q.num.natAbs q.den

/-- The sum `a + b` of two `double`s as the hardware computes it; an operand written as
a decimal literal stands for the nearest `double`. -/
def doubleAdd (a b : ℚ) : ℚ := roundDouble (roundDouble a + roundDouble b)

/-! ## Controller: the control clock -/

/-- Two's complement value of a 32 bit `int`. -/
def toInt32 (x : Int) : Int := (x + 2147483648) % 4294967296 - 2147483648

/-- The conversion `(int) d` of a `double`: truncation toward zero.  For a value outside
the range of `int` the conversion is undefined in C; the value given for that case is the
one of the x86 conversion instruction, the least `int`. -/
def truncToInt (d : ℚ) : Int :=
  if -2147483649 < d ∧ d < 2147483648 then d.num.tdiv d.den else -2147483648

/-- The `int` expression `(int)(getControlPeriod() * 1000)`: the member `control_period_`
is a `double`, so a configured value enters as the nearest `double`, and the product is a
`double` product, rounded before it is truncated. -/
def controlPeriodMs (control_period : ℚ) : Int :=
  truncToInt (roundDouble (roundDouble control_period * 1000))

/-- The `int` expression `((int)(getControlPeriod() * 1000)) * 1000000`.  The `int`
product overflows beyond 2147 ms, which is undefined in C; it wraps here. -/
def periodNsec (control_period : ℚ) : Int :=
  toInt32 (controlPeriodMs control_period * 1000000)

/-- Lines 111-112 (and 175-176): the deadline update at the start of a tick.  The second
statement still reads the old `tv_nsec`, the first one only changed `tv_sec`. -/
def advanceDeadline (control_period : ℚ) (next_time : Timespec) : Timespec :=
  { tv_sec := next_time.tv_sec
      + (next_time.tv_nsec + periodNsec control_period).tdiv 1000000000
    tv_nsec := (next_time.tv_nsec + periodNsec control_period).tmod 1000000000 }

/-- Line 137: `delta_nsec` (a number of seconds, despite its name), as an exact number.
The code only tests its sign; for `tv_nsec` fields in `[0, 10^9)` the `double` computed
by the code has the sign of this exact value: the difference of the seconds is an
integer, the scaled difference of the nanoseconds has magnitude below 1, and rounding
is monotone. -/
def delta_nsec (next_time curr_time : Timespec) : ℚ :=
  ((next_time.tv_sec - curr_time.tv_sec : Int) : ℚ)
    + ((next_time.tv_nsec - curr_time.tv_nsec : Int) : ℚ) * (1 / 1000000000)

/-- What one iteration of `commTimerThread` does to the outside world. -/
inductive CommEvent where
  | communicationProcessToActuator (tx_joint : JointWayPoint) (tx_tool : List ℚ)
  | warn (text : String) (value : ℚ)
  | clock_nanosleep (deadline : Timespec)
deriving DecidableEq, Repr

/-- Lines 134-145: the end of a tick, given the clock reading `curr_time`.  Returns the
deadline kept for the next iteration and the events (a warning, or an absolute sleep). -/
def endOfTick (control_period : ℚ) (next_time curr_time : Timespec) :
    Timespec × List CommEvent :=
  if delta_nsec next_time curr_time < 0 then
    (curr_time, [CommEvent.warn "Communication cycle time exceeded. : "
      (control_period - delta_nsec next_time curr_time)])
  else
    (next_time, [CommEvent.clock_nanosleep next_time])

/-! ## Controller: the waypoint queues -/

/-- Lines 183-186 of `calThread`: the enqueue done under the mutex. -/
def calThreadPush (tempJointWayPoint : JointWayPoint) (tempToolWayPoint : List ℚ)
    (c : OM_CONTROLLER) : OM_CONTROLLER :=
  { c with
    joint_way_point_buf_ := c.joint_way_point_buf_ ++ [tempJointWayPoint]
    tool_way_point_buf_ := c.tool_way_point_buf_ ++ [tempToolWayPoint] }

/-- Lines 114-128 of `commTimerThread`: the dequeue done under the mutex.  The two local
variables are empty on entry (they are cleared at the end of every iteration).  Returns
the controller and `(tx_joint_way_point, tx_tool_way_point)`. -/
def commTimerPop (c : OM_CONTROLLER) : OM_CONTROLLER × JointWayPoint × List ℚ :=
  let (c1, tx_joint_way_point) :=
    match c.joint_way_point_buf_ with
    | [] => (c, ([] : JointWayPoint))
    | front :: rest =>
        ({ c with present_joint_value := front, joint_way_point_buf_ := rest }, front)
  let (c2, tx_tool_way_point) :=
    match c1.tool_way_point_buf_ with
    | [] => (c1, ([] : List ℚ))
    | front :: rest => ({ c1 with tool_way_point_buf_ := rest }, front)
  (c2, tx_joint_way_point, tx_tool_way_point)

/-- The state carried from one iteration of `commTimerThread` to the next. -/
structure CommLoop where
  controller : OM_CONTROLLER
  next_time : Timespec
deriving DecidableEq, Repr

/-- One iteration of the `while` loop of `commTimerThread` (lines 111-145); `curr_time`
is the clock reading of line 134. -/
def commTimerThreadStep (curr_time : Timespec) (l : CommLoop) : CommLoop × List CommEvent :=
  let next_time := advanceDeadline l.controller.control_period_ l.next_time
  let (c, tx_joint_way_point, tx_tool_way_point) := commTimerPop l.controller
  let (kept, evs) := endOfTick c.control_period_ next_time curr_time
  ({ controller := c, next_time := kept },
    CommEvent.communicationProcessToActuator tx_joint_way_point tx_tool_way_point :: evs)

/-- Successive iterations of `commTimerThread`, one per clock reading, with no other
thread running in between. -/
def commTimerThreadLoop : List Timespec → CommLoop → CommLoop × List CommEvent
  | [], l => (l, [])
  | curr_time :: rest, l =>
      let (l1, evs1) := commTimerThreadStep curr_time l
      let (l2, evs2) := commTimerThreadLoop rest l1
      (l2, evs1 ++ evs2)

/-- Several `calThread` enqueues in a row, oldest first. -/
def calThreadPushes : List (JointWayPoint × List ℚ) → OM_CONTROLLER → OM_CONTROLLER
  | [], c => c
  | (j, t) :: rest, c => calThreadPushes rest (calThreadPush j t c)

/-! ## Controller: replay of a MoveIt plan -/

/-- The two function-static variables of `moveitTimer`; `step_cnt` is a `uint32_t`. -/
structure MoveitTimerStatics where
  priv_time : ℚ
  step_cnt : Nat
deriving DecidableEq, Repr

/-- The call `open_manipulator_.jointTrajectoryMove(target, path_time)`. -/
structure JointTrajectoryMove where
  target : List WayPoint
  path_time : ℚ
deriving DecidableEq, Repr

/-- Lines 277-283; the argument is `msg->trajectory[0].joint_trajectory.points`. -/
def displayPlannedPathMsgCallback (points : List JointTrajectoryPoint)
    (c : OM_CONTROLLER) : OM_CONTROLLER :=
  { c with joint_trajectory_ := points, moveit_plan_flag_ := true }

/-- Lines 771-778: the `target` built from one trajectory point.  The loop variable is a
`uint8_t`, so the loop ends only when there are fewer than 256 positions; `.at(i)` throws
when `velocities` or `accelerations` is shorter than `positions`.  Both outcomes are
`none`.  The member `effort` of `temp` is not assigned by the code; it is 0 here. -/
def buildTarget (p : JointTrajectoryPoint) : Option (List WayPoint) :=
  if p.positions.length < 256 then
    (List.range p.positions.length).mapM fun i =>
      match p.positions[i]?, p.velocities[i]?, p.accelerations[i]? with
      | some x, some v, some a =>
          some { value := x, velocity := v, acceleration := a, effort := 0 }
      | _, _, _ => none
  else none

/-- Lines 758-795.  The result is `none` when `points[step_cnt]` is read out of range or
when building the target does not return (see `buildTarget`). -/
def moveitTimer (present_time : ℚ) (c : OM_CONTROLLER) (st : MoveitTimerStatics) :
    Option (OM_CONTROLLER × MoveitTimerStatics × List JointTrajectoryMove) :=
  if c.moveit_plan_flag_ = true then
    let path_time := present_time - st.priv_time
    if path_time > c.moveit_sampling_time_ then
      let all_time_steps := c.joint_trajectory_.length % 4294967296
      match c.joint_trajectory_[st.step_cnt]? with
      | none => none
      | some point =>
        match buildTarget point with
        | none => none
        | some target =>
          let step_cnt := (st.step_cnt + 1) % 4294967296
          if step_cnt ≥ all_time_steps then
            some ({ c with moveit_plan_flag_ := false },
              { priv_time := present_time, step_cnt := 0 },
              [{ target := target, path_time := path_time }])
          else
            some (c, { priv_time := present_time, step_cnt := step_cnt },
              [{ target := target, path_time := path_time }])
    else some (c, st, [])
  else some (c, { st with priv_time := present_time }, [])

/-- The call times `ts` are spaced: each is more than `T` after the one before it, the
first more than `T` after `prev`. -/
def spacedFrom (T : ℚ) : ℚ → List ℚ → Prop
  | _, [] => True
  | prev, t :: rest => t - prev > T ∧ spacedFrom T t rest

instance spacedFrom.decidable (T : ℚ) : (prev : ℚ) → (ts : List ℚ) →
    Decidable (spacedFrom T prev ts)
  | _, [] => isTrue trivial
  | prev, t :: rest =>
      match (inferInstance : Decidable (t - prev > T)), spacedFrom.decidable T t rest with
      | isTrue h1, isTrue h2 => isTrue ⟨h1, h2⟩
      | isFalse h1, _ => isFalse fun h => h1 h.1
      | _, isFalse h2 => isFalse fun h => h2 h.2

/-- A trajectory point whose target can be built. -/
def wellFormedPoint (p : JointTrajectoryPoint) : Prop :=
  p.positions.length < 256 ∧ p.positions.length ≤ p.velocities.length ∧
    p.positions.length ≤ p.accelerations.length

instance wellFormedPoint.decidable (p : JointTrajectoryPoint) :
    Decidable (wellFormedPoint p) := by
  unfold wellFormedPoint; infer_instance

/-! ## Sequencer (`pick.cpp`): data -/

/-- The constant `IS_MOVING = 0`, as stored into a `bool` member of `State`. -/
abbrev IS_MOVING : Bool := false
/-- The constant `STOPPED = 1`, as stored into a `bool` member of `State`. -/
abbrev STOPPED : Bool := true
/-- The recognized marker id, `#define MARKER_ID 8`. -/
abbrev MARKER_ID : Nat := 8

/-- First enumerator of the anonymous `enum` (lines 29-40). -/
abbrev WAITING_FOR_SIGNAL : Nat := 1
/-- Enumerator 2. -/
abbrev CHECK_AR_MARKER_POSE : Nat := 2
/-- Enumerator 3. -/
abbrev INIT_POSITION : Nat := 3
/-- Enumerator 4. -/
abbrev GRIPPER_OFF : Nat := 4
/-- Enumerator 5. -/
abbrev MOVE_ARM : Nat := 5
/-- Enumerator 6. -/
abbrev CLOSE_TO_OBJECT : Nat := 6
/-- Enumerator 7. -/
abbrev GRIP_OBJECT : Nat := 7
/-- Enumerator 8. -/
abbrev PICK_OBJECT_UP : Nat := 8
/-- Enumerator 9. -/
abbrev WAITING_FOR_STOP : Nat := 9

/-- The message `geometry_msgs::Point`. -/
structure Point (R : Type) where
  x : R
  y : R
  z : R
deriving DecidableEq

/-- The message `geometry_msgs::Quaternion`. -/
structure Quaternion (R : Type) where
  x : R
  y : R
  z : R
  w : R
deriving DecidableEq

/-- The message `geometry_msgs::Pose`. -/
structure Pose (R : Type) where
  position : Point R
  orientation : Quaternion R
deriving DecidableEq

/-- The message `std_msgs::Header`. -/
structure Header where
  seq : Nat
  stamp_sec : Nat
  stamp_nsec : Nat
  frame_id : String
deriving DecidableEq

/-- The message `geometry_msgs::PoseStamped`. -/
structure PoseStamped (R : Type) where
  header : Header
  pose : Pose R
deriving DecidableEq

/-- The message `ar_track_alvar_msgs::AlvarMarker`. -/
structure AlvarMarker (R : Type) where
  header : Header
  id : Nat
  confidence : Nat
  pose : PoseStamped R
deriving DecidableEq

/-- The `State` struct of `pick.cpp`; `true` is `STOPPED` for `arm` and `gripper`. -/
structure State where
  arm : Bool
  gripper : Bool
  marker : Bool
deriving DecidableEq, Repr

/-- The global variables of `pick.cpp` together with `planning_cnt`, the function-static
counter of `pick()` (a `uint8_t`, like `task` and `pre_task`). -/
structure PickGlobals (R : Type) where
  ar_marker_pose : AlvarMarker R
  desired_pose : PoseStamped R
  state : State
  task : Nat
  pre_task : Nat
  roll : R
  pitch : R
  yaw : R
  tolerance : R
  planning_cnt : Nat
deriving DecidableEq

/-- The arithmetic of `double` whose results are not exact numbers: the four functions of
the C math library used by `calcDesiredPose`, and the addition `add` used by
`tolerance += 0.005`. -/
structure LibM (R : Type) where
  sqrt : R → R
  acos : R → R
  cos : R → R
  sin : R → R
  add : R → R → R

/-- Request part of `open_manipulator_msgs::SetJointPosition`. -/
structure JointPositionRequest (R : Type) where
  joint_name : List String
  position : List R
  max_velocity_scaling_factor : R
  max_accelerations_scaling_factor : R
deriving DecidableEq

/-- Request part of `open_manipulator_msgs::SetKinematicsPose`. -/
structure KinematicsPoseRequest (R : Type) where
  group_name : String
  pose : Pose R
  max_velocity_scaling_factor : R
  max_accelerations_scaling_factor : R
  tolerance : R
deriving DecidableEq

/-- What a `pick()` cycle sends out: a call of one of the four service clients, or an
error line (`ROS_ERROR`, with its format string and numeric arguments).  `ROS_INFO` and
`ROS_WARN` lines and the one second `WallDuration` sleeps are not recorded. -/
inductive Event (R : Type) where
  | joint_position_command (req : JointPositionRequest R)
  | gripper_position_command (req : JointPositionRequest R)
  | kinematics_pose_command (req : KinematicsPoseRequest R)
  | pick_result (state : String)
  | ROS_ERROR (format : String) (args : List R)
deriving DecidableEq

/-- What the outside answers during one `pick()` cycle.  A cycle calls at most one goal
service: `goal` is `none` when that call fails and `some isPlanned` otherwise.  The field
`result` tells whether the call of `pick_result_client` succeeds. -/
structure Replies where
  goal : Option Bool
  result : Bool
deriving DecidableEq, Repr

/-- The message `open_manipulator_msgs::State`: its field `robot` and the two string
constants of the message type, which is declared outside these sources. -/
structure StateMsg where
  robot : String
  STOPPED : String
  IS_MOVING : String
deriving DecidableEq, Repr

/-! ## Sequencer: the service wrappers -/

section Sequencer

variable {R : Type} [LinearOrderedField R]

/-- Value-initialized `geometry_msgs::PoseStamped`. -/
def PoseStamped.zero : PoseStamped R :=
  { header := { seq := 0, stamp_sec := 0, stamp_nsec := 0, frame_id := "" }
    pose := { position := { x := 0, y := 0, z := 0 }
              orientation := { x := 0, y := 0, z := 0, w := 0 } } }

/-- Lines 87-95 (and 115-123, 141-149): the outcome of a goal service call that sent
`cmd`: the reply, or `false` and an error line when the call itself fails. -/
def callOutcome (cmd : Event R) (reply : Option Bool) : Bool × List (Event R) :=
  match reply with
  | some isPlanned => (isPlanned, [cmd])
  | none => (false, [cmd, Event.ROS_ERROR "FAILED TO CALL SERVER" []])

/-- Lines 70-96. -/
def initJointPosition (reply : Option Bool) : Bool × List (Event R) :=
  let msg : JointPositionRequest R :=
    { joint_name := ["joint1", "joint2", "joint3", "joint4"]
      position := [0, -(65 / 100), 120 / 100, -(54 / 100)]
      max_velocity_scaling_factor := 3 / 10
      max_accelerations_scaling_factor := 5 / 10 }
  callOutcome (Event.joint_position_command msg) reply

/-- Lines 98-124. -/
def pickUpJointPosition (reply : Option Bool) : Bool × List (Event R) :=
  let msg : JointPositionRequest R :=
    { joint_name := ["joint1", "joint2", "joint3", "joint4"]
      position := [0, -(95 / 100), 95 / 100, 0]
      max_velocity_scaling_factor := 1 / 10
      max_accelerations_scaling_factor := 5 / 10 }
  callOutcome (Event.joint_position_command msg) reply

/-- Lines 126-150; only one position is pushed for the two joint names. -/
def gripper (onoff : Bool) (reply : Option Bool) : Bool × List (Event R) :=
  let msg : JointPositionRequest R :=
    { joint_name := ["grip_joint", "grip_joint_sub"]
      position := if onoff = true then [1 / 100] else [-(1 / 100)]
      max_velocity_scaling_factor := 3 / 10
      max_accelerations_scaling_factor := 1 / 100 }
  callOutcome (Event.gripper_position_command msg) reply

/-- Lines 152-167. -/
def result (result_msg : String) (callOk : Bool) : Bool × List (Event R) :=
  if callOk = true then (true, [Event.pick_result result_msg])
  else (false, [Event.pick_result result_msg, Event.ROS_ERROR "FAILED TO CALL SERVER" []])

/-- Lines 169-210.  Returns `get_pose` and the globals with `yaw` and `state.marker`
updated. -/
def calcDesiredPose (m : LibM R) (marker : AlvarMarker R) (g : PickGlobals R) :
    PoseStamped R × PickGlobals R :=
  if marker.id = MARKER_ID then
    let dist := m.sqrt (marker.pose.pose.position.x * marker.pose.pose.position.x
      + marker.pose.pose.position.y * marker.pose.pose.position.y)
    let yaw :=
      if marker.pose.pose.position.y > 0 then m.acos (marker.pose.pose.position.x / dist)
      else (-1) * m.acos (marker.pose.pose.position.x / dist)
    let cy := m.cos (yaw * (1 / 2))
    let sy := m.sin (yaw * (1 / 2))
    let cr := m.cos (g.roll * (1 / 2))
    let sr := m.sin (g.roll * (1 / 2))
    let cp := m.cos (g.pitch * (1 / 2))
    let sp := m.sin (g.pitch * (1 / 2))
    let get_pose : PoseStamped R :=
      { header := marker.pose.header
        pose :=
          { position :=
              { x := marker.pose.pose.position.x - 145 / 1000
                y := 0
                z := marker.pose.pose.position.z + 150 / 1000 }
            orientation :=
              { w := cy * cr * cp + sy * sr * sp
                x := cy * sr * cp - sy * cr * sp
                y := cy * cr * sp + sy * sr * cp
                z := sy * cr * cp - cy * sr * sp } } }
    (get_pose, { g with yaw := yaw, state := { g.state with marker := true } })
  else
    (PoseStamped.zero, { g with state := { g.state with marker := false } })

/-! ## Sequencer: the callbacks -/

/-- Lines 213-226.  Returns the globals and `res.result`. -/
def pickMsgCallback (g : PickGlobals R) : PickGlobals R × String :=
  if g.state.arm = STOPPED ∧ g.state.gripper = STOPPED then
    ({ g with task := CHECK_AR_MARKER_POSE }, "START PICK TASK!")
  else
    ({ g with task := WAITING_FOR_SIGNAL }, "SOME TASKS IS WORKING")

/-- Lines 228-236. -/
def armStateMsgCallback (msg : StateMsg) (g : PickGlobals R) : PickGlobals R :=
  if msg.robot = msg.STOPPED then { g with state := { g.state with arm := STOPPED } }
  else if msg.robot = msg.IS_MOVING then { g with state := { g.state with arm := IS_MOVING } }
  else g

/-- Lines 238-246. -/
def gripperStateMsgCallback (msg : StateMsg) (g : PickGlobals R) : PickGlobals R :=
  if msg.robot = msg.STOPPED then { g with state := { g.state with gripper := STOPPED } }
  else if msg.robot = msg.IS_MOVING then
    { g with state := { g.state with gripper := IS_MOVING } }
  else g

/-- Lines 248-254. -/
def arMarkerPoseMsgCallback (markers : List (AlvarMarker R)) (g : PickGlobals R) :
    PickGlobals R :=
  match markers with
  | [] => g
  | first :: _ => { g with ar_marker_pose := first }

/-! ## Sequencer: `pick()` -/

/-- The pose request of `MOVE_ARM` (lines 348-352). -/
def moveArmRequest (g : PickGlobals R) : KinematicsPoseRequest R :=
  { group_name := "arm"
    pose := g.desired_pose.pose
    max_velocity_scaling_factor := 1 / 10
    max_accelerations_scaling_factor := 5 / 10
    tolerance := g.tolerance }

/-- The pose request of `CLOSE_TO_OBJECT` (lines 383-406): `object_pose` is the desired
pose moved by `0.030 + 0.040` along x. -/
def closeToObjectRequest (g : PickGlobals R) : KinematicsPoseRequest R :=
  { group_name := "arm"
    pose := { g.desired_pose.pose with
      position := { g.desired_pose.pose.position with
        x := g.desired_pose.pose.position.x + (30 / 1000 + 40 / 1000) } }
    max_velocity_scaling_factor := 1 / 10
    max_accelerations_scaling_factor := 1 / 10
    tolerance := g.tolerance }

/-- Lines 354-375 and 408-429: the call of `kinematics_pose_command_client` and what
follows it in the step `this_task`.  A failed call changes nothing and logs nothing; the
reply `planned = false` replaces the tolerance by the `double` sum `tolerance + 0.005`. -/
def poseGoal (m : LibM R) (this_task : Nat) (req : KinematicsPoseRequest R)
    (reply : Option Bool) (g : PickGlobals R) : PickGlobals R × List (Event R) :=
  match reply with
  | none => (g, [Event.kinematics_pose_command req])
  | some true =>
      ({ g with pre_task := this_task, task := WAITING_FOR_STOP },
        [Event.kinematics_pose_command req])
  | some false =>
      ({ g with
          planning_cnt := (g.planning_cnt + 1) % 256
          tolerance := m.add g.tolerance (5 / 1000)
          task := this_task },
        [Event.kinematics_pose_command req,
          Event.ROS_ERROR "PLANNING IS FAILED (%d, tolerance : %.2f)"
            [(((g.planning_cnt + 1) % 256 : Nat) : R), m.add g.tolerance (5 / 1000)]])

/-- Lines 285-302, 311-328 and 437-454: what follows the call of a joint or gripper
wrapper that returned `out`, in the step `this_task`; on failure the next step is
`retry_task`. -/
def afterWrapper (this_task retry_task : Nat) (out : Bool × List (Event R))
    (g : PickGlobals R) : PickGlobals R × List (Event R) :=
  if out.1 = true then
    ({ g with pre_task := this_task, task := WAITING_FOR_STOP }, out.2)
  else
    ({ g with planning_cnt := (g.planning_cnt + 1) % 256, task := retry_task },
      out.2 ++ [Event.ROS_ERROR "PLANNING IS FAILED (%d)"
        [(((g.planning_cnt + 1) % 256 : Nat) : R)]])

/-- Lines 256-493: one call of `pick()`. -/
def pick (m : LibM R) (r : Replies) (g : PickGlobals R) : PickGlobals R × List (Event R) :=
  if g.task = CHECK_AR_MARKER_POSE then
    let g1 := { (calcDesiredPose m g.ar_marker_pose g).2 with
      desired_pose := (calcDesiredPose m g.ar_marker_pose g).1 }
    if g1.state.marker = true then ({ g1 with task := INIT_POSITION }, [])
    else
      ({ g1 with task := WAITING_FOR_SIGNAL },
        [Event.ROS_ERROR "CAN NOT FIND AR MARKER(ID : 8)" []])
  else if g.task = INIT_POSITION then
    if g.state.arm = STOPPED then
      afterWrapper INIT_POSITION INIT_POSITION (initJointPosition r.goal) g
    else (g, [])
  else if g.task = GRIPPER_OFF then
    if g.state.gripper = STOPPED then
      afterWrapper GRIPPER_OFF INIT_POSITION (gripper false r.goal) g
    else (g, [])
  else if g.task = MOVE_ARM then
    if g.state.arm = STOPPED then poseGoal m MOVE_ARM (moveArmRequest g) r.goal g
    else (g, [])
  else if g.task = CLOSE_TO_OBJECT then
    if g.state.arm = STOPPED then
      poseGoal m CLOSE_TO_OBJECT (closeToObjectRequest g) r.goal g
    else (g, [])
  else if g.task = GRIP_OBJECT then
    if g.state.gripper = STOPPED then
      afterWrapper GRIP_OBJECT INIT_POSITION (gripper true r.goal) g
    else (g, [])
  else if g.task = PICK_OBJECT_UP then
    if g.state.arm = STOPPED then
      ({ g with pre_task := PICK_OBJECT_UP, task := WAITING_FOR_STOP },
        (pickUpJointPosition r.goal).2)
    else (g, [])
  else if g.task = WAITING_FOR_STOP then
    if g.state.arm = STOPPED ∧ g.state.gripper = STOPPED then
      if g.pre_task = PICK_OBJECT_UP then
        ({ g with tolerance := 1 / 100, planning_cnt := 0, task := WAITING_FOR_SIGNAL },
          (result "Success" r.result).2)
      else
        ({ g with tolerance := 1 / 100, planning_cnt := 0, task := (g.pre_task + 1) % 256 },
          [])
    else (g, [])
  else (g, [])

/-- The initial values of the globals (lines 57-68 and 262). -/
def PickGlobals.init : PickGlobals R :=
  { ar_marker_pose :=
      { header := { seq := 0, stamp_sec := 0, stamp_nsec := 0, frame_id := "" }
        id := 0, confidence := 0, pose := PoseStamped.zero }
    desired_pose := PoseStamped.zero
    state := { arm := false, gripper := false, marker := false }
    task := 0, pre_task := 0
    roll := 0, pitch := 0, yaw := 0
    tolerance := 1 / 100
    planning_cnt := 0 }

/-! ## Sequencer: executions -/

/-- What can happen in the main loop: a call of `pick()` (with the replies it gets) or
one of the four callbacks run by `spinOnce`. -/
inductive Input (R : Type) where
  | pick (r : Replies)
  | pickMsg
  | armState (msg : StateMsg)
  | gripperState (msg : StateMsg)
  | arMarkerPose (markers : List (AlvarMarker R))

/-- The effect of one input. -/
def step (m : LibM R) (i : Input R) (g : PickGlobals R) : PickGlobals R × List (Event R) :=
  match i with
  | Input.pick r => pick m r g
  | Input.pickMsg => ((pickMsgCallback g).1, [])
  | Input.armState msg => (armStateMsgCallback msg g, [])
  | Input.gripperState msg => (gripperStateMsgCallback msg g, [])
  | Input.arMarkerPose markers => (arMarkerPoseMsgCallback markers g, [])

/-- An execution: the inputs are handled one after the other. -/
def run (m : LibM R) : List (Input R) → PickGlobals R → PickGlobals R × List (Event R)
  | [], g => (g, [])
  | i :: rest, g =>
      ((run m rest (step m i g).1).1, (step m i g).2 ++ (run m rest (step m i g).1).2)

/-- Successive `pick()` cycles with no callback in between. -/
def pickCycles (m : LibM R) (rs : List Replies) (g : PickGlobals R) :
    PickGlobals R × List (Event R) :=
  run m (rs.map Input.pick) g

/-- The value of `task` at the start of each of the successive `pick()` cycles. -/
def visited (m : LibM R) : List Replies → PickGlobals R → List Nat
  | [], _ => []
  | r :: rest, g => g.task :: visited m rest (pick m r g).1

/-- A goal command: a call of one of the three goal services. -/
def Event.isGoal : Event R → Bool
  | Event.joint_position_command _ => true
  | Event.gripper_position_command _ => true
  | Event.kinematics_pose_command _ => true
  | _ => false

/-- A report on the result channel. -/
def Event.isResult : Event R → Bool
  | Event.pick_result _ => true
  | _ => false

/-- Watches an execution for overlapping goals: `pending` is set by a goal command that
returned `planned = true` and cleared by a `pick()` cycle in `WAITING_FOR_STOP` that
reads both actuators as stopped; `violated` records a goal command issued while
`pending`. -/
structure Barrier where
  pending : Bool
  violated : Bool
deriving DecidableEq, Repr

/-- The watch over one input handled in globals `g`. -/
def Barrier.observe (m : LibM R) (i : Input R) (g : PickGlobals R) (b : Barrier) : Barrier :=
  match i with
  | Input.pick r =>
      let issues := (pick m r g).2.any Event.isGoal
      { violated := b.violated || (b.pending && issues)
        pending :=
          if issues = true ∧ r.goal = some true then true
          else if g.task = WAITING_FOR_STOP ∧ g.state.arm = STOPPED
              ∧ g.state.gripper = STOPPED then false
          else b.pending }
  | _ => b

/-- The watch over an execution. -/
def runWatched (m : LibM R) : List (Input R) → PickGlobals R → Barrier → Barrier
  | [], _, b => b
  | i :: rest, g, b => runWatched m rest (step m i g).1 (Barrier.observe m i g b)

/-- Successive marker messages, oldest first, each handled by
`arMarkerPoseMsgCallback`. -/
def arMarkerPoseMsgs (msgs : List (List (AlvarMarker R))) (g : PickGlobals R) : PickGlobals R :=
  msgs.foldl (fun g1 markers => arMarkerPoseMsgCallback markers g1) g

/-- The arithmetic used to evaluate the sequencer on concrete inputs over the rationals:
the addition is the `double` addition; each of the four functions of the math library
is the identity (they enter only the orientation of the desired pose). -/
def LibM.identity : LibM ℚ :=
  { sqrt := id, acos := id, cos := id, sin := id, add := doubleAdd }

end Sequencer

/-! ## Controller: `calThread` and the locals of `commTimerThread` -/

/-- Lines 175-186: one iteration of the `while` loop of `calThread` up to the enqueue.
The deadline is advanced as in `commTimerThread`; `next_time_s` is handed to
`calculationProcess`, whose two results are the arguments.  Returns the loop state and
`next_time_s`. -/
def calThreadStep (tempJointWayPoint : JointWayPoint) (tempToolWayPoint : List ℚ)
    (l : CommLoop) : CommLoop × ℚ :=
  let next_time := advanceDeadline l.controller.control_period_ l.next_time
  ({ controller := calThreadPush tempJointWayPoint tempToolWayPoint l.controller
     next_time := next_time },
    (next_time.tv_sec : ℚ) + (next_time.tv_nsec : ℚ) * (1 / 1000000000))

/-- The two locals of `commTimerThread` that carry the sets to transmit (lines
102-103). -/
structure CommLocals where
  tx_joint_way_point : JointWayPoint
  tx_tool_way_point : List ℚ
deriving DecidableEq, Repr

/-- Both locals are default-constructed, that is empty, when the thread starts. -/
def CommLocals.initial : CommLocals := { tx_joint_way_point := [], tx_tool_way_point := [] }

/-- Lines 114-128 with the locals explicit: a local is assigned only when its queue is
not empty. -/
def commTimerDequeue (c : OM_CONTROLLER) (tx : CommLocals) : OM_CONTROLLER × CommLocals :=
  let (c1, tx1) :=
    match c.joint_way_point_buf_ with
    | [] => (c, tx)
    | front :: rest =>
        ({ c with present_joint_value := front, joint_way_point_buf_ := rest },
          { tx with tx_joint_way_point := front })
  match c1.tool_way_point_buf_ with
  | [] => (c1, tx1)
  | front :: rest =>
      ({ c1 with tool_way_point_buf_ := rest }, { tx1 with tx_tool_way_point := front })

/-- Lines 114-132: dequeue, hand both locals to the actuators, clear both locals.
Returns the controller, the locals left for the next iteration, and the call made. -/
def commTimerTransfer (c : OM_CONTROLLER) (tx : CommLocals) :
    OM_CONTROLLER × CommLocals × CommEvent :=
  let (c1, tx1) := commTimerDequeue c tx
  (c1, { tx_joint_way_point := [], tx_tool_way_point := [] },
    CommEvent.communicationProcessToActuator tx1.tx_joint_way_point tx1.tx_tool_way_point)

/-! ## `OPEN_MANIPULATOR::openManipulatorProcess` -/

/-- A call made by `openManipulatorProcess` on the manipulator library. -/
inductive ProcessCall where
  | getJointGoalValueFromTrajectory (present_time : ℚ)
  | getToolGoalValue
  | receiveAllJointActuatorValue
  | receiveAllToolActuatorValue
  | sendAllJointActuatorValue (goal_value : List WayPoint)
  | sendAllToolActuatorValue (tool_value : List ℚ)
  | setAllActiveJointWayPoint (goal_value : List WayPoint)
  | setAllToolValue (tool_value : List ℚ)
  | forwardKinematics
deriving DecidableEq, Repr

/-- Lines 159-177 of `OpenManipulator.cpp`: the calls made, in order.  The arguments
`goal_value` and `tool_value` are what the two getters return. -/
def openManipulatorProcess (platform_ : Bool) (present_time : ℚ)
    (goal_value : List WayPoint) (tool_value : List ℚ) : List ProcessCall :=
  [ProcessCall.getJointGoalValueFromTrajectory present_time, ProcessCall.getToolGoalValue]
    ++ (if platform_ = true then
          [ProcessCall.receiveAllJointActuatorValue, ProcessCall.receiveAllToolActuatorValue]
            ++ (if goal_value.length ≠ 0 then [ProcessCall.sendAllJointActuatorValue goal_value]
                else [])
            ++ (if tool_value.length ≠ 0 then [ProcessCall.sendAllToolActuatorValue tool_value]
                else [])
        else
          (if goal_value.length ≠ 0 then [ProcessCall.setAllActiveJointWayPoint goal_value]
            else [])
            ++ (if tool_value.length ≠ 0 then [ProcessCall.setAllToolValue tool_value]
                else []))
    ++ [ProcessCall.forwardKinematics]

/-- The calls that read from, write to or set the values of the joints and the tool:
all calls but the two trajectory getters and the forward kinematics. -/
def ProcessCall.isSinkOperation : ProcessCall → Bool
  | ProcessCall.getJointGoalValueFromTrajectory _ => false
  | ProcessCall.getToolGoalValue => false
  | ProcessCall.forwardKinematics => false
  | _ => true

/-! ## Controller: stopping and restarting the transmit thread -/

/-- An effect of the destructor, of `startCommTimerThread` or of
`setActuatorStateCallback`; `pthread_create` carries its return value. -/
inductive ControllerEffect where
  | set_comm_timer_thread_flag (value : Bool)
  | pthread_join
  | pthread_create (error : Int)
  | allActuatorEnable
  | allActuatorDisable
  | log (text : String)
  | ros_shutdown
  | exit (code : Int)
deriving DecidableEq, Repr

/-- Lines 90-96 of `startCommTimerThread`. -/
def startCommTimerThread (error : Int) : List ControllerEffect :=
  ControllerEffect.pthread_create error ::
    (if error ≠ 0 then
      [ControllerEffect.log "Creating timer thread failed!!", ControllerEffect.exit (-1)]
    else [ControllerEffect.set_comm_timer_thread_flag true])

/-- Lines 54-61: the destructor of `OM_CONTROLLER`. -/
def OM_CONTROLLER.destructor : List ControllerEffect :=
  [ControllerEffect.set_comm_timer_thread_flag false, ControllerEffect.pthread_join,
    ControllerEffect.log "Shutdown the OpenManipulator", ControllerEffect.allActuatorDisable,
    ControllerEffect.ros_shutdown]

/-- Lines 429-451; `error` is the return value of the `pthread_create` of the restart. -/
def setActuatorStateCallback (set_actuator_state : Bool) (error : Int) :
    List ControllerEffect :=
  if set_actuator_state = true then
    [ControllerEffect.log "Wait a second for actuator enable",
      ControllerEffect.set_comm_timer_thread_flag false, ControllerEffect.pthread_join,
      ControllerEffect.allActuatorEnable] ++ startCommTimerThread error
  else
    [ControllerEffect.log "Wait a second for actuator disable",
      ControllerEffect.set_comm_timer_thread_flag false, ControllerEffect.pthread_join,
      ControllerEffect.allActuatorDisable] ++ startCommTimerThread error

/-- The transmit thread as seen by the main thread: the run flag tested by the loop of
`commTimerThread`, and whether the thread exists. -/
structure TransmitThread where
  comm_timer_thread_flag_ : Bool
  running : Bool
deriving DecidableEq, Repr

/-- The effect on the transmit thread: `pthread_join` returns once the thread has ended,
a successful `pthread_create` starts it. -/
def ControllerEffect.apply (e : ControllerEffect) (s : TransmitThread) : TransmitThread :=
  match e with
  | ControllerEffect.set_comm_timer_thread_flag value => { s with comm_timer_thread_flag_ := value }
  | ControllerEffect.pthread_join => { s with running := false }
  | ControllerEffect.pthread_create error => if error = 0 then { s with running := true } else s
  | _ => s

/-- The calls that enable or disable all actuators. -/
def ControllerEffect.isActuatorCall : ControllerEffect → Bool
  | ControllerEffect.allActuatorEnable => true
  | ControllerEffect.allActuatorDisable => true
  | _ => false

/-- The effects the ordering is about: clearing the run flag, the join, the actuator
calls and the creation of the thread. -/
def ControllerEffect.isOrdered : ControllerEffect → Bool
  | ControllerEffect.set_comm_timer_thread_flag value => !value
  | ControllerEffect.pthread_join => true
  | ControllerEffect.pthread_create _ => true
  | ControllerEffect.allActuatorEnable => true
  | ControllerEffect.allActuatorDisable => true
  | _ => false

/-- Whether every actuator call of the effect sequence is made while the run flag is
cleared and the transmit thread has ended. -/
def actuatorCallsAfterStop : List ControllerEffect → TransmitThread → Bool
  | [], _ => true
  | e :: rest, s =>
      (!e.isActuatorCall || (!s.comm_timer_thread_flag_ && !s.running))
        && actuatorCallsAfterStop rest (e.apply s)

/-! ## Controller: interleavings of the two threads on the queues -/

/-- What the two threads do to the queues, each under the mutex: the enqueue of
`calThread` (lines 183-186) or the dequeue of a `commTimerThread` tick (lines 114-128). -/
inductive QueueOp where
  | push (tempJointWayPoint : JointWayPoint) (tempToolWayPoint : List ℚ)
  | tick
deriving DecidableEq, Repr

/-- What the dequeue of a tick takes from the front of each queue: `none` for a queue
whose `size()` is 0 (lines 116 and 122). -/
def commTimerTaken (c : OM_CONTROLLER) : Option JointWayPoint × Option (List ℚ) :=
  ((match c.joint_way_point_buf_ with
    | [] => none
    | front :: _ => some front),
   (match c.tool_way_point_buf_ with
    | [] => none
    | front :: _ => some front))

/-- One operation on the queues; a tick records what it took. -/
def queueStep (op : QueueOp) (c : OM_CONTROLLER) :
    OM_CONTROLLER × List (Option JointWayPoint × Option (List ℚ)) :=
  match op with
  | QueueOp.push j t => (calThreadPush j t c, [])
  | QueueOp.tick => ((commTimerPop c).1, [commTimerTaken c])

/-- An interleaving of enqueues and ticks, each atomic because of the mutex.  Returns the
controller and, per tick and in order, what the tick took. -/
def queueRun : List QueueOp → OM_CONTROLLER →
    OM_CONTROLLER × List (Option JointWayPoint × Option (List ℚ))
  | [], c => (c, [])
  | op :: rest, c =>
      ((queueRun rest (queueStep op c).1).1,
        (queueStep op c).2 ++ (queueRun rest (queueStep op c).1).2)

/-- The pair of sets an operation pushes, if it is an enqueue. -/
def QueueOp.pushed : QueueOp → Option (JointWayPoint × List ℚ)
  | QueueOp.push j t => some (j, t)
  | QueueOp.tick => none

/-- The pairs pushed by an interleaving, in order; one pair per generation cycle. -/
def pushedPairs (ops : List QueueOp) : List (JointWayPoint × List ℚ) :=
  ops.filterMap QueueOp.pushed

/-- The pair a tick took, when it took from both queues. -/
def takenPair : Option JointWayPoint × Option (List ℚ) → Option (JointWayPoint × List ℚ)
  | (some j, some t) => some (j, t)
  | _ => none

/-! ## Controller: stagings during a replay -/

/-- The values of the two function-static variables of `moveitTimer` before its first
call (lines 760-761). -/
def MoveitTimerStatics.initial : MoveitTimerStatics := { priv_time := 0, step_cnt := 0 }

/-- What the callback queue delivers to the replay: a staged plan
(`displayPlannedPathMsgCallback`) or a call of `moveitTimer`. -/
inductive ReplayInput where
  | displayPlannedPath (points : List JointTrajectoryPoint)
  | process (present_time : ℚ)
deriving DecidableEq, Repr

/-- The index at which a call of `moveitTimer` reads `joint_trajectory_.points` (lines
771-776), `none` when the call does not read it (lines 763 and 766). -/
def moveitTimerReads (present_time : ℚ) (c : OM_CONTROLLER) (st : MoveitTimerStatics) :
    Option Nat :=
  if c.moveit_plan_flag_ = true then
    if present_time - st.priv_time > c.moveit_sampling_time_ then some st.step_cnt
    else none
  else none

/-- Stagings and `moveitTimer` calls handled one after the other; `none` as soon as a
call of `moveitTimer` has no result. -/
def replayRun : List ReplayInput → OM_CONTROLLER → MoveitTimerStatics →
    Option (OM_CONTROLLER × MoveitTimerStatics × List JointTrajectoryMove)
  | [], c, st => some (c, st, [])
  | ReplayInput.displayPlannedPath points :: rest, c, st =>
      replayRun rest (displayPlannedPathMsgCallback points c) st
  | ReplayInput.process t :: rest, c, st =>
      match moveitTimer t c st with
      | none => none
      | some (c1, st1, evs1) =>
          match replayRun rest c1 st1 with
          | none => none
          | some (c2, st2, evs2) => some (c2, st2, evs1 ++ evs2)

/-! ## Controller: planning requests -/

/-- The message `open_manipulator_msgs::KinematicsPose`. -/
structure KinematicsPoseMsg where
  pose : Pose ℚ
  max_accelerations_scaling_factor : ℚ
  max_velocity_scaling_factor : ℚ
  tolerance : ℚ
deriving DecidableEq

/-- The message `open_manipulator_msgs::JointPosition`. -/
structure JointPositionMsg where
  joint_name : List String
  position : List ℚ
  max_accelerations_scaling_factor : ℚ
  max_velocity_scaling_factor : ℚ
deriving DecidableEq

/-- The calls made on `move_group_` while planning, and the warnings logged.  The call
`plan(my_plan)` is recorded with its reply: whether it returned `SUCCESS`. -/
inductive PlanEvent where
  | setPoseTarget (target_pose : Pose ℚ)
  | setJointValueTarget (joint_group_positions : List ℚ)
  | setMaxVelocityScalingFactor (factor : ℚ)
  | setMaxAccelerationScalingFactor (factor : ℚ)
  | setGoalTolerance (tolerance : ℚ)
  | plan (success : Bool)
  | ROS_WARN (text : String)
deriving DecidableEq

/-- Whether an event is a call of the planner. -/
def PlanEvent.isPlan : PlanEvent → Bool
  | PlanEvent.plan _ => true
  | _ => false

/-- Lines 580-599 (and 631-650): the part of `calcPlannedPath` after the targets are set.
`isMoving` is the value of `open_manipulator_.isMoving()`, `planSucceeds` is the reply
the planner gives if it is called: whether `move_group_->plan` returns `SUCCESS`. -/
def planUnlessMoving (warning_failed warning_moving : String) (isMoving planSucceeds : Bool) :
    Bool × List PlanEvent :=
  if isMoving = false then
    if planSucceeds = true then (true, [PlanEvent.plan planSucceeds])
    else (false, [PlanEvent.plan planSucceeds, PlanEvent.ROS_WARN warning_failed])
  else (false, [PlanEvent.ROS_WARN warning_moving])

/-- Lines 563-603: the overload of `calcPlannedPath` for a task space goal.  Returns
`is_planned` and the events. -/
def calcPlannedPathKinematicsPose (_planning_group : String) (msg : KinematicsPoseMsg)
    (isMoving planSucceeds : Bool) : Bool × List PlanEvent :=
  let out := planUnlessMoving "Failed to Plan (task space goal)" "Robot is Moving"
    isMoving planSucceeds
  (out.1,
    [PlanEvent.setPoseTarget msg.pose,
      PlanEvent.setMaxVelocityScalingFactor msg.max_velocity_scaling_factor,
      PlanEvent.setMaxAccelerationScalingFactor msg.max_accelerations_scaling_factor,
      PlanEvent.setGoalTolerance msg.tolerance] ++ out.2)

/-- Lines 605-654: the overload of `calcPlannedPath` for a joint space goal;
`joint_group_positions` is what `copyJointGroupPositions` yields for the planning group.
The loop of lines 619-622 has a `uint8_t` index and writes with `operator[]`: it ends,
and stays inside `joint_group_positions`, only for fewer than 256 positions that are not
more than the group has; otherwise the result is `none`. -/
def calcPlannedPathJointPosition (msg : JointPositionMsg) (joint_group_positions : List ℚ)
    (isMoving planSucceeds : Bool) : Option (Bool × List PlanEvent) :=
  if msg.position.length < 256 ∧ msg.position.length ≤ joint_group_positions.length then
    let out := planUnlessMoving "Failed to Plan (joint space goal)" "Robot is moving"
      isMoving planSucceeds
    some (out.1,
      [PlanEvent.setJointValueTarget
          (msg.position ++ joint_group_positions.drop msg.position.length),
        PlanEvent.setMaxVelocityScalingFactor msg.max_velocity_scaling_factor,
        PlanEvent.setMaxAccelerationScalingFactor msg.max_accelerations_scaling_factor]
        ++ out.2)
  else none

/-- Lines 553-561.  Returns the return value of the callback, `res.is_planned` and the
events. -/
def setKinematicsPoseMsgCallback (planning_group : String) (kinematics_pose : KinematicsPoseMsg)
    (isMoving planSucceeds : Bool) : Bool × Bool × List PlanEvent :=
  let out := calcPlannedPathKinematicsPose planning_group kinematics_pose isMoving planSucceeds
  (true, out.1, out.2)

/-- Lines 544-551.  Returns the return value of the callback, `res.is_planned` and the
events; `none` when `calcPlannedPath` has no result. -/
def setJointPositionMsgCallback (joint_position : JointPositionMsg)
    (joint_group_positions : List ℚ) (isMoving planSucceeds : Bool) :
    Option (Bool × Bool × List PlanEvent) :=
  match calcPlannedPathJointPosition joint_position joint_group_positions isMoving
      planSucceeds with
  | none => none
  | some out => some (true, out.1, out.2)

/-! ## Concrete states used in examples -/

/-- A controller with empty queues, a 10 ms control period and a 50 ms sampling time. -/
def OM_CONTROLLER.idle : OM_CONTROLLER :=
  { joint_way_point_buf_ := [], tool_way_point_buf_ := [], present_joint_value := []
    control_period_ := 1 / 100, moveit_sampling_time_ := 5 / 100
    moveit_plan_flag_ := false, joint_trajectory_ := [] }

/-- The default of `control_period_`: the `float` literal `0.010f` (lines 32 and 36),
stored in the `double` member. -/
def control_period_default : ℚ := 5368709 / 536870912

/-- Globals as after start-up, except that both actuators read Stopped and the stored
marker observation carries the recognized id (at position x = 3/10, y = 1/10, z = 0). -/
def PickGlobals.ready : PickGlobals ℚ :=
  { (PickGlobals.init : PickGlobals ℚ) with
    state := { arm := STOPPED, gripper := STOPPED, marker := false }
    ar_marker_pose :=
      { header := { seq := 0, stamp_sec := 0, stamp_nsec := 0, frame_id := "" }
        id := MARKER_ID, confidence := 0
        pose :=
          { header := { seq := 0, stamp_sec := 0, stamp_nsec := 0, frame_id := "" }
            pose := { position := { x := 3 / 10, y := 1 / 10, z := 0 }
                      orientation := { x := 0, y := 0, z := 0, w := 1 } } } } }

/-- The replies of a cycle whose goal call is answered `planned = true`. -/
def Replies.planned : Replies := { goal := some true, result := true }

/-- The replies of a cycle whose goal call is answered `planned = false`. -/
def Replies.failed : Replies := { goal := some false, result := true }

/-- A staged plan of three points for two joints, replayed with the 50 ms sampling
time. -/
def OM_CONTROLLER.staged : OM_CONTROLLER :=
  displayPlannedPathMsgCallback
    [{ positions := [0, 0], velocities := [0, 0], accelerations := [0, 0] },
      { positions := [1, 2], velocities := [1, 1], accelerations := [0, 0] },
      { positions := [2, 4], velocities := [0, 0], accelerations := [0, 0] }]
    OM_CONTROLLER.idle

/-- A feedback message saying "stopped" (the constants are those of the message type). -/
def StateMsg.stopped : StateMsg :=
  { robot := "STOPPED", STOPPED := "STOPPED", IS_MOVING := "IS_MOVING" }

/-- An execution from start-up: both actuators report Stopped, a marker with the
recognized id is seen, a start signal arrives, and five `pick()` cycles answered
`planned = true` lead through CHECK_MARKER, INIT_POSITION, WAITING_FOR_STOP, GRIPPER_OFF
and WAITING_FOR_STOP to MOVE_ARM. -/
def reachMoveArm : List (Input ℚ) :=
  [Input.armState StateMsg.stopped, Input.gripperState StateMsg.stopped,
    Input.arMarkerPose [PickGlobals.ready.ar_marker_pose], Input.pickMsg,
    Input.pick { goal := some true, result := true },
    Input.pick { goal := some true, result := true },
    Input.pick { goal := some true, result := true },
    Input.pick { goal := some true, result := true },
    Input.pick { goal := some true, result := true }]

/-- An execution from start-up in which a start signal arrives right after the
INIT_POSITION goal was planned, while the feedback still reads Stopped. -/
def restartDuringMotion : List (Input ℚ) :=
  [Input.armState StateMsg.stopped, Input.gripperState StateMsg.stopped,
    Input.arMarkerPose [PickGlobals.ready.ar_marker_pose], Input.pickMsg,
    Input.pick { goal := some true, result := true },
    Input.pick { goal := some true, result := true },
    Input.pickMsg,
    Input.pick { goal := some true, result := true },
    Input.pick { goal := some true, result := true }]

/-- An execution from start-up that reaches GRIPPER_OFF: the first seven inputs of
`reachMoveArm`. -/
def reachGripperOff : List (Input ℚ) :=
  [Input.armState StateMsg.stopped, Input.gripperState StateMsg.stopped,
    Input.arMarkerPose [PickGlobals.ready.ar_marker_pose], Input.pickMsg,
    Input.pick Replies.planned, Input.pick Replies.planned, Input.pick Replies.planned]

/-- An execution of the replay from start-up: a plan of three points is staged, two calls
of `moveitTimer` one second apart advance the cursor to 2, and then a plan of one point
is staged while the replay is still armed. -/
def restageDuringReplay : List ReplayInput :=
  [ReplayInput.displayPlannedPath OM_CONTROLLER.staged.joint_trajectory_,
    ReplayInput.process 1,
    ReplayInput.process 2,
    ReplayInput.displayPlannedPath
      [{ positions := [5, 5], velocities := [0, 0], accelerations := [0, 0] }]]

/-! # Theorems -/

/-! ## The type `double`: rounding -/

theorem log2Aux_spec (fuel n : Nat) (hf : n ≤ fuel) (hn : n ≠ 0) :
    2 ^ log2Aux fuel n ≤ n ∧ n < 2 ^ (log2Aux fuel n + 1) := by
  induction fuel generalizing n with
  | zero => omega
  | succ fuel ih =>
    unfold log2Aux
    by_cases h2 : n < 2
    · rw [if_pos h2]
      have : n = 1 := by omega
      subst this
      decide
    · rw [if_neg h2]
      have h := ih (n / 2) (by omega) (by omega)
      rw [pow_succ, pow_succ] at *
      constructor
      · omega
      · omega

theorem floorLog2_spec (n : Nat) (hn : n ≠ 0) :
    2 ^ floorLog2 n ≤ n ∧ n < 2 ^ (floorLog2 n + 1) :=
  log2Aux_spec n n (le_refl n) hn

theorem roundHalfEven_le (a b N : Nat) (hb : 0 < b) (h : a ≤ N * b) : roundHalfEven a b ≤ N := by
  have hq : a / b ≤ N := Nat.div_le_of_le_mul (by rw [Nat.mul_comm]; exact h)
  unfold roundHalfEven
  rcases Nat.lt_or_eq_of_le hq with hlt | heq
  · split
    · omega
    · split
      · omega
      · split <;> omega
  · have hm : a % b = 0 := by
      have := Nat.div_add_mod a b
      rw [heq] at this
      have h3 : b * N = N * b := Nat.mul_comm _ _
      omega
    rw [if_pos (by omega)]
    exact hq

theorem roundHalfEven_le_of_lt_half (a b N : Nat) (hb : 0 < b)
    (h : 2 * a < (2 * N + 1) * b) : roundHalfEven a b ≤ N := by
  have hdm := Nat.div_add_mod a b
  have hmod := Nat.mod_lt a hb
  have hq : a / b ≤ N := by
    by_contra hc
    have hc : N + 1 ≤ a / b := by omega
    have h1 : b * (N + 1) ≤ b * (a / b) := Nat.mul_le_mul_left _ hc
    have e1 : b * (N + 1) = b * N + b := by ring
    have e2 : (2 * N + 1) * b = 2 * (b * N) + b := by ring
    omega
  unfold roundHalfEven
  rcases Nat.lt_or_eq_of_le hq with hlt | heq
  · split
    · omega
    · split
      · omega
      · split <;> omega
  · have e2 : (2 * N + 1) * b = 2 * (b * N) + b := by ring
    rw [heq] at hdm
    rw [if_pos (by omega)]
    exact hq

theorem le_roundHalfEven (a b N : Nat) (hb : 0 < b) (h : N * b ≤ a) : N ≤ roundHalfEven a b := by
  have hq : N ≤ a / b := (Nat.le_div_iff_mul_le hb).2 h
  unfold roundHalfEven
  split
  · exact hq
  · split
    · omega
    · split <;> omega

theorem le_roundHalfEven_of_half_lt (a b N : Nat) (hb : 0 < b)
    (h : (2 * N - 1) * b < 2 * a) : N ≤ roundHalfEven a b := by
  have hdm := Nat.div_add_mod a b
  have hmod := Nat.mod_lt a hb
  by_cases hN : N = 0
  · omega
  have hq : N - 1 ≤ a / b := by
    by_contra hc
    have hc : a / b + 1 ≤ N - 1 := by omega
    have h1 : b * (a / b + 1) ≤ b * (N - 1) := Nat.mul_le_mul_left _ hc
    have h2 : 2 * N - 1 = 2 * (N - 1) + 1 := by omega
    rw [h2] at h
    have e1 : b * (a / b + 1) = b * (a / b) + b := by ring
    have e2 : (2 * (N - 1) + 1) * b = 2 * (b * (N - 1)) + b := by ring
    omega
  unfold roundHalfEven
  rcases Nat.lt_or_eq_of_le hq with hlt | heq
  · split
    · omega
    · split
      · omega
      · split <;> omega
  · have h2 : 2 * N - 1 = 2 * (a / b) + 1 := by omega
    rw [h2] at h
    have e2 : (2 * (a / b) + 1) * b = 2 * (b * (a / b)) + b := by ring
    have h3 : b < 2 * (a % b) := by omega
    rw [if_neg (by omega), if_pos h3]
    omega

theorem binade_spec (n d : Nat) (hn : 0 < n) (hd : 0 < d) :
    (2 : ℚ) ^ binade n d ≤ (n : ℚ) / d ∧ (n : ℚ) / d < (2 : ℚ) ^ (binade n d + 1) := by
  obtain ⟨ha1, ha2⟩ := floorLog2_spec n (by omega)
  obtain ⟨hb1, hb2⟩ := floorLog2_spec d (by omega)
  have hdq : (0 : ℚ) < d := by exact_mod_cast hd
  have hA : (0 : ℚ) < (2 : ℚ) ^ floorLog2 n := by positivity
  have hB : (0 : ℚ) < (2 : ℚ) ^ floorLog2 d := by positivity
  have ha1q : (2 : ℚ) ^ floorLog2 n ≤ n := by exact_mod_cast ha1
  have ha2q : (n : ℚ) < 2 * (2 : ℚ) ^ floorLog2 n := by
    have : n < 2 * 2 ^ floorLog2 n := by rw [pow_succ] at ha2; omega
    exact_mod_cast this
  have hb1q : (2 : ℚ) ^ floorLog2 d ≤ d := by exact_mod_cast hb1
  have hb2q : (d : ℚ) < 2 * (2 : ℚ) ^ floorLog2 d := by
    have : d < 2 * 2 ^ floorLog2 d := by rw [pow_succ] at hb2; omega
    exact_mod_cast this
  have hz : (2 : ℚ) ^ ((floorLog2 n : Int) - (floorLog2 d : Int))
      = (2 : ℚ) ^ floorLog2 n / (2 : ℚ) ^ floorLog2 d := by
    rw [zpow_sub₀ (by norm_num), zpow_natCast, zpow_natCast]
  have hC : ((floorLog2 d ≤ floorLog2 n ∧ d * 2 ^ (floorLog2 n - floorLog2 d) ≤ n)
      ∨ (floorLog2 n < floorLog2 d ∧ d ≤ n * 2 ^ (floorLog2 d - floorLog2 n)))
      ↔ (d : ℚ) * (2 : ℚ) ^ floorLog2 n ≤ n * (2 : ℚ) ^ floorLog2 d := by
    by_cases hle : floorLog2 d ≤ floorLog2 n
    · have hp : (2 : ℚ) ^ floorLog2 n
          = (2 : ℚ) ^ (floorLog2 n - floorLog2 d) * (2 : ℚ) ^ floorLog2 d := by
        rw [← pow_add, Nat.sub_add_cancel hle]
      constructor
      · rintro (⟨_, h⟩ | ⟨h, _⟩)
        · have hq : (d : ℚ) * (2 : ℚ) ^ (floorLog2 n - floorLog2 d) ≤ n := by exact_mod_cast h
          rw [hp, ← mul_assoc]
          exact mul_le_mul_of_nonneg_right hq hB.le
        · omega
      · intro h
        left
        refine ⟨hle, ?_⟩
        rw [hp, ← mul_assoc] at h
        have hq := le_of_mul_le_mul_right h hB
        exact_mod_cast hq
    · have hlt : floorLog2 n < floorLog2 d := by omega
      have hp : (2 : ℚ) ^ floorLog2 d
          = (2 : ℚ) ^ (floorLog2 d - floorLog2 n) * (2 : ℚ) ^ floorLog2 n := by
        rw [← pow_add, Nat.sub_add_cancel hlt.le]
      constructor
      · rintro (⟨h, _⟩ | ⟨_, h⟩)
        · omega
        · have hq : (d : ℚ) ≤ n * (2 : ℚ) ^ (floorLog2 d - floorLog2 n) := by exact_mod_cast h
          rw [hp, ← mul_assoc]
          exact mul_le_mul_of_nonneg_right hq hA.le
      · intro h
        right
        refine ⟨hlt, ?_⟩
        rw [hp, ← mul_assoc] at h
        have hq := le_of_mul_le_mul_right h hA
        exact_mod_cast hq
  unfold binade
  by_cases hc : (d : ℚ) * (2 : ℚ) ^ floorLog2 n ≤ n * (2 : ℚ) ^ floorLog2 d
  · rw [if_pos (hC.2 hc)]
    constructor
    · rw [hz, div_le_div_iff₀ hB hdq]
      linarith
    · rw [zpow_add₀ (by norm_num), hz, zpow_one, div_mul_eq_mul_div, div_lt_div_iff₀ hdq hB]
      nlinarith
  · rw [if_neg (fun h => hc (hC.1 h))]
    have hc : (n : ℚ) * (2 : ℚ) ^ floorLog2 d < d * (2 : ℚ) ^ floorLog2 n := not_le.1 hc
    constructor
    · rw [zpow_sub₀ (by norm_num), hz, zpow_one, div_div, div_le_div_iff₀ (by positivity) hdq]
      nlinarith
    · rw [sub_add_cancel, hz, div_lt_div_iff₀ hdq hB]
      linarith

theorem roundMagnitude_nonneg (n d : Nat) : 0 ≤ roundMagnitude n d := by
  unfold roundMagnitude
  split
  · exact Nat.cast_nonneg _
  · exact div_nonneg (Nat.cast_nonneg _) (Nat.cast_nonneg _)

theorem roundMagnitude_of_neg_exponent (n d k : Nat)
    (hk : max (binade n d - 52) (-1074) = -(k : Int)) (hpos : 0 < k) :
    roundMagnitude n d = ((roundHalfEven (n * 2 ^ k) d : Nat) : ℚ) / (2 : ℚ) ^ k := by
  unfold roundMagnitude
  rw [hk, if_neg (by omega)]
  simp

theorem binade_lt_of_lt (n d : Nat) (hn : 0 < n) (hd : 0 < d) (j : Int)
    (h : (n : ℚ) / d < (2 : ℚ) ^ j) : binade n d < j := by
  have h1 := (binade_spec n d hn hd).1
  have h2 : (2 : ℚ) ^ binade n d < (2 : ℚ) ^ j := lt_of_le_of_lt h1 h
  exact (zpow_lt_zpow_iff_right₀ (by norm_num)).1 h2

theorem le_binade_of_le (n d : Nat) (hn : 0 < n) (hd : 0 < d) (j : Int)
    (h : (2 : ℚ) ^ j ≤ (n : ℚ) / d) : j ≤ binade n d := by
  have h1 := (binade_spec n d hn hd).2
  have h2 : (2 : ℚ) ^ j < (2 : ℚ) ^ (binade n d + 1) := lt_of_le_of_lt h h1
  have := (zpow_lt_zpow_iff_right₀ (by norm_num)).1 h2
  omega

theorem roundMagnitude_le_two_pow_46 (n d : Nat) (hn : 0 < n) (hd : 0 < d)
    (h : (n : ℚ) / d < 70368744177664 + 1 / 128) : roundMagnitude n d ≤ 70368744177664 := by
  have hdq : (0 : ℚ) < d := by exact_mod_cast hd
  have hb47 : binade n d < 47 := by
    apply binade_lt_of_lt n d hn hd
    have : (2 : ℚ) ^ (47 : Int) = 140737488355328 := by norm_num
    rw [this]
    linarith
  by_cases hb : binade n d = 46
  · rw [roundMagnitude_of_neg_exponent n d 6 (by rw [hb]; decide) (by decide)]
    have hq : (n : ℚ) * 128 < (9007199254740992 + 1) * d := by
      rw [div_lt_iff₀ hdq] at h
      linarith
    have hN : n * 128 < (9007199254740992 + 1) * d := by exact_mod_cast hq
    have hr := roundHalfEven_le_of_lt_half (n * 2 ^ 6) d 4503599627370496 hd (by omega)
    have e6 : (2 : Nat) ^ 6 = 64 := by norm_num
    rw [e6] at hr
    have hrq : ((roundHalfEven (n * 64) d : Nat) : ℚ) ≤ 4503599627370496 := by
      exact_mod_cast hr
    rw [div_le_iff₀ (by positivity)]
    norm_num
    linarith
  · have hb45 : binade n d + 1 ≤ 46 := by omega
    have hx : (n : ℚ) / d < 70368744177664 := by
      have h2 := (binade_spec n d hn hd).2
      have h3 : (2 : ℚ) ^ (binade n d + 1) ≤ (2 : ℚ) ^ (46 : Int) :=
        zpow_le_zpow_right₀ (by norm_num) hb45
      have : (2 : ℚ) ^ (46 : Int) = 70368744177664 := by norm_num
      linarith
    have hk : max (binade n d - 52) (-1074)
        = -(((-(max (binade n d - 52) (-1074))).toNat : Nat) : Int) := by
      rw [Int.toNat_of_nonneg (by omega)]
      omega
    have hkpos : 0 < (-(max (binade n d - 52) (-1074))).toNat := by omega
    rw [roundMagnitude_of_neg_exponent n d _ hk hkpos]
    generalize (-(max (binade n d - 52) (-1074))).toNat = k
    have hq : (n : ℚ) ≤ 70368744177664 * d := by
      rw [div_lt_iff₀ hdq] at hx
      exact hx.le
    have hN : n ≤ 70368744177664 * d := by exact_mod_cast hq
    have hr := roundHalfEven_le (n * 2 ^ k) d (70368744177664 * 2 ^ k) hd (by
      calc n * 2 ^ k ≤ 70368744177664 * d * 2 ^ k := Nat.mul_le_mul_right _ hN
        _ = 70368744177664 * 2 ^ k * d := by ring)
    have hrq : ((roundHalfEven (n * 2 ^ k) d : Nat) : ℚ) ≤ 70368744177664 * (2 : ℚ) ^ k := by
      exact_mod_cast hr
    rw [div_le_iff₀ (by positivity)]
    exact hrq

theorem le_roundMagnitude_of_hundredth_le (n d : Nat) (hn : 0 < n) (hd : 0 < d)
    (h1 : (1 : ℚ) / 100 ≤ (n : ℚ) / d) (h2 : (n : ℚ) / d < 140737488355328) :
    (1 : ℚ) / 100 ≤ roundMagnitude n d := by
  have hdq : (0 : ℚ) < d := by exact_mod_cast hd
  have hb47 : binade n d < 47 := by
    apply binade_lt_of_lt n d hn hd
    have : (2 : ℚ) ^ (47 : Int) = 140737488355328 := by norm_num
    rw [this]
    exact h2
  have hb7 : -7 ≤ binade n d := by
    apply le_binade_of_le n d hn hd
    have : (2 : ℚ) ^ (-7 : Int) = 1 / 128 := by norm_num
    rw [this]
    linarith
  by_cases hb : binade n d = -7
  · rw [roundMagnitude_of_neg_exponent n d 59 (by rw [hb]; decide) (by decide)]
    have hq : (d : ℚ) ≤ 100 * n := by
      rw [le_div_iff₀ hdq] at h1
      linarith
    have hN : d ≤ 100 * n := by exact_mod_cast hq
    have hr := le_roundHalfEven_of_half_lt (n * 2 ^ 59) d 5764607523034235 hd (by omega)
    have e59 : (2 : Nat) ^ 59 = 576460752303423488 := by norm_num
    rw [e59] at hr
    have hrq : (5764607523034235 : ℚ)
        ≤ ((roundHalfEven (n * 576460752303423488) d : Nat) : ℚ) := by
      exact_mod_cast hr
    rw [le_div_iff₀ (by positivity)]
    norm_num
    linarith
  · have hb6 : (-6 : Int) ≤ binade n d := by omega
    have hk : max (binade n d - 52) (-1074) = -(((52 - binade n d).toNat : Nat) : Int) := by
      rw [Int.toNat_of_nonneg (by omega)]
      omega
    have hkpos : 0 < (52 - binade n d).toNat := by omega
    rw [roundMagnitude_of_neg_exponent n d _ hk hkpos]
    have hkz : (((52 - binade n d).toNat : Nat) : Int) = 52 - binade n d :=
      Int.toNat_of_nonneg (by omega)
    have hlow := (binade_spec n d hn hd).1
    have hpow : (2 : ℚ) ^ binade n d * (2 : ℚ) ^ (52 - binade n d).toNat
        = 4503599627370496 := by
      rw [← zpow_natCast, hkz, ← zpow_add₀ (by norm_num)]
      have : binade n d + (52 - binade n d) = 52 := by omega
      rw [this]
      norm_num
    generalize (52 - binade n d).toNat = k at hpow ⊢
    have hK : (0 : ℚ) < (2 : ℚ) ^ k := by positivity
    have hq : (4503599627370496 : ℚ) * d ≤ n * (2 : ℚ) ^ k := by
      rw [le_div_iff₀ hdq] at hlow
      rw [← hpow]
      calc (2 : ℚ) ^ binade n d * (2 : ℚ) ^ k * d
          = (2 : ℚ) ^ binade n d * d * (2 : ℚ) ^ k := by ring
        _ ≤ n * (2 : ℚ) ^ k := mul_le_mul_of_nonneg_right hlow hK.le
    have hN : 4503599627370496 * d ≤ n * 2 ^ k := by exact_mod_cast hq
    have hr := le_roundHalfEven (n * 2 ^ k) d 4503599627370496 hd hN
    have hrq : (4503599627370496 : ℚ) ≤ ((roundHalfEven (n * 2 ^ k) d : Nat) : ℚ) := by
      exact_mod_cast hr
    rw [le_div_iff₀ hK]
    have h64 : (1 : ℚ) / 64 ≤ (2 : ℚ) ^ binade n d := by
      have h3 : (2 : ℚ) ^ (-6 : Int) ≤ (2 : ℚ) ^ binade n d :=
        zpow_le_zpow_right₀ (by norm_num) hb6
      have h4 : (2 : ℚ) ^ (-6 : Int) = 1 / 64 := by norm_num
      rw [h4] at h3
      exact h3
    have : (1 : ℚ) / 100 * (2 : ℚ) ^ k ≤ (2 : ℚ) ^ binade n d * (2 : ℚ) ^ k :=
      mul_le_mul_of_nonneg_right (by linarith) hK.le
    linarith

theorem rat_natAbs_div_den (x : ℚ) (hx : 0 < x) : ((x.num.natAbs : Nat) : ℚ) / x.den = x := by
  have hnum : 0 < x.num := Rat.num_pos.2 hx
  have h : ((x.num.natAbs : Nat) : Int) = x.num := Int.natAbs_of_nonneg hnum.le
  have h2 : ((x.num.natAbs : Nat) : ℚ) = (((x.num.natAbs : Nat) : Int) : ℚ) :=
    (Int.cast_natCast _).symm
  rw [h2, h]
  exact Rat.num_div_den x

theorem roundDouble_le_two_pow_46 (x : ℚ) (h : x < 70368744177664 + 1 / 128) :
    roundDouble x ≤ 70368744177664 := by
  unfold roundDouble
  by_cases h0 : x = 0
  · rw [if_pos h0]; norm_num
  rw [if_neg h0]
  by_cases hneg : x < 0
  · rw [if_pos hneg]
    have := roundMagnitude_nonneg x.num.natAbs x.den
    linarith
  · rw [if_neg hneg]
    have hx : 0 < x := lt_of_le_of_ne (not_lt.1 hneg) (Ne.symm h0)
    have hnum : 0 < x.num := Rat.num_pos.2 hx
    apply roundMagnitude_le_two_pow_46 _ _ (by omega) x.den_pos
    rw [rat_natAbs_div_den x hx]
    exact h

theorem le_roundDouble_of_hundredth_le (x : ℚ) (h1 : (1 : ℚ) / 100 ≤ x)
    (h2 : x < 140737488355328) : (1 : ℚ) / 100 ≤ roundDouble x := by
  have hx : 0 < x := by linarith
  have hnum : 0 < x.num := Rat.num_pos.2 hx
  unfold roundDouble
  rw [if_neg hx.ne', if_neg (not_lt.2 hx.le)]
  apply le_roundMagnitude_of_hundredth_le _ _ (by omega) x.den_pos
  · rw [rat_natAbs_div_den x hx]; exact h1
  · rw [rat_natAbs_div_den x hx]; exact h2

/-- The rounding is to the nearest `double`, to the one with an even significand when
two are equally near, also below the normal range; a `double` is rounded to itself. -/
theorem roundDouble_ties_to_even :
    roundDouble 9007199254740993 = 9007199254740992
    ∧ roundDouble 9007199254740995 = 9007199254740996
    ∧ roundDouble (-9007199254740995) = -9007199254740996
    ∧ roundDouble (1 / 3) = 6004799503160661 / 18014398509481984
    ∧ roundDouble (1 / ((2 ^ 1075 : Nat) : ℚ)) = 0
    ∧ roundDouble (3 / ((2 ^ 1075 : Nat) : ℚ)) = 2 / ((2 ^ 1074 : Nat) : ℚ)
    ∧ roundDouble (5764607523034235 / 576460752303423488)
        = 5764607523034235 / 576460752303423488 := by
  refine ⟨by decide!, by decide!, by decide!, by decide!, by decide!, by decide!, by decide!⟩

theorem roundDouble_five_thousandths :
    roundDouble (5 / 1000) = 5764607523034235 / 1152921504606846976 := by decide!

theorem doubleAdd_tolerance_bounds (t : ℚ) (h1 : (1 : ℚ) / 100 ≤ t) (h2 : t ≤ 70368744177664) :
    (1 : ℚ) / 100 ≤ doubleAdd t (5 / 1000) ∧ doubleAdd t (5 / 1000) ≤ 70368744177664 := by
  have ha := le_roundDouble_of_hundredth_le t h1 (by linarith)
  have hb := roundDouble_le_two_pow_46 t (by linarith)
  unfold doubleAdd
  rw [roundDouble_five_thousandths]
  constructor
  · apply le_roundDouble_of_hundredth_le
    · have : (0 : ℚ) ≤ 5764607523034235 / 1152921504606846976 := by norm_num
      linarith
    · have : (5764607523034235 : ℚ) / 1152921504606846976 < 1 := by norm_num
      linarith
  · apply roundDouble_le_two_pow_46
    have : (5764607523034235 : ℚ) / 1152921504606846976 < 1 / 128 := by norm_num
    linarith

/-! ## Waypoint queues -/

theorem calThreadPushes_joint (ps : List (JointWayPoint × List ℚ)) (c : OM_CONTROLLER) :
    (calThreadPushes ps c).joint_way_point_buf_ = c.joint_way_point_buf_ ++ ps.map Prod.fst := by
  induction ps generalizing c with
  | nil => simp [calThreadPushes]
  | cons p rest ih => obtain ⟨j, t⟩ := p; simp [calThreadPushes, ih, calThreadPush]

theorem calThreadPushes_tool (ps : List (JointWayPoint × List ℚ)) (c : OM_CONTROLLER) :
    (calThreadPushes ps c).tool_way_point_buf_ = c.tool_way_point_buf_ ++ ps.map Prod.snd := by
  induction ps generalizing c with
  | nil => simp [calThreadPushes]
  | cons p rest ih => obtain ⟨j, t⟩ := p; simp [calThreadPushes, ih, calThreadPush]

theorem calThreadPushes_frame (ps : List (JointWayPoint × List ℚ)) (c : OM_CONTROLLER) :
    calThreadPushes ps c =
      { c with
        joint_way_point_buf_ := c.joint_way_point_buf_ ++ ps.map Prod.fst
        tool_way_point_buf_ := c.tool_way_point_buf_ ++ ps.map Prod.snd } := by
  induction ps generalizing c with
  | nil => simp [calThreadPushes]
  | cons p rest ih => obtain ⟨j, t⟩ := p; simp [calThreadPushes, ih, calThreadPush]

/-- C1 (counterexample): after pushing the sets A and then B onto empty queues, the next
pop of `commTimerThread` hands out A, not the most recently pushed B, and B is still
queued afterwards. -/
theorem pop_after_two_pushes_is_first :
    let a : JointWayPoint := [{ value := 1, velocity := 0, acceleration := 0, effort := 0 }]
    let b : JointWayPoint := [{ value := 2, velocity := 0, acceleration := 0, effort := 0 }]
    let c := calThreadPushes [(a, [1]), (b, [2])] OM_CONTROLLER.idle
    (commTimerPop c).2 = (a, [1]) ∧ (commTimerPop c).2 ≠ (b, [2])
      ∧ (commTimerPop c).1.joint_way_point_buf_ = [b]
      ∧ (commTimerPop c).1.tool_way_point_buf_ = [[2]] := by
  decide

/-- C1 (as amended): for every non-empty sequence of pushes onto empty queues with no pop
in between, the next pop yields the first pushed joint and tool sets (the oldest ones),
stores that joint set as `present_joint_value`, and leaves all later sets queued in
their order. -/
theorem pop_after_pushes_is_oldest (c : OM_CONTROLLER) (j : JointWayPoint) (t : List ℚ)
    (rest : List (JointWayPoint × List ℚ)) :
    commTimerPop (calThreadPushes ((j, t) :: rest)
        { c with joint_way_point_buf_ := [], tool_way_point_buf_ := [] })
      = ({ c with
            present_joint_value := j
            joint_way_point_buf_ := rest.map Prod.fst
            tool_way_point_buf_ := rest.map Prod.snd }, j, t) := by
  rw [calThreadPushes_frame]
  simp [commTimerPop]

/-! ## Control clock -/

theorem advanceDeadline_totalNsec (p : ℚ) (t : Timespec) :
    (advanceDeadline p t).totalNsec = t.totalNsec + periodNsec p := by
  simp only [advanceDeadline, Timespec.totalNsec]
  have h := Int.tdiv_add_tmod (t.tv_nsec + periodNsec p) 1000000000
  linarith

theorem delta_nsec_neg_iff (next_time curr_time : Timespec) :
    delta_nsec next_time curr_time < 0 ↔ next_time.totalNsec < curr_time.totalNsec := by
  unfold delta_nsec Timespec.totalNsec
  constructor
  · intro h
    have h2 : ((next_time.tv_sec * 1000000000 + next_time.tv_nsec : Int) : ℚ)
        < ((curr_time.tv_sec * 1000000000 + curr_time.tv_nsec : Int) : ℚ) := by
      push_cast at h ⊢
      linarith
    exact_mod_cast h2
  · intro h
    have h2 : ((next_time.tv_sec * 1000000000 + next_time.tv_nsec : Int) : ℚ)
        < ((curr_time.tv_sec * 1000000000 + curr_time.tv_nsec : Int) : ℚ) := by
      exact_mod_cast h
    push_cast at h2 ⊢
    linarith

theorem commTimerPop_control_period (c : OM_CONTROLLER) :
    (commTimerPop c).1.control_period_ = c.control_period_ := by
  unfold commTimerPop
  cases c.joint_way_point_buf_ <;> cases hc : c.tool_way_point_buf_ <;> simp [hc]

theorem toInt32_of_range (x : Int) (h0 : -2147483648 ≤ x) (h1 : x < 2147483648) :
    toInt32 x = x := by
  unfold toInt32
  omega

theorem periodNsec_of_ms (p : ℚ) (h0 : 0 ≤ controlPeriodMs p) (h1 : controlPeriodMs p ≤ 2147) :
    periodNsec p = controlPeriodMs p * 1000000 := by
  unfold periodNsec
  exact toInt32_of_range _ (by omega) (by omega)

theorem endOfTick_overrun (p : ℚ) (next_time curr_time : Timespec)
    (h : next_time.totalNsec < curr_time.totalNsec) :
    endOfTick p next_time curr_time
      = (curr_time, [CommEvent.warn "Communication cycle time exceeded. : "
          (p - delta_nsec next_time curr_time)]) := by
  unfold endOfTick
  rw [if_pos ((delta_nsec_neg_iff _ _).mpr h)]

theorem endOfTick_in_time (p : ℚ) (next_time curr_time : Timespec)
    (h : ¬ next_time.totalNsec < curr_time.totalNsec) :
    endOfTick p next_time curr_time = (next_time, [CommEvent.clock_nanosleep next_time]) := by
  unfold endOfTick
  rw [if_neg (fun hd => h ((delta_nsec_neg_iff _ _).mp hd))]

theorem commTimerThreadStep_eq (curr_time : Timespec) (l : CommLoop) :
    commTimerThreadStep curr_time l
      = ({ controller := (commTimerPop l.controller).1
           next_time := (endOfTick l.controller.control_period_
              (advanceDeadline l.controller.control_period_ l.next_time) curr_time).1 },
          CommEvent.communicationProcessToActuator (commTimerPop l.controller).2.1
              (commTimerPop l.controller).2.2
            :: (endOfTick l.controller.control_period_
              (advanceDeadline l.controller.control_period_ l.next_time) curr_time).2) := by
  unfold commTimerThreadStep
  simp only [commTimerPop_control_period]

/-- The deadline after the ticks, when none of them warned. -/
theorem deadline_without_overrun (currs : List Timespec) (l : CommLoop)
    (hno : ∀ e ∈ (commTimerThreadLoop currs l).2, ∀ text v, e ≠ CommEvent.warn text v) :
    (commTimerThreadLoop currs l).1.next_time.totalNsec
      = l.next_time.totalNsec + currs.length * periodNsec l.controller.control_period_
    ∧ (commTimerThreadLoop currs l).1.controller.control_period_
      = l.controller.control_period_ := by
  induction currs generalizing l with
  | nil => simp [commTimerThreadLoop]
  | cons t rest ih =>
    simp only [commTimerThreadLoop] at hno ⊢
    have hstep : (commTimerThreadStep t l).1.controller.control_period_
        = l.controller.control_period_ := by
      rw [commTimerThreadStep_eq]
      exact commTimerPop_control_period _
    have hnext : (commTimerThreadStep t l).1.next_time.totalNsec
        = l.next_time.totalNsec + periodNsec l.controller.control_period_ := by
      by_cases hd : (advanceDeadline l.controller.control_period_ l.next_time).totalNsec
          < t.totalNsec
      · exfalso
        have hmem : CommEvent.warn "Communication cycle time exceeded. : "
            (l.controller.control_period_
              - delta_nsec (advanceDeadline l.controller.control_period_ l.next_time) t)
            ∈ (commTimerThreadStep t l).2 := by
          rw [commTimerThreadStep_eq, endOfTick_overrun _ _ _ hd]
          exact List.mem_cons_of_mem _ (List.mem_singleton_self _)
        exact hno _ (List.mem_append_left _ hmem) _ _ rfl
      · rw [commTimerThreadStep_eq, endOfTick_in_time _ _ _ hd]
        exact advanceDeadline_totalNsec _ _
    have ih2 := ih (commTimerThreadStep t l).1 (by
      intro e he
      exact hno e (List.mem_append_right _ he))
    rw [ih2.1, ih2.2, hstep, hnext]
    refine ⟨?_, rfl⟩
    rw [List.length_cons]
    push_cast
    ring

theorem controlPeriodMs_idle : controlPeriodMs OM_CONTROLLER.idle.control_period_ = 10 := by
  decide!

theorem periodNsec_idle : periodNsec OM_CONTROLLER.idle.control_period_ = 10000000 := by
  rw [periodNsec_of_ms _ (by rw [controlPeriodMs_idle]; decide)
    (by rw [controlPeriodMs_idle]; decide), controlPeriodMs_idle]
  rfl

theorem commTimerThreadStep_control_period (curr_time : Timespec) (l : CommLoop) :
    (commTimerThreadStep curr_time l).1.controller.control_period_
      = l.controller.control_period_ := by
  rw [commTimerThreadStep_eq]
  exact commTimerPop_control_period _

theorem commTimerThreadLoop_cons (curr_time : Timespec) (currs : List Timespec)
    (l : CommLoop) :
    commTimerThreadLoop (curr_time :: currs) l
      = ((commTimerThreadLoop currs (commTimerThreadStep curr_time l).1).1,
          (commTimerThreadStep curr_time l).2
            ++ (commTimerThreadLoop currs (commTimerThreadStep curr_time l).1).2) := rfl

/-- C2 (counterexample): it is not true that the deadline after N ticks is always
`start_time + N * period`: with a 10 ms period and a first tick whose work ends at
15 ms, the deadline after that tick is 15 ms, not 10 ms. -/
theorem deadline_drifts_after_overrun :
    ¬ ∀ (l : CommLoop) (currs : List Timespec),
      (((commTimerThreadLoop currs l).1.next_time.totalNsec : Int) : ℚ)
        = (l.next_time.totalNsec : ℚ)
          + (currs.length : ℚ) * (l.controller.control_period_ * 1000000000) := by
  intro h
  have h1 := h { controller := OM_CONTROLLER.idle, next_time := { tv_sec := 0, tv_nsec := 0 } }
    [{ tv_sec := 0, tv_nsec := 15000000 }]
  have h2 : (commTimerThreadLoop [{ tv_sec := 0, tv_nsec := 15000000 }]
      { controller := OM_CONTROLLER.idle,
        next_time := { tv_sec := 0, tv_nsec := 0 } }).1.next_time
        = { tv_sec := 0, tv_nsec := 15000000 } := by
    simp only [commTimerThreadLoop, commTimerThreadStep_eq]
    rw [endOfTick_overrun]
    rw [advanceDeadline_totalNsec, periodNsec_idle]
    decide
  rw [h2] at h1
  norm_num [OM_CONTROLLER.idle, Timespec.totalNsec] at h1

/-- C2 (as amended): let m = `(int)(period * 1000)`, the whole number of milliseconds of
the `double` product, be between 0 and 2147.  After N ticks none of which overruns (no
cycle-time warning is issued) the deadline is `start_time + N * m` milliseconds, which
is `start_time + N * period` when the stored period is exactly m milliseconds.  A tick
that overruns replaces the deadline by the clock reading taken after its work, and the
deadlines of the ticks after it count from that reading. -/
theorem deadline_after_ticks_without_overrun (currs : List Timespec) (l : CommLoop)
    (curr_time : Timespec)
    (h0 : 0 ≤ controlPeriodMs l.controller.control_period_)
    (h1 : controlPeriodMs l.controller.control_period_ ≤ 2147) :
    ((∀ e ∈ (commTimerThreadLoop currs l).2, ∀ text v, e ≠ CommEvent.warn text v) →
        (commTimerThreadLoop currs l).1.next_time.totalNsec
          = l.next_time.totalNsec
            + currs.length * (controlPeriodMs l.controller.control_period_ * 1000000)
        ∧ (roundDouble l.controller.control_period_ * 1000
              = controlPeriodMs l.controller.control_period_ →
            (((commTimerThreadLoop currs l).1.next_time.totalNsec : Int) : ℚ)
              = (l.next_time.totalNsec : ℚ)
                + (currs.length : ℚ)
                  * (roundDouble l.controller.control_period_ * 1000000000)))
    ∧ ((advanceDeadline l.controller.control_period_ l.next_time).totalNsec
          < curr_time.totalNsec →
        (commTimerThreadStep curr_time l).1.next_time = curr_time
        ∧ ((∀ e ∈ (commTimerThreadLoop currs (commTimerThreadStep curr_time l).1).2,
              ∀ text v, e ≠ CommEvent.warn text v) →
            (commTimerThreadLoop (curr_time :: currs) l).1.next_time.totalNsec
              = curr_time.totalNsec
                + currs.length
                  * (controlPeriodMs l.controller.control_period_ * 1000000))) := by
  have hp := periodNsec_of_ms l.controller.control_period_ h0 h1
  constructor
  · intro hno
    have hd := (deadline_without_overrun currs l hno).1
    rw [hp] at hd
    refine ⟨hd, fun hms => ?_⟩
    rw [hd]
    have hp2 : roundDouble l.controller.control_period_ * 1000000000
        = ((controlPeriodMs l.controller.control_period_ : Int) : ℚ) * 1000000 := by
      rw [← hms]; ring
    rw [hp2]
    push_cast
    ring
  · intro hover
    have hstep : (commTimerThreadStep curr_time l).1.next_time = curr_time := by
      rw [commTimerThreadStep_eq, endOfTick_overrun _ _ _ hover]
    refine ⟨hstep, fun hno => ?_⟩
    rw [commTimerThreadLoop_cons]
    have hd := (deadline_without_overrun currs (commTimerThreadStep curr_time l).1 hno).1
    rw [commTimerThreadStep_control_period, hstep, hp] at hd
    exact hd

/-- Witness for `deadline_after_ticks_without_overrun`: two ticks of a loop configured
with 0.01 s, whose work ends at 5 ms and at 15 ms. -/
theorem deadline_after_ticks_without_overrun_witness :
    (commTimerThreadLoop [{ tv_sec := 0, tv_nsec := 5000000 },
          { tv_sec := 0, tv_nsec := 15000000 }]
        { controller := OM_CONTROLLER.idle,
          next_time := { tv_sec := 0, tv_nsec := 0 } }).1.next_time.totalNsec
      = Timespec.totalNsec { tv_sec := 0, tv_nsec := 0 }
        + ([({ tv_sec := 0, tv_nsec := 5000000 } : Timespec),
            { tv_sec := 0, tv_nsec := 15000000 }].length : Int)
          * (controlPeriodMs OM_CONTROLLER.idle.control_period_ * 1000000) :=
  ((deadline_after_ticks_without_overrun
    [{ tv_sec := 0, tv_nsec := 5000000 }, { tv_sec := 0, tv_nsec := 15000000 }]
    { controller := OM_CONTROLLER.idle, next_time := { tv_sec := 0, tv_nsec := 0 } }
    { tv_sec := 0, tv_nsec := 0 }
    (by rw [controlPeriodMs_idle]; decide) (by rw [controlPeriodMs_idle]; decide)).1 (by
      have e1 : ¬ (advanceDeadline OM_CONTROLLER.idle.control_period_
          { tv_sec := 0, tv_nsec := 0 }).totalNsec
            < Timespec.totalNsec { tv_sec := 0, tv_nsec := 5000000 } := by
        rw [advanceDeadline_totalNsec, periodNsec_idle]; decide
      have e2 : ¬ (advanceDeadline OM_CONTROLLER.idle.control_period_
          (advanceDeadline OM_CONTROLLER.idle.control_period_
            { tv_sec := 0, tv_nsec := 0 })).totalNsec
            < Timespec.totalNsec { tv_sec := 0, tv_nsec := 15000000 } := by
        rw [advanceDeadline_totalNsec, advanceDeadline_totalNsec, periodNsec_idle]; decide
      have hc : (commTimerPop OM_CONTROLLER.idle).1 = OM_CONTROLLER.idle := rfl
      simp only [commTimerThreadLoop, commTimerThreadStep_eq, hc]
      rw [endOfTick_in_time _ _ _ e1, endOfTick_in_time _ _ _ e2]
      intro e he text v hev
      subst hev
      simp at he)).1

/-- C10: in one iteration of `commTimerThread`, after the queues are read and the sets
handed to the actuators, the overrun branch is taken exactly when the clock reading is
strictly later than the advanced deadline; then the deadline becomes the clock reading
and only a warning is issued (no sleep); otherwise the advanced deadline is kept and the
thread sleeps until that absolute deadline. -/
theorem overrun_iff_clock_after_deadline (curr_time : Timespec) (l : CommLoop) :
    (commTimerThreadStep curr_time l).1.next_time
        = (if (advanceDeadline l.controller.control_period_ l.next_time).totalNsec
              < curr_time.totalNsec
            then curr_time
            else advanceDeadline l.controller.control_period_ l.next_time)
    ∧ (commTimerThreadStep curr_time l).2
        = [CommEvent.communicationProcessToActuator (commTimerPop l.controller).2.1
            (commTimerPop l.controller).2.2,
          if (advanceDeadline l.controller.control_period_ l.next_time).totalNsec
              < curr_time.totalNsec
            then CommEvent.warn "Communication cycle time exceeded. : "
              (l.controller.control_period_
                - delta_nsec (advanceDeadline l.controller.control_period_ l.next_time)
                    curr_time)
            else CommEvent.clock_nanosleep
              (advanceDeadline l.controller.control_period_ l.next_time)] := by
  rw [commTimerThreadStep_eq]
  by_cases h : (advanceDeadline l.controller.control_period_ l.next_time).totalNsec
      < curr_time.totalNsec
  · rw [endOfTick_overrun _ _ _ h, if_pos h, if_pos h]
    exact ⟨rfl, rfl⟩
  · rw [endOfTick_in_time _ _ _ h, if_neg h, if_neg h]
    exact ⟨rfl, rfl⟩

/-! ## Sequencer: single cycles -/

section SequencerTheorems

set_option linter.unusedSectionVars false

variable {R : Type} [LinearOrderedField R]

theorem calcDesiredPose_marker (m : LibM R) (marker : AlvarMarker R) (g : PickGlobals R) :
    (calcDesiredPose m marker g).2.state.marker = decide (marker.id = MARKER_ID) := by
  unfold calcDesiredPose
  by_cases h : marker.id = MARKER_ID
  · rw [if_pos h]; simp [h]
  · rw [if_neg h]; simp [h]

theorem pick_check (m : LibM R) (r : Replies) (g : PickGlobals R)
    (ht : g.task = CHECK_AR_MARKER_POSE) :
    pick m r g =
      if g.ar_marker_pose.id = MARKER_ID then
        ({ (calcDesiredPose m g.ar_marker_pose g).2 with
            desired_pose := (calcDesiredPose m g.ar_marker_pose g).1
            task := INIT_POSITION }, [])
      else
        ({ (calcDesiredPose m g.ar_marker_pose g).2 with
            desired_pose := (calcDesiredPose m g.ar_marker_pose g).1
            task := WAITING_FOR_SIGNAL },
          [Event.ROS_ERROR "CAN NOT FIND AR MARKER(ID : 8)" []]) := by
  unfold pick
  rw [if_pos ht]
  simp only [calcDesiredPose_marker, decide_eq_true_eq]

theorem pick_init_position (m : LibM R) (r : Replies) (g : PickGlobals R)
    (ht : g.task = INIT_POSITION) :
    pick m r g =
      if g.state.arm = STOPPED then
        afterWrapper INIT_POSITION INIT_POSITION (initJointPosition r.goal) g
      else (g, []) := by
  unfold pick
  rw [if_neg (by rw [ht]; decide), if_pos ht]

theorem pick_gripper_off (m : LibM R) (r : Replies) (g : PickGlobals R)
    (ht : g.task = GRIPPER_OFF) :
    pick m r g =
      if g.state.gripper = STOPPED then
        afterWrapper GRIPPER_OFF INIT_POSITION (gripper false r.goal) g
      else (g, []) := by
  unfold pick
  rw [if_neg (by rw [ht]; decide), if_neg (by rw [ht]; decide), if_pos ht]

theorem pick_move_arm (m : LibM R) (r : Replies) (g : PickGlobals R)
    (ht : g.task = MOVE_ARM) :
    pick m r g =
      if g.state.arm = STOPPED then poseGoal m MOVE_ARM (moveArmRequest g) r.goal g
      else (g, []) := by
  unfold pick
  rw [if_neg (by rw [ht]; decide), if_neg (by rw [ht]; decide), if_neg (by rw [ht]; decide),
    if_pos ht]

theorem pick_close_to_object (m : LibM R) (r : Replies) (g : PickGlobals R)
    (ht : g.task = CLOSE_TO_OBJECT) :
    pick m r g =
      if g.state.arm = STOPPED then
        poseGoal m CLOSE_TO_OBJECT (closeToObjectRequest g) r.goal g
      else (g, []) := by
  unfold pick
  rw [if_neg (by rw [ht]; decide), if_neg (by rw [ht]; decide), if_neg (by rw [ht]; decide),
    if_neg (by rw [ht]; decide), if_pos ht]

theorem pick_grip_object (m : LibM R) (r : Replies) (g : PickGlobals R)
    (ht : g.task = GRIP_OBJECT) :
    pick m r g =
      if g.state.gripper = STOPPED then
        afterWrapper GRIP_OBJECT INIT_POSITION (gripper true r.goal) g
      else (g, []) := by
  unfold pick
  rw [if_neg (by rw [ht]; decide), if_neg (by rw [ht]; decide), if_neg (by rw [ht]; decide),
    if_neg (by rw [ht]; decide), if_neg (by rw [ht]; decide), if_pos ht]

theorem pick_pick_object_up (m : LibM R) (r : Replies) (g : PickGlobals R)
    (ht : g.task = PICK_OBJECT_UP) :
    pick m r g =
      if g.state.arm = STOPPED then
        ({ g with pre_task := PICK_OBJECT_UP, task := WAITING_FOR_STOP },
          (pickUpJointPosition r.goal).2)
      else (g, []) := by
  unfold pick
  rw [if_neg (by rw [ht]; decide), if_neg (by rw [ht]; decide), if_neg (by rw [ht]; decide),
    if_neg (by rw [ht]; decide), if_neg (by rw [ht]; decide), if_neg (by rw [ht]; decide),
    if_pos ht]

theorem pick_waiting_for_stop (m : LibM R) (r : Replies) (g : PickGlobals R)
    (ht : g.task = WAITING_FOR_STOP) :
    pick m r g =
      if g.state.arm = STOPPED ∧ g.state.gripper = STOPPED then
        if g.pre_task = PICK_OBJECT_UP then
          ({ g with tolerance := 1 / 100, planning_cnt := 0, task := WAITING_FOR_SIGNAL },
            (result "Success" r.result).2)
        else
          ({ g with tolerance := 1 / 100, planning_cnt := 0, task := (g.pre_task + 1) % 256 },
            [])
      else (g, []) := by
  unfold pick
  rw [if_neg (by rw [ht]; decide), if_neg (by rw [ht]; decide), if_neg (by rw [ht]; decide),
    if_neg (by rw [ht]; decide), if_neg (by rw [ht]; decide), if_neg (by rw [ht]; decide),
    if_neg (by rw [ht]; decide), if_pos ht]

theorem pick_other (m : LibM R) (r : Replies) (g : PickGlobals R)
    (ht : g.task < CHECK_AR_MARKER_POSE ∨ WAITING_FOR_STOP < g.task) :
    pick m r g = (g, []) := by
  unfold pick
  have ht : g.task < 2 ∨ 9 < g.task := ht
  have h2 : g.task ≠ 2 := by omega
  have h3 : g.task ≠ 3 := by omega
  have h4 : g.task ≠ 4 := by omega
  have h5 : g.task ≠ 5 := by omega
  have h6 : g.task ≠ 6 := by omega
  have h7 : g.task ≠ 7 := by omega
  have h8 : g.task ≠ 8 := by omega
  have h9 : g.task ≠ 9 := by omega
  rw [if_neg h2, if_neg h3, if_neg h4, if_neg h5, if_neg h6, if_neg h7, if_neg h8, if_neg h9]

theorem afterWrapper_failed (a b : Nat) (out : Bool × List (Event R)) (g : PickGlobals R)
    (h : out.1 = false) :
    afterWrapper a b out g =
      ({ g with planning_cnt := (g.planning_cnt + 1) % 256, task := b },
        out.2 ++ [Event.ROS_ERROR "PLANNING IS FAILED (%d)"
          [(((g.planning_cnt + 1) % 256 : Nat) : R)]]) := by
  unfold afterWrapper
  rw [if_neg (by rw [h]; decide)]

theorem calcDesiredPose_frame (m : LibM R) (marker : AlvarMarker R) (g : PickGlobals R) :
    (calcDesiredPose m marker g).2.state.arm = g.state.arm
    ∧ (calcDesiredPose m marker g).2.state.gripper = g.state.gripper
    ∧ (calcDesiredPose m marker g).2.task = g.task
    ∧ (calcDesiredPose m marker g).2.pre_task = g.pre_task
    ∧ (calcDesiredPose m marker g).2.tolerance = g.tolerance
    ∧ (calcDesiredPose m marker g).2.planning_cnt = g.planning_cnt
    ∧ (calcDesiredPose m marker g).2.ar_marker_pose = g.ar_marker_pose
    ∧ (calcDesiredPose m marker g).2.roll = g.roll
    ∧ (calcDesiredPose m marker g).2.pitch = g.pitch
    ∧ (calcDesiredPose m marker g).2.desired_pose = g.desired_pose := by
  unfold calcDesiredPose
  split <;> simp

theorem result_filter_goal (s : String) (ok : Bool) :
    (result s ok : Bool × List (Event R)).2.filter Event.isGoal = [] := by
  cases ok <;> simp [result, Event.isGoal]

theorem result_filter_result (s : String) (ok : Bool) :
    (result s ok : Bool × List (Event R)).2.filter Event.isResult = [Event.pick_result s] := by
  cases ok <;> simp [result, Event.isResult]

theorem pick_pose_failed (m : LibM R) (r : Replies) (g : PickGlobals R)
    (htask : g.task = MOVE_ARM ∨ g.task = CLOSE_TO_OBJECT) (harm : g.state.arm = STOPPED)
    (hr : r.goal = some false) :
    pick m r g =
      ({ g with
          planning_cnt := (g.planning_cnt + 1) % 256
          tolerance := m.add g.tolerance (5 / 1000) },
        [Event.kinematics_pose_command
            (if g.task = MOVE_ARM then moveArmRequest g else closeToObjectRequest g),
          Event.ROS_ERROR "PLANNING IS FAILED (%d, tolerance : %.2f)"
            [(((g.planning_cnt + 1) % 256 : Nat) : R), m.add g.tolerance (5 / 1000)]]) := by
  rcases htask with h | h
  · rw [pick_move_arm m r g h, if_pos harm, hr, if_pos h]
    simp [poseGoal, h]
  · rw [pick_close_to_object m r g h, if_pos harm, hr, if_neg (by rw [h]; decide)]
    simp [poseGoal, h]

theorem pick_pose_planned (m : LibM R) (r : Replies) (g : PickGlobals R)
    (htask : g.task = MOVE_ARM ∨ g.task = CLOSE_TO_OBJECT) (harm : g.state.arm = STOPPED)
    (hr : r.goal = some true) :
    pick m r g =
      ({ g with pre_task := g.task, task := WAITING_FOR_STOP },
        [Event.kinematics_pose_command
            (if g.task = MOVE_ARM then moveArmRequest g else closeToObjectRequest g)]) := by
  rcases htask with h | h
  · rw [pick_move_arm m r g h, if_pos harm, hr, if_pos h]
    simp [poseGoal, h]
  · rw [pick_close_to_object m r g h, if_pos harm, hr, if_neg (by rw [h]; decide)]
    simp [poseGoal, h]

theorem pickCycles_cons (m : LibM R) (r : Replies) (rs : List Replies) (g : PickGlobals R) :
    pickCycles m (r :: rs) g
      = ((pickCycles m rs (pick m r g).1).1, (pick m r g).2 ++ (pickCycles m rs (pick m r g).1).2) := by
  simp [pickCycles, run, step]

theorem pickCycles_pose_failures (m : LibM R) (fails : List Replies) (g : PickGlobals R)
    (htask : g.task = MOVE_ARM ∨ g.task = CLOSE_TO_OBJECT) (harm : g.state.arm = STOPPED)
    (hcnt : g.planning_cnt < 256) (hfail : ∀ r ∈ fails, r.goal = some false) :
    (pickCycles m fails g).1 =
      { g with
        planning_cnt := (g.planning_cnt + fails.length) % 256
        tolerance := (fun t => m.add t (5 / 1000))^[fails.length] g.tolerance } := by
  induction fails generalizing g with
  | nil =>
    simp [pickCycles, run, Nat.mod_eq_of_lt hcnt]
  | cons r rest ih =>
    have hp := pick_pose_failed m r g htask harm (hfail r (List.mem_cons_self _ _))
    rw [pickCycles_cons]
    dsimp only
    rw [ih (pick m r g).1 (by rw [hp]; exact htask) (by rw [hp]; exact harm)
      (by rw [hp]; exact Nat.mod_lt _ (by decide))
      (fun r hr => hfail r (List.mem_cons_of_mem _ hr)), hp]
    simp only [List.length_cons, Function.iterate_succ_apply]
    congr 1
    omega

/-- While the pose goals of MOVE_ARM or CLOSE_TO_OBJECT are answered `planned = false`,
every cycle is a cycle of that step. -/
theorem visited_pose_failures (m : LibM R) (fails : List Replies) (g : PickGlobals R)
    (htask : g.task = MOVE_ARM ∨ g.task = CLOSE_TO_OBJECT) (harm : g.state.arm = STOPPED)
    (hfail : ∀ r ∈ fails, r.goal = some false) :
    ∀ t ∈ visited m fails g, t = g.task := by
  induction fails generalizing g with
  | nil => intro t ht; simp [visited] at ht
  | cons r rest ih =>
    have hp := pick_pose_failed m r g htask harm (hfail r (List.mem_cons_self _ _))
    intro t ht
    simp only [visited, List.mem_cons] at ht
    rcases ht with ht | ht
    · exact ht
    · have := ih (pick m r g).1 (by rw [hp]; exact htask) (by rw [hp]; exact harm)
        (fun r hr => hfail r (List.mem_cons_of_mem _ hr)) t ht
      rw [this, hp]

/-! ## Sequencer: what a cycle can do to the tolerance and to the retry counter -/

theorem afterWrapper_tolerance (a b : Nat) (out : Bool × List (Event R)) (g : PickGlobals R) :
    (afterWrapper a b out g).1.tolerance = g.tolerance
    ∧ ((afterWrapper a b out g).1.planning_cnt = g.planning_cnt
      ∨ (afterWrapper a b out g).1.planning_cnt = (g.planning_cnt + 1) % 256) := by
  unfold afterWrapper
  split <;> simp

theorem poseGoal_tolerance (m : LibM R) (a : Nat) (req : KinematicsPoseRequest R)
    (reply : Option Bool) (g : PickGlobals R) :
    (poseGoal m a req reply g).1.tolerance
        = (if reply = some false then m.add g.tolerance (5 / 1000) else g.tolerance)
    ∧ ((poseGoal m a req reply g).1.planning_cnt = g.planning_cnt
      ∨ (poseGoal m a req reply g).1.planning_cnt = (g.planning_cnt + 1) % 256) := by
  unfold poseGoal
  rcases reply with _ | _ | _ <;> simp

/-- Every `pick()` cycle other than a `WAITING_FOR_STOP` cycle that reads both actuators
as stopped leaves the tolerance unchanged, except that a pose goal answered
`planned = false` adds 0.005; and it leaves the retry counter unchanged or increments
it (modulo 256). -/
theorem pick_tolerance_cnt (m : LibM R) (r : Replies) (g : PickGlobals R)
    (hno : ¬ (g.task = WAITING_FOR_STOP ∧ g.state.arm = STOPPED ∧ g.state.gripper = STOPPED)) :
    (pick m r g).1.tolerance
        = (if (g.task = MOVE_ARM ∨ g.task = CLOSE_TO_OBJECT) ∧ g.state.arm = STOPPED
              ∧ r.goal = some false
            then m.add g.tolerance (5 / 1000) else g.tolerance)
    ∧ ((pick m r g).1.planning_cnt = g.planning_cnt
      ∨ (pick m r g).1.planning_cnt = (g.planning_cnt + 1) % 256) := by
  by_cases h2 : g.task = CHECK_AR_MARKER_POSE
  · rw [pick_check m r g h2]
    have hf := calcDesiredPose_frame m g.ar_marker_pose g
    have h5 : ¬ (g.task = MOVE_ARM ∨ g.task = CLOSE_TO_OBJECT) := by rw [h2]; decide
    split <;> simp [hf, h5]
  by_cases h3 : g.task = INIT_POSITION
  · rw [pick_init_position m r g h3]
    have h5 : ¬ (g.task = MOVE_ARM ∨ g.task = CLOSE_TO_OBJECT) := by rw [h3]; decide
    have := afterWrapper_tolerance INIT_POSITION INIT_POSITION (initJointPosition r.goal) g
    split <;> simp [h5, this]
  by_cases h4 : g.task = GRIPPER_OFF
  · rw [pick_gripper_off m r g h4]
    have h5 : ¬ (g.task = MOVE_ARM ∨ g.task = CLOSE_TO_OBJECT) := by rw [h4]; decide
    have := afterWrapper_tolerance GRIPPER_OFF INIT_POSITION (gripper false r.goal) g
    split <;> simp [h5, this]
  by_cases h5 : g.task = MOVE_ARM
  · rw [pick_move_arm m r g h5]
    have := poseGoal_tolerance m MOVE_ARM (moveArmRequest g) r.goal g
    by_cases ha : g.state.arm = STOPPED
    · rw [if_pos ha]
      simp only [h5, ha, true_or, true_and, this.1]
      exact this.2
    · rw [if_neg ha]
      simp [ha]
  by_cases h6 : g.task = CLOSE_TO_OBJECT
  · rw [pick_close_to_object m r g h6]
    have := poseGoal_tolerance m CLOSE_TO_OBJECT (closeToObjectRequest g) r.goal g
    by_cases ha : g.state.arm = STOPPED
    · rw [if_pos ha]
      simp only [h6, ha, or_true, true_and, this.1]
      exact this.2
    · rw [if_neg ha]
      simp [ha]
  have h56 : ¬ (g.task = MOVE_ARM ∨ g.task = CLOSE_TO_OBJECT) := by
    rintro (h | h)
    · exact h5 h
    · exact h6 h
  by_cases h7 : g.task = GRIP_OBJECT
  · rw [pick_grip_object m r g h7]
    have := afterWrapper_tolerance GRIP_OBJECT INIT_POSITION (gripper true r.goal) g
    split <;> simp [h56, this]
  by_cases h8 : g.task = PICK_OBJECT_UP
  · rw [pick_pick_object_up m r g h8]
    split <;> simp [h56]
  by_cases h9 : g.task = WAITING_FOR_STOP
  · rw [pick_waiting_for_stop m r g h9, if_neg (fun h => hno ⟨h9, h.1, h.2⟩)]
    simp [h56]
  · have hother : g.task < CHECK_AR_MARKER_POSE ∨ WAITING_FOR_STOP < g.task := by
      have h2 : g.task ≠ 2 := h2
      have h3 : g.task ≠ 3 := h3
      have h4 : g.task ≠ 4 := h4
      have h5 : g.task ≠ 5 := h5
      have h6 : g.task ≠ 6 := h6
      have h7 : g.task ≠ 7 := h7
      have h8 : g.task ≠ 8 := h8
      have h9 : g.task ≠ 9 := h9
      show g.task < 2 ∨ 9 < g.task
      omega
    rw [pick_other m r g hother]
    simp [h56]

theorem step_tolerance_cnt (m : LibM R) (i : Input R) (g : PickGlobals R)
    (hno : ∀ r, i = Input.pick r →
      ¬ (g.task = WAITING_FOR_STOP ∧ g.state.arm = STOPPED ∧ g.state.gripper = STOPPED)) :
    ((step m i g).1.tolerance = g.tolerance
        ∨ (step m i g).1.tolerance = m.add g.tolerance (5 / 1000))
    ∧ ((step m i g).1.planning_cnt = g.planning_cnt
      ∨ (step m i g).1.planning_cnt = (g.planning_cnt + 1) % 256) := by
  cases i with
  | pick r =>
    have h := pick_tolerance_cnt m r g (hno r rfl)
    refine ⟨?_, h.2⟩
    simp only [step]
    rw [h.1]
    split
    · exact Or.inr rfl
    · exact Or.inl rfl
  | pickMsg =>
    simp only [step, pickMsgCallback]
    split <;> simp
  | armState msg =>
    simp only [step, armStateMsgCallback]
    split
    · simp
    · split <;> simp
  | gripperState msg =>
    simp only [step, gripperStateMsgCallback]
    split
    · simp
    · split <;> simp
  | arMarkerPose markers =>
    cases markers <;> simp [step, arMarkerPoseMsgCallback]

theorem pick_waiting_for_stop_resets (m : LibM R) (r : Replies) (g : PickGlobals R)
    (ht : g.task = WAITING_FOR_STOP) (harm : g.state.arm = STOPPED)
    (hgrip : g.state.gripper = STOPPED) :
    (pick m r g).1.tolerance = 1 / 100 ∧ (pick m r g).1.planning_cnt = 0 := by
  rw [pick_waiting_for_stop m r g ht, if_pos ⟨harm, hgrip⟩]
  split <;> simp

/-- The tolerances held after the first four `planned = false` replies to a pose goal,
starting from 0.01: the `double`s nearest to 0.015, 0.02 and 0.025, and then
0.030000000000000002, which is not the `double` nearest to 0.03. -/
theorem doubleAdd_tolerance_steps :
    doubleAdd (1 / 100) (5 / 1000) = 1080863910568919 / 72057594037927936
    ∧ doubleAdd (1080863910568919 / 72057594037927936) (5 / 1000)
        = 5764607523034235 / 288230376151711744
    ∧ doubleAdd (5764607523034235 / 288230376151711744) (5 / 1000)
        = 3602879701896397 / 144115188075855872
    ∧ doubleAdd (3602879701896397 / 144115188075855872) (5 / 1000)
        = 8646911284551353 / 288230376151711744
    ∧ roundDouble (25 / 1000) = 3602879701896397 / 144115188075855872
    ∧ roundDouble (3 / 100) = 1080863910568919 / 36028797018963968 := by
  refine ⟨by decide!, by decide!, by decide!, by decide!, by decide!, by decide!⟩

theorem doubleAdd_iterate_three :
    (fun t => LibM.identity.add t (5 / 1000))^[3] (1 / 100)
      = 3602879701896397 / 144115188075855872 := by
  obtain ⟨h1, h2, h3, _⟩ := doubleAdd_tolerance_steps
  simp only [Function.iterate_succ_apply, Function.iterate_zero_apply, LibM.identity, h1, h2,
    h3]

theorem doubleAdd_iterate_four :
    (fun t => LibM.identity.add t (5 / 1000))^[4] (1 / 100)
      = 8646911284551353 / 288230376151711744 := by
  obtain ⟨h1, h2, h3, h4, _⟩ := doubleAdd_tolerance_steps
  simp only [Function.iterate_succ_apply, Function.iterate_zero_apply, LibM.identity, h1, h2,
    h3, h4]

/-- C4 (counterexample): in MOVE_ARM with the arm Stopped, tolerance 0.01 and retry
counter 0: after 255 `planned = false` replies the 8 bit counter holds 255, after the
256th it holds 0 again although every one of the 256 cycles was a MOVE_ARM cycle, none a
WAITING_FOR_STOP cycle; and after four failures the fifth request carries
0.030000000000000002, which is neither `0.01 + 4 * 0.005` nor the `double` nearest to
it. -/
theorem retry_counter_wraps_and_tolerance_rounds :
    (pickCycles LibM.identity (List.replicate 255 Replies.failed)
        { PickGlobals.ready with task := MOVE_ARM }).1.planning_cnt = 255
    ∧ (pickCycles LibM.identity (List.replicate 256 Replies.failed)
        { PickGlobals.ready with task := MOVE_ARM }).1.planning_cnt = 0
    ∧ (∀ t ∈ visited LibM.identity (List.replicate 256 Replies.failed)
        { PickGlobals.ready with task := MOVE_ARM }, t = MOVE_ARM)
    ∧ (∃ req : KinematicsPoseRequest ℚ,
        (pick LibM.identity Replies.planned
          (pickCycles LibM.identity (List.replicate 4 Replies.failed)
            { PickGlobals.ready with task := MOVE_ARM }).1).2
          = [Event.kinematics_pose_command req]
        ∧ req.tolerance = 8646911284551353 / 288230376151711744
        ∧ req.tolerance ≠ 1 / 100 + 4 * (5 / 1000)
        ∧ req.tolerance ≠ roundDouble (1 / 100 + 4 * (5 / 1000))) := by
  have hf : ∀ n, ∀ r ∈ List.replicate n Replies.failed, r.goal = some false := by
    intro n r hr
    rw [List.eq_of_mem_replicate hr]
    rfl
  have h255 := pickCycles_pose_failures LibM.identity (List.replicate 255 Replies.failed)
    { PickGlobals.ready with task := MOVE_ARM } (Or.inl rfl) rfl (by decide) (hf 255)
  have h256 := pickCycles_pose_failures LibM.identity (List.replicate 256 Replies.failed)
    { PickGlobals.ready with task := MOVE_ARM } (Or.inl rfl) rfl (by decide) (hf 256)
  have h4 := pickCycles_pose_failures LibM.identity (List.replicate 4 Replies.failed)
    { PickGlobals.ready with task := MOVE_ARM } (Or.inl rfl) rfl (by decide) (hf 4)
  refine ⟨?_, ?_, ?_, ?_⟩
  · rw [h255, List.length_replicate]
    rfl
  · rw [h256, List.length_replicate]
    rfl
  · exact visited_pose_failures LibM.identity _ _ (Or.inl rfl) rfl (hf 256)
  · rw [List.length_replicate] at h4
    have htol : ({ PickGlobals.ready with task := MOVE_ARM } : PickGlobals ℚ).tolerance
        = 1 / 100 := rfl
    rw [htol, doubleAdd_iterate_four] at h4
    rw [h4, pick_pose_planned LibM.identity Replies.planned _ (Or.inl rfl) rfl rfl]
    have h03 : roundDouble (1 / 100 + 4 * (5 / 1000))
        = 1080863910568919 / 36028797018963968 := by
      have e : (1 / 100 + 4 * (5 / 1000) : ℚ) = 3 / 100 := by norm_num
      rw [e]
      exact doubleAdd_tolerance_steps.2.2.2.2.2
    refine ⟨_, rfl, ?_, ?_, ?_⟩
    · rw [if_pos rfl]
      rfl
    · rw [if_pos rfl]
      show (8646911284551353 / 288230376151711744 : ℚ) ≠ 1 / 100 + 4 * (5 / 1000)
      norm_num
    · rw [if_pos rfl, h03]
      show (8646911284551353 / 288230376151711744 : ℚ)
        ≠ 1080863910568919 / 36028797018963968
      norm_num

/-- C4 (as amended): in MOVE_ARM (likewise CLOSE_TO_OBJECT) with the arm Stopped,
tolerance 0.01 and retry counter 0, let the pose goal be answered `planned = false` n
times and then `planned = true`.  Then the step is unchanged after every number of the
failures; the (n+1)-th request is the pose request of the step with the tolerance
obtained from 0.01 by n `double` additions of 0.005; the successful cycle enters
WAITING_FOR_STOP with that tolerance and the counter n modulo 256 (the counter is 8 bits
wide) not reset; any input other than a `pick()` cycle in WAITING_FOR_STOP reading both
actuators as Stopped keeps tolerance and counter or replaces them by the `double` sum
tolerance + 0.005 and by the counter plus 1 modulo 256; and such a WAITING_FOR_STOP
cycle sets them to 0.01 and 0. -/
theorem retry_scenario (m : LibM R) (g : PickGlobals R) (fails : List Replies) (ok : Replies)
    (htask : g.task = MOVE_ARM ∨ g.task = CLOSE_TO_OBJECT) (harm : g.state.arm = STOPPED)
    (htol : g.tolerance = 1 / 100) (hcnt : g.planning_cnt = 0)
    (hfail : ∀ r ∈ fails, r.goal = some false) (hok : ok.goal = some true) :
    (∀ k, (pickCycles m (fails.take k) g).1.task = g.task)
    ∧ (pick m ok (pickCycles m fails g).1).2 =
        [Event.kinematics_pose_command
          { (if g.task = MOVE_ARM then moveArmRequest g else closeToObjectRequest g) with
            tolerance := (fun t => m.add t (5 / 1000))^[fails.length] (1 / 100) }]
    ∧ (pick m ok (pickCycles m fails g).1).1 =
        { g with
          pre_task := g.task
          task := WAITING_FOR_STOP
          tolerance := (fun t => m.add t (5 / 1000))^[fails.length] (1 / 100)
          planning_cnt := fails.length % 256 }
    ∧ (∀ (i : Input R) (g1 : PickGlobals R),
        (∀ r, i = Input.pick r → ¬ (g1.task = WAITING_FOR_STOP ∧ g1.state.arm = STOPPED
          ∧ g1.state.gripper = STOPPED)) →
        ((step m i g1).1.tolerance = g1.tolerance
            ∨ (step m i g1).1.tolerance = m.add g1.tolerance (5 / 1000))
          ∧ ((step m i g1).1.planning_cnt = g1.planning_cnt
            ∨ (step m i g1).1.planning_cnt = (g1.planning_cnt + 1) % 256))
    ∧ (∀ (r : Replies) (g1 : PickGlobals R), g1.task = WAITING_FOR_STOP →
        g1.state.arm = STOPPED → g1.state.gripper = STOPPED →
        (pick m r g1).1.tolerance = 1 / 100 ∧ (pick m r g1).1.planning_cnt = 0) := by
  have hc : g.planning_cnt < 256 := by rw [hcnt]; decide
  have hn := pickCycles_pose_failures m fails g htask harm hc hfail
  have hp := pick_pose_planned m ok (pickCycles m fails g).1 (by rw [hn]; exact htask)
    (by rw [hn]; exact harm) hok
  refine ⟨?_, ?_, ?_, fun i g1 h => step_tolerance_cnt m i g1 h,
    fun r g1 h1 h2 h3 => pick_waiting_for_stop_resets m r g1 h1 h2 h3⟩
  · intro k
    rw [pickCycles_pose_failures m (fails.take k) g htask harm hc
      (fun r hr => hfail r (List.mem_of_mem_take hr))]
  · rw [hp, hn]
    rcases htask with h | h
    · simp [h, moveArmRequest, htol]
    · simp [h, closeToObjectRequest, htol]
  · rw [hp, hn]
    simp [htol, hcnt]

/-- Witness for `retry_scenario`: three failures in MOVE_ARM, then success; the fourth
request carries the `double` nearest to 0.025. -/
theorem retry_scenario_witness :
    (pick LibM.identity { goal := some true, result := true }
        (pickCycles LibM.identity (List.replicate 3 { goal := some false, result := true })
          { PickGlobals.ready with task := MOVE_ARM }).1).2 =
      [Event.kinematics_pose_command
        { (if ({ PickGlobals.ready with task := MOVE_ARM } : PickGlobals ℚ).task = MOVE_ARM
            then moveArmRequest { PickGlobals.ready with task := MOVE_ARM }
            else closeToObjectRequest { PickGlobals.ready with task := MOVE_ARM }) with
          tolerance := roundDouble (25 / 1000) }] := by
  rw [(retry_scenario LibM.identity { PickGlobals.ready with task := MOVE_ARM }
    (List.replicate 3 { goal := some false, result := true })
    { goal := some true, result := true } (Or.inl rfl) rfl rfl rfl
    (by intro r hr; rw [List.eq_of_mem_replicate hr]) rfl).2.1, List.length_replicate,
    doubleAdd_iterate_three, doubleAdd_tolerance_steps.2.2.2.2.1]

/-! ## Sequencer: marker not found -/

theorem run_cons (m : LibM R) (i : Input R) (rest : List (Input R)) (g : PickGlobals R) :
    run m (i :: rest) g
      = ((run m rest (step m i g).1).1, (step m i g).2 ++ (run m rest (step m i g).1).2) := rfl

theorem run_append (m : LibM R) (a b : List (Input R)) (g : PickGlobals R) :
    run m (a ++ b) g = ((run m b (run m a g).1).1, (run m a g).2 ++ (run m b (run m a g).1).2) := by
  induction a generalizing g with
  | nil => simp [run]
  | cons i rest ih => simp [run_cons, ih]

theorem step_callback_task (m : LibM R) (i : Input R) (g : PickGlobals R)
    (hp : ∀ r, i ≠ Input.pick r) (hs : i ≠ Input.pickMsg) :
    (step m i g).1.task = g.task ∧ (step m i g).2 = [] := by
  cases i with
  | pick r => exact absurd rfl (hp r)
  | pickMsg => exact absurd rfl hs
  | armState msg =>
    simp only [step, armStateMsgCallback]
    split
    · simp
    · split <;> simp
  | gripperState msg =>
    simp only [step, gripperStateMsgCallback]
    split
    · simp
    · split <;> simp
  | arMarkerPose markers =>
    cases markers <;> simp [step, arMarkerPoseMsgCallback]

theorem run_idle (m : LibM R) (inputs : List (Input R)) (g : PickGlobals R)
    (ht : g.task = WAITING_FOR_SIGNAL) (hs : ∀ i ∈ inputs, i ≠ Input.pickMsg) :
    (run m inputs g).1.task = WAITING_FOR_SIGNAL ∧ (run m inputs g).2 = [] := by
  induction inputs generalizing g with
  | nil => simp [run, ht]
  | cons i rest ih =>
    have hstep : (step m i g).1.task = WAITING_FOR_SIGNAL ∧ (step m i g).2 = [] := by
      by_cases hp : ∃ r, i = Input.pick r
      · obtain ⟨r, rfl⟩ := hp
        simp only [step]
        rw [pick_other m r g (Or.inl (by rw [ht]; decide))]
        exact ⟨ht, rfl⟩
      · have h := step_callback_task m i g (fun r hr => hp ⟨r, hr⟩)
          (hs i (List.mem_cons_self _ _))
        exact ⟨h.1.trans ht, h.2⟩
    have h2 := ih (step m i g).1 hstep.1 (fun j hj => hs j (List.mem_cons_of_mem _ hj))
    rw [run_cons]
    exact ⟨h2.1, by rw [hstep.2, h2.2]; rfl⟩

/-- C5 (counterexample): with the start-up marker observation (id 0, not 8), the
CHECK_MARKER cycle sends nothing on the result channel. -/
theorem marker_not_found_sends_no_result :
    ¬ ∃ s : String, Event.pick_result s ∈
      (pick LibM.identity { goal := some true, result := true }
        { (PickGlobals.init : PickGlobals ℚ) with task := CHECK_AR_MARKER_POSE }).2 := by
  rw [pick_check _ _ _ rfl]
  simp [PickGlobals.init]

/-- C5 (as amended): for every stored marker observation whose id is not the recognized
id, a `pick()` cycle in CHECK_MARKER issues no goal command and no report on the result
channel (its only output is the error line "CAN NOT FIND AR MARKER(ID : 8)"), and sets
the step to WAITING_FOR_SIGNAL; afterwards, as long as no start signal arrives, no
input produces any output and the step stays WAITING_FOR_SIGNAL. -/
theorem marker_not_found (m : LibM R) (r : Replies) (g : PickGlobals R)
    (inputs : List (Input R)) (ht : g.task = CHECK_AR_MARKER_POSE)
    (hid : g.ar_marker_pose.id ≠ MARKER_ID) (hs : ∀ i ∈ inputs, i ≠ Input.pickMsg) :
    (pick m r g).2 = [Event.ROS_ERROR "CAN NOT FIND AR MARKER(ID : 8)" []]
    ∧ (pick m r g).1.task = WAITING_FOR_SIGNAL
    ∧ (run m inputs (pick m r g).1).2 = []
    ∧ (run m inputs (pick m r g).1).1.task = WAITING_FOR_SIGNAL := by
  have hp : (pick m r g).2 = [Event.ROS_ERROR "CAN NOT FIND AR MARKER(ID : 8)" []]
      ∧ (pick m r g).1.task = WAITING_FOR_SIGNAL := by
    rw [pick_check m r g ht, if_neg hid]
    exact ⟨rfl, rfl⟩
  have hrun := run_idle m inputs (pick m r g).1 hp.2 hs
  exact ⟨hp.1, hp.2, hrun.2, hrun.1⟩

/-- Witness for `marker_not_found`: start-up globals put into CHECK_MARKER, followed by
a feedback message and two more cycles. -/
theorem marker_not_found_witness :
    (pick LibM.identity { goal := some true, result := true }
        { (PickGlobals.init : PickGlobals ℚ) with task := CHECK_AR_MARKER_POSE }).1.task
      = WAITING_FOR_SIGNAL :=
  (marker_not_found LibM.identity { goal := some true, result := true }
    { (PickGlobals.init : PickGlobals ℚ) with task := CHECK_AR_MARKER_POSE }
    [Input.armState StateMsg.stopped, Input.pick { goal := some true, result := true },
      Input.pick { goal := some true, result := true }]
    rfl (by decide) (by simp)).2.1

/-! ## Sequencer: the WAITING_FOR_STOP barrier -/

theorem callOutcome_any_goal (cmd : Event R) (reply : Option Bool) :
    (callOutcome cmd reply).2.any Event.isGoal = cmd.isGoal := by
  cases reply <;> simp [callOutcome, Event.isGoal]

theorem afterWrapper_task (a b : Nat) (cmd : Event R) (reply : Option Bool) (g : PickGlobals R)
    (hr : reply = some true) :
    (afterWrapper a b (callOutcome cmd reply) g).1.task = WAITING_FOR_STOP := by
  subst hr
  simp [afterWrapper, callOutcome]

/-- A cycle whose goal command is answered `planned = true` ends in WAITING_FOR_STOP. -/
theorem pick_planned_enters_barrier (m : LibM R) (r : Replies) (g : PickGlobals R)
    (hgoal : (pick m r g).2.any Event.isGoal = true) (hr : r.goal = some true) :
    (pick m r g).1.task = WAITING_FOR_STOP := by
  by_cases h2 : g.task = CHECK_AR_MARKER_POSE
  · rw [pick_check m r g h2] at hgoal
    split at hgoal <;> simp [Event.isGoal] at hgoal
  by_cases h3 : g.task = INIT_POSITION
  · rw [pick_init_position m r g h3] at hgoal ⊢
    split
    · exact afterWrapper_task _ _ _ _ _ hr
    · rename_i h; rw [if_neg h] at hgoal; simp at hgoal
  by_cases h4 : g.task = GRIPPER_OFF
  · rw [pick_gripper_off m r g h4] at hgoal ⊢
    split
    · exact afterWrapper_task _ _ _ _ _ hr
    · rename_i h; rw [if_neg h] at hgoal; simp at hgoal
  by_cases h5 : g.task = MOVE_ARM
  · rw [pick_move_arm m r g h5] at hgoal ⊢
    split
    · rw [hr]; rfl
    · rename_i h; rw [if_neg h] at hgoal; simp at hgoal
  by_cases h6 : g.task = CLOSE_TO_OBJECT
  · rw [pick_close_to_object m r g h6] at hgoal ⊢
    split
    · rw [hr]; rfl
    · rename_i h; rw [if_neg h] at hgoal; simp at hgoal
  by_cases h7 : g.task = GRIP_OBJECT
  · rw [pick_grip_object m r g h7] at hgoal ⊢
    split
    · exact afterWrapper_task _ _ _ _ _ hr
    · rename_i h; rw [if_neg h] at hgoal; simp at hgoal
  by_cases h8 : g.task = PICK_OBJECT_UP
  · rw [pick_pick_object_up m r g h8] at hgoal ⊢
    split
    · rfl
    · rename_i h; rw [if_neg h] at hgoal; simp at hgoal
  by_cases h9 : g.task = WAITING_FOR_STOP
  · rw [pick_waiting_for_stop m r g h9] at hgoal
    exfalso
    split at hgoal
    · split at hgoal
      · cases hres : r.result <;> simp [result, hres, Event.isGoal] at hgoal
      · simp at hgoal
    · simp at hgoal
  · have hother : g.task < CHECK_AR_MARKER_POSE ∨ WAITING_FOR_STOP < g.task := by
      have h2 : g.task ≠ 2 := h2
      have h3 : g.task ≠ 3 := h3
      have h4 : g.task ≠ 4 := h4
      have h5 : g.task ≠ 5 := h5
      have h6 : g.task ≠ 6 := h6
      have h7 : g.task ≠ 7 := h7
      have h8 : g.task ≠ 8 := h8
      have h9 : g.task ≠ 9 := h9
      show g.task < 2 ∨ 9 < g.task
      omega
    rw [pick_other m r g hother] at hgoal
    simp at hgoal

/-- A cycle in WAITING_FOR_STOP issues no goal command, and stays there unless it reads
both actuators as stopped. -/
theorem pick_in_barrier (m : LibM R) (r : Replies) (g : PickGlobals R)
    (ht : g.task = WAITING_FOR_STOP) :
    (pick m r g).2.any Event.isGoal = false
    ∧ (¬ (g.state.arm = STOPPED ∧ g.state.gripper = STOPPED) →
        (pick m r g).1.task = WAITING_FOR_STOP) := by
  rw [pick_waiting_for_stop m r g ht]
  constructor
  · split
    · split
      · cases hres : r.result <;> simp [result, hres, Event.isGoal]
      · simp
    · simp
  · intro h
    rw [if_neg h]
    exact ht

theorem observe_invariant (m : LibM R) (i : Input R) (g : PickGlobals R) (b : Barrier)
    (hs : i ≠ Input.pickMsg) (hv : b.violated = false)
    (hp : b.pending = true → g.task = WAITING_FOR_STOP) :
    (Barrier.observe m i g b).violated = false
    ∧ ((Barrier.observe m i g b).pending = true → (step m i g).1.task = WAITING_FOR_STOP) := by
  cases i with
  | pickMsg => exact absurd rfl hs
  | pick r =>
    simp only [Barrier.observe, step]
    by_cases hpend : b.pending = true
    · have hb := pick_in_barrier m r g (hp hpend)
      rw [hb.1, hv]
      refine ⟨by simp, ?_⟩
      intro h
      by_cases hst : g.state.arm = STOPPED ∧ g.state.gripper = STOPPED
      · simp [hp hpend, hst] at h
      · exact hb.2 hst
    · have hpf : b.pending = false := by simpa using hpend
      rw [hv, hpf]
      refine ⟨by simp, ?_⟩
      intro h
      by_cases hgo : (pick m r g).2.any Event.isGoal = true ∧ r.goal = some true
      · exact pick_planned_enters_barrier m r g hgo.1 hgo.2
      · rw [if_neg hgo] at h
        split at h <;> simp at h
  | armState msg =>
    have h := step_callback_task m (Input.armState msg) g (fun r => by simp) (by simp)
    exact ⟨hv, fun hb => h.1.trans (hp hb)⟩
  | gripperState msg =>
    have h := step_callback_task m (Input.gripperState msg) g (fun r => by simp) (by simp)
    exact ⟨hv, fun hb => h.1.trans (hp hb)⟩
  | arMarkerPose markers =>
    have h := step_callback_task m (Input.arMarkerPose markers) g (fun r => by simp) (by simp)
    exact ⟨hv, fun hb => h.1.trans (hp hb)⟩

/-- C7 (counterexample): from start-up, a start signal that arrives right after the
INIT_POSITION goal was answered `planned = true`, while the feedback still reads Stopped,
restarts the sequence, and the INIT_POSITION goal is issued again although no
WAITING_FOR_STOP cycle has run in between. -/
theorem start_signal_breaks_barrier :
    (runWatched LibM.identity restartDuringMotion PickGlobals.init
      { pending := false, violated := false }).violated = true := by
  decide

/-- C7 (as amended): in every execution made of `pick()` cycles and arm, gripper and
marker feedback callbacks, with no start signal, after a goal command that returned
`planned = true` no further goal command is issued until a `pick()` cycle in
WAITING_FOR_STOP has read the arm and the gripper both as Stopped. -/
theorem no_overlapping_goals_without_start_signal (m : LibM R) (inputs : List (Input R))
    (g : PickGlobals R) (b : Barrier) (hs : ∀ i ∈ inputs, i ≠ Input.pickMsg)
    (hv : b.violated = false) (hp : b.pending = true → g.task = WAITING_FOR_STOP) :
    (runWatched m inputs g b).violated = false := by
  induction inputs generalizing g b with
  | nil => exact hv
  | cons i rest ih =>
    have h := observe_invariant m i g b (hs i (List.mem_cons_self _ _)) hv hp
    exact ih (step m i g).1 (Barrier.observe m i g b)
      (fun j hj => hs j (List.mem_cons_of_mem _ hj)) h.1 h.2

/-- Witness for `no_overlapping_goals_without_start_signal`: three cycles from
INIT_POSITION. -/
theorem no_overlapping_goals_without_start_signal_witness :
    (runWatched LibM.identity
      [Input.pick { goal := some true, result := true },
        Input.pick { goal := some true, result := true },
        Input.pick { goal := some true, result := true }]
      { PickGlobals.ready with task := INIT_POSITION }
      { pending := false, violated := false }).violated = false :=
  no_overlapping_goals_without_start_signal LibM.identity
    [Input.pick { goal := some true, result := true },
      Input.pick { goal := some true, result := true },
      Input.pick { goal := some true, result := true }]
    { PickGlobals.ready with task := INIT_POSITION }
    { pending := false, violated := false } (by simp) rfl (by simp)

/-! ## Sequencer: the tolerance of the pose goals -/

theorem callOutcome_no_pose (cmd : Event R) (reply : Option Bool)
    (req : KinematicsPoseRequest R) (hc : cmd ≠ Event.kinematics_pose_command req) :
    Event.kinematics_pose_command req ∉ (callOutcome cmd reply).2 := by
  cases reply <;> simp [callOutcome, Ne.symm hc]

theorem afterWrapper_no_pose (a b : Nat) (cmd : Event R) (reply : Option Bool)
    (g : PickGlobals R) (req : KinematicsPoseRequest R)
    (hc : cmd ≠ Event.kinematics_pose_command req) :
    Event.kinematics_pose_command req ∉ (afterWrapper a b (callOutcome cmd reply) g).2 := by
  have h := callOutcome_no_pose cmd reply req hc
  unfold afterWrapper
  split
  · exact h
  · simp [h]

theorem poseGoal_pose (m : LibM R) (a : Nat) (req0 req : KinematicsPoseRequest R)
    (reply : Option Bool) (g : PickGlobals R) (h : Event.kinematics_pose_command req ∈ (poseGoal m a req0 reply g).2) :
    req = req0 := by
  unfold poseGoal at h
  rcases reply with _ | _ | _ <;> simpa using h

/-- Every pose goal issued by a cycle carries the tolerance held at the start of the
cycle. -/
theorem pick_pose_tolerance (m : LibM R) (r : Replies) (g : PickGlobals R)
    (req : KinematicsPoseRequest R) (h : Event.kinematics_pose_command req ∈ (pick m r g).2) :
    req.tolerance = g.tolerance := by
  by_cases h2 : g.task = CHECK_AR_MARKER_POSE
  · rw [pick_check m r g h2] at h
    split at h <;> simp at h
  by_cases h3 : g.task = INIT_POSITION
  · rw [pick_init_position m r g h3] at h
    split at h
    · exact absurd h (afterWrapper_no_pose _ _ _ _ _ _ (by simp))
    · simp at h
  by_cases h4 : g.task = GRIPPER_OFF
  · rw [pick_gripper_off m r g h4] at h
    split at h
    · exact absurd h (afterWrapper_no_pose _ _ _ _ _ _ (by simp))
    · simp at h
  by_cases h5 : g.task = MOVE_ARM
  · rw [pick_move_arm m r g h5] at h
    split at h
    · rw [poseGoal_pose _ _ _ _ _ _ h]; rfl
    · simp at h
  by_cases h6 : g.task = CLOSE_TO_OBJECT
  · rw [pick_close_to_object m r g h6] at h
    split at h
    · rw [poseGoal_pose _ _ _ _ _ _ h]; rfl
    · simp at h
  by_cases h7 : g.task = GRIP_OBJECT
  · rw [pick_grip_object m r g h7] at h
    split at h
    · exact absurd h (afterWrapper_no_pose _ _ _ _ _ _ (by simp))
    · simp at h
  by_cases h8 : g.task = PICK_OBJECT_UP
  · rw [pick_pick_object_up m r g h8] at h
    split at h
    · exact absurd h (callOutcome_no_pose _ _ _ (by simp))
    · simp at h
  by_cases h9 : g.task = WAITING_FOR_STOP
  · rw [pick_waiting_for_stop m r g h9] at h
    exfalso
    split at h
    · split at h
      · cases hres : r.result <;> simp [result, hres] at h
      · simp at h
    · simp at h
  · have hother : g.task < CHECK_AR_MARKER_POSE ∨ WAITING_FOR_STOP < g.task := by
      have h2 : g.task ≠ 2 := h2
      have h3 : g.task ≠ 3 := h3
      have h4 : g.task ≠ 4 := h4
      have h5 : g.task ≠ 5 := h5
      have h6 : g.task ≠ 6 := h6
      have h7 : g.task ≠ 7 := h7
      have h8 : g.task ≠ 8 := h8
      have h9 : g.task ≠ 9 := h9
      show g.task < 2 ∨ 9 < g.task
      omega
    rw [pick_other m r g hother] at h
    simp at h

theorem step_pose_tolerance (m : LibM R) (i : Input R) (g : PickGlobals R)
    (req : KinematicsPoseRequest R) (h : Event.kinematics_pose_command req ∈ (step m i g).2) :
    req.tolerance = g.tolerance := by
  cases i with
  | pick r => exact pick_pose_tolerance m r g req h
  | pickMsg => simp [step] at h
  | armState msg => simp [step] at h
  | gripperState msg => simp [step] at h
  | arMarkerPose markers => simp [step] at h

/-- A property of the tolerance that holds of 0.01 and is kept by the `double` addition
of 0.005 is kept by every input. -/
theorem step_tolerance_closed (m : LibM R) (P : R → Prop) (h0 : P (1 / 100))
    (hadd : ∀ t, P t → P (m.add t (5 / 1000))) (i : Input R) (g : PickGlobals R)
    (hg : P g.tolerance) : P (step m i g).1.tolerance := by
  by_cases hw : ∃ r, i = Input.pick r ∧ g.task = WAITING_FOR_STOP ∧ g.state.arm = STOPPED
      ∧ g.state.gripper = STOPPED
  · obtain ⟨r, rfl, h1, h2, h3⟩ := hw
    simp only [step]
    rw [(pick_waiting_for_stop_resets m r g h1 h2 h3).1]
    exact h0
  · rcases (step_tolerance_cnt m i g (fun r hr h => hw ⟨r, hr, h⟩)).1 with h | h
    · rw [h]; exact hg
    · rw [h]; exact hadd _ hg

theorem run_tolerance_closed (m : LibM R) (P : R → Prop) (h0 : P (1 / 100))
    (hadd : ∀ t, P t → P (m.add t (5 / 1000))) (inputs : List (Input R)) (g : PickGlobals R)
    (hg : P g.tolerance) : P (run m inputs g).1.tolerance := by
  induction inputs generalizing g with
  | nil => exact hg
  | cons i rest ih =>
    rw [run_cons]
    exact ih (step m i g).1 (step_tolerance_closed m P h0 hadd i g hg)

theorem run_pose_tolerance_closed (m : LibM R) (P : R → Prop) (h0 : P (1 / 100))
    (hadd : ∀ t, P t → P (m.add t (5 / 1000))) (inputs : List (Input R)) (g : PickGlobals R)
    (hg : P g.tolerance) (req : KinematicsPoseRequest R)
    (h : Event.kinematics_pose_command req ∈ (run m inputs g).2) : P req.tolerance := by
  induction inputs generalizing g with
  | nil => simp [run] at h
  | cons i rest ih =>
    rw [run_cons] at h
    rcases List.mem_append.mp h with h1 | h2
    · rw [step_pose_tolerance m i g req h1]
      exact hg
    · exact ih (step m i g).1 (step_tolerance_closed m P h0 hadd i g hg) h2

theorem pickCycles_append (m : LibM R) (a b : List Replies) (g : PickGlobals R) :
    pickCycles m (a ++ b) g
      = ((pickCycles m b (pickCycles m a g).1).1,
          (pickCycles m a g).2 ++ (pickCycles m b (pickCycles m a g).1).2) := by
  simp [pickCycles, run_append]

theorem pickCycles_single (m : LibM R) (r : Replies) (g : PickGlobals R) :
    pickCycles m [r] g = pick m r g := by
  simp [pickCycles, run, step]

/-- After any number of `planned = false` replies in MOVE_ARM or CLOSE_TO_OBJECT, the
next cycle issues a pose goal again; its tolerance has taken one `double` addition of
0.005 per failure. -/
theorem pose_goal_after_failures (m : LibM R) (g : PickGlobals R) (n : Nat) (r : Replies)
    (htask : g.task = MOVE_ARM ∨ g.task = CLOSE_TO_OBJECT) (harm : g.state.arm = STOPPED)
    (hcnt : g.planning_cnt < 256) :
    ∃ req : KinematicsPoseRequest R,
      req.tolerance = (fun t => m.add t (5 / 1000))^[n] g.tolerance
      ∧ Event.kinematics_pose_command req ∈
        (pickCycles m (List.replicate n Replies.failed ++ [r]) g).2 := by
  have hn := pickCycles_pose_failures m
    (List.replicate n Replies.failed) g htask harm hcnt
    (by intro r hr; rw [List.eq_of_mem_replicate hr]; rfl)
  rw [List.length_replicate] at hn
  refine ⟨{ (if g.task = MOVE_ARM then moveArmRequest g else closeToObjectRequest g) with
    tolerance := (fun t => m.add t (5 / 1000))^[n] g.tolerance }, rfl, ?_⟩
  rw [pickCycles_append, pickCycles_single]
  refine List.mem_append_right _ ?_
  rw [hn]
  by_cases h5 : g.task = MOVE_ARM
  · rw [pick_move_arm m r { g with
      planning_cnt := (g.planning_cnt + n) % 256
      tolerance := (fun t => m.add t (5 / 1000))^[n] g.tolerance } h5, if_pos harm]
    unfold poseGoal
    rcases r.goal with _ | _ | _ <;> simp [moveArmRequest, h5]
  · have h6 : g.task = CLOSE_TO_OBJECT := htask.resolve_left h5
    rw [pick_close_to_object m r { g with
      planning_cnt := (g.planning_cnt + n) % 256
      tolerance := (fun t => m.add t (5 / 1000))^[n] g.tolerance } h6, if_pos harm]
    unfold poseGoal
    rcases r.goal with _ | _ | _ <;> simp [closeToObjectRequest, h6]

theorem reachMoveArm_state :
    (run LibM.identity reachMoveArm PickGlobals.init).1.task = MOVE_ARM
    ∧ (run LibM.identity reachMoveArm PickGlobals.init).1.state.arm = STOPPED
    ∧ (run LibM.identity reachMoveArm PickGlobals.init).1.planning_cnt = 0
    ∧ (run LibM.identity reachMoveArm PickGlobals.init).1.tolerance = 1 / 100 := by
  refine ⟨by decide, by decide, by decide, rfl⟩

/-- With the `double` addition, a tolerance between 0.01 and 2^46 stays there when 0.005
is added: at 2^46 the sum rounds back to 2^46. -/
theorem tolerance_range_closed (m : LibM ℚ) (hadd : ∀ a b, m.add a b = doubleAdd a b)
    (t : ℚ) (h : 1 / 100 ≤ t ∧ t ≤ 70368744177664) :
    1 / 100 ≤ m.add t (5 / 1000) ∧ m.add t (5 / 1000) ≤ 70368744177664 := by
  rw [hadd]
  exact doubleAdd_tolerance_bounds t h.1 h.2

/-- C8: with the `double` addition that the code performs, every pose goal issued (in
MOVE_ARM or CLOSE_TO_OBJECT) in an execution from start-up carries a tolerance of at
least 0.01 and at most 2^46 = 70368744177664: each `planned = false` reply adds 0.005
until, at 2^46, the sum rounds back to the tolerance.  The number of retries is not
limited: after every number n of failed replies in MOVE_ARM the pose goal is issued
again, with the tolerance that n additions give. -/
theorem pose_tolerance_is_bounded (m : LibM ℚ) (hadd : ∀ a b, m.add a b = doubleAdd a b)
    (inputs : List (Input ℚ)) (n : Nat) :
    (∀ req : KinematicsPoseRequest ℚ,
      Event.kinematics_pose_command req ∈ (run m inputs PickGlobals.init).2 →
        1 / 100 ≤ req.tolerance ∧ req.tolerance ≤ 70368744177664)
    ∧ (∃ req : KinematicsPoseRequest ℚ,
        Event.kinematics_pose_command req ∈
          (run LibM.identity (reachMoveArm
            ++ (List.replicate n Replies.failed
              ++ [Replies.planned]).map Input.pick) PickGlobals.init).2
        ∧ req.tolerance = (fun t => doubleAdd t (5 / 1000))^[n] (1 / 100)) := by
  constructor
  · intro req h
    exact run_pose_tolerance_closed m (fun t => 1 / 100 ≤ t ∧ t ≤ 70368744177664)
      (by norm_num) (tolerance_range_closed m hadd) inputs PickGlobals.init
      (by simp only [PickGlobals.init]; norm_num) req h
  · obtain ⟨h1, h2, h3, h4⟩ := reachMoveArm_state
    obtain ⟨req, htol, hmem⟩ := pose_goal_after_failures LibM.identity
      (run LibM.identity reachMoveArm PickGlobals.init).1 n Replies.planned
      (Or.inl h1) h2 (by rw [h3]; decide)
    refine ⟨req, ?_, ?_⟩
    · rw [run_append]
      exact List.mem_append_right _ hmem
    · rw [htol, h4]
      rfl

/-- Witness for `pose_tolerance_is_bounded`: the execution that reaches MOVE_ARM and gets
two `planned = false` replies before the pose goal is planned. -/
theorem pose_tolerance_is_bounded_witness :
    ∃ req : KinematicsPoseRequest ℚ,
      Event.kinematics_pose_command req ∈
        (run LibM.identity (reachMoveArm
          ++ (List.replicate 2 Replies.failed
            ++ [Replies.planned]).map Input.pick) PickGlobals.init).2
      ∧ 1 / 100 ≤ req.tolerance ∧ req.tolerance ≤ 70368744177664 := by
  obtain ⟨h1, h2, h3, h4⟩ := reachMoveArm_state
  obtain ⟨req, _, hmem⟩ := pose_goal_after_failures LibM.identity
    (run LibM.identity reachMoveArm PickGlobals.init).1 2 Replies.planned
    (Or.inl h1) h2 (by rw [h3]; decide)
  have hin : Event.kinematics_pose_command req ∈
      (run LibM.identity (reachMoveArm
        ++ (List.replicate 2 Replies.failed
          ++ [Replies.planned]).map Input.pick) PickGlobals.init).2 := by
    rw [run_append]
    exact List.mem_append_right _ hmem
  exact ⟨req, hin, (pose_tolerance_is_bounded LibM.identity (fun _ _ => rfl) _ 0).1 req hin⟩

/-! ## Sequencer: the unchecked goal of PICK_OBJECT_UP -/

/-- The five steps that check the reply: on `planned = false` the step after the cycle is
the step itself (INIT_POSITION, MOVE_ARM, CLOSE_TO_OBJECT) or INIT_POSITION (the two
gripper steps), never WAITING_FOR_STOP. -/
theorem checked_steps_retry_on_failure (m : LibM R) (r : Replies) (g : PickGlobals R)
    (hr : r.goal = some false)
    (ht : g.task = INIT_POSITION ∨ g.task = GRIPPER_OFF ∨ g.task = MOVE_ARM
      ∨ g.task = CLOSE_TO_OBJECT ∨ g.task = GRIP_OBJECT) :
    (pick m r g).1.task ≠ WAITING_FOR_STOP := by
  rcases ht with h | h | h | h | h
  · rw [pick_init_position m r g h]
    split
    · rw [afterWrapper_failed _ _ _ _ (by rw [hr]; rfl)]; simp
    · rw [h]; decide
  · rw [pick_gripper_off m r g h]
    split
    · rw [afterWrapper_failed _ _ _ _ (by rw [hr]; rfl)]; simp
    · rw [h]; decide
  · rw [pick_move_arm m r g h]
    split
    · rw [hr]; simp [poseGoal]
    · rw [h]; decide
  · rw [pick_close_to_object m r g h]
    split
    · rw [hr]; simp [poseGoal]
    · rw [h]; decide
  · rw [pick_grip_object m r g h]
    split
    · rw [afterWrapper_failed _ _ _ _ (by rw [hr]; rfl)]; simp
    · rw [h]; decide

/-- C9 (the code at the failing input): in PICK_OBJECT_UP with the arm Stopped, a
`planned = false` reply to the retract goal is ignored: the cycle enters
WAITING_FOR_STOP with PICK_OBJECT_UP as previous step, and the next cycle (both
actuators reading Stopped) reports "Success" and returns to WAITING_FOR_SIGNAL. -/
theorem pick_object_up_ignores_planning_failure :
    (pick LibM.identity Replies.failed { PickGlobals.ready with task := PICK_OBJECT_UP }).1.task
        = WAITING_FOR_STOP
    ∧ (pick LibM.identity Replies.failed
        { PickGlobals.ready with task := PICK_OBJECT_UP }).1.pre_task = PICK_OBJECT_UP
    ∧ (pickCycles LibM.identity [Replies.failed, Replies.planned]
        { PickGlobals.ready with task := PICK_OBJECT_UP }).1.task = WAITING_FOR_SIGNAL
    ∧ (pickCycles LibM.identity [Replies.failed, Replies.planned]
        { PickGlobals.ready with task := PICK_OBJECT_UP }).2.filter Event.isResult
        = [Event.pick_result "Success"] := by
  refine ⟨by decide, by decide, by decide, ?_⟩
  decide

/-! ## Sequencer: the start signal -/

/-- C13 (counterexample): at start-up (step 0, no feedback received yet, so the
actuators do not read Stopped) a start signal does not lead to CHECK_MARKER: the step
becomes WAITING_FOR_SIGNAL.  The same happens in WAITING_FOR_SIGNAL while the arm reads
Moving. -/
theorem start_signal_refused_unless_stopped :
    (pickMsgCallback (PickGlobals.init : PickGlobals ℚ)).1.task = WAITING_FOR_SIGNAL
    ∧ (pickMsgCallback (PickGlobals.init : PickGlobals ℚ)).1.task ≠ CHECK_AR_MARKER_POSE
    ∧ (pickMsgCallback
        { PickGlobals.ready with
          task := WAITING_FOR_SIGNAL
          state := { arm := IS_MOVING, gripper := STOPPED, marker := false } }).1.task
        ≠ CHECK_AR_MARKER_POSE := by
  refine ⟨by decide, by decide, by decide⟩

/-- C13 (as amended): whatever the current step (WAITING_FOR_SIGNAL, the start-up value 0
or any other), a start signal moves the sequencer to CHECK_MARKER if and only if the arm
and the gripper both read Stopped, and then answers "START PICK TASK!"; otherwise it
sets the step to WAITING_FOR_SIGNAL and answers "SOME TASKS IS WORKING".  Nothing but
the step is changed. -/
theorem start_signal_transition (g : PickGlobals R) :
    ((pickMsgCallback g).1.task = CHECK_AR_MARKER_POSE
        ↔ g.state.arm = STOPPED ∧ g.state.gripper = STOPPED)
    ∧ ((pickMsgCallback g).1.task = WAITING_FOR_SIGNAL
        ↔ ¬ (g.state.arm = STOPPED ∧ g.state.gripper = STOPPED))
    ∧ ((pickMsgCallback g).2 = "START PICK TASK!"
        ↔ g.state.arm = STOPPED ∧ g.state.gripper = STOPPED)
    ∧ ((pickMsgCallback g).2 = "SOME TASKS IS WORKING"
        ↔ ¬ (g.state.arm = STOPPED ∧ g.state.gripper = STOPPED))
    ∧ (pickMsgCallback g).1 = { g with task := (pickMsgCallback g).1.task } := by
  unfold pickMsgCallback
  by_cases h : g.state.arm = STOPPED ∧ g.state.gripper = STOPPED
  · rw [if_pos h]
    simp [h]
  · rw [if_neg h]
    simp [h]

/-! ## Sequencer: who writes the task state -/

theorem calcDesiredPose_snd_state (m : LibM R) (marker : AlvarMarker R) (g : PickGlobals R) :
    (calcDesiredPose m marker g).2.state
      = { g.state with marker := decide (marker.id = MARKER_ID) } := by
  unfold calcDesiredPose
  split <;> simp [*]

theorem afterWrapper_state (a b : Nat) (out : Bool × List (Event R)) (g : PickGlobals R) :
    (afterWrapper a b out g).1.state = g.state := by
  unfold afterWrapper
  split <;> rfl

theorem poseGoal_state (m : LibM R) (a : Nat) (req : KinematicsPoseRequest R)
    (reply : Option Bool) (g : PickGlobals R) : (poseGoal m a req reply g).1.state = g.state := by
  unfold poseGoal
  rcases reply with _ | _ | _ <;> rfl

/-- The task state after a `pick()` cycle. -/
theorem pick_state (m : LibM R) (r : Replies) (g : PickGlobals R) :
    (pick m r g).1.state =
      if g.task = CHECK_AR_MARKER_POSE then
        { g.state with marker := decide (g.ar_marker_pose.id = MARKER_ID) }
      else g.state := by
  by_cases h2 : g.task = CHECK_AR_MARKER_POSE
  · rw [pick_check m r g h2, if_pos h2]
    have := calcDesiredPose_snd_state m g.ar_marker_pose g
    split <;> exact this
  rw [if_neg h2]
  by_cases h3 : g.task = INIT_POSITION
  · rw [pick_init_position m r g h3]
    split
    · exact afterWrapper_state _ _ _ _
    · rfl
  by_cases h4 : g.task = GRIPPER_OFF
  · rw [pick_gripper_off m r g h4]
    split
    · exact afterWrapper_state _ _ _ _
    · rfl
  by_cases h5 : g.task = MOVE_ARM
  · rw [pick_move_arm m r g h5]
    split
    · exact poseGoal_state _ _ _ _ _
    · rfl
  by_cases h6 : g.task = CLOSE_TO_OBJECT
  · rw [pick_close_to_object m r g h6]
    split
    · exact poseGoal_state _ _ _ _ _
    · rfl
  by_cases h7 : g.task = GRIP_OBJECT
  · rw [pick_grip_object m r g h7]
    split
    · exact afterWrapper_state _ _ _ _
    · rfl
  by_cases h8 : g.task = PICK_OBJECT_UP
  · rw [pick_pick_object_up m r g h8]
    split <;> rfl
  by_cases h9 : g.task = WAITING_FOR_STOP
  · rw [pick_waiting_for_stop m r g h9]
    split
    · split <;> rfl
    · rfl
  · have hother : g.task < CHECK_AR_MARKER_POSE ∨ WAITING_FOR_STOP < g.task := by
      have h2 : g.task ≠ 2 := h2
      have h3 : g.task ≠ 3 := h3
      have h4 : g.task ≠ 4 := h4
      have h5 : g.task ≠ 5 := h5
      have h6 : g.task ≠ 6 := h6
      have h7 : g.task ≠ 7 := h7
      have h8 : g.task ≠ 8 := h8
      have h9 : g.task ≠ 9 := h9
      show g.task < 2 ∨ 9 < g.task
      omega
    rw [pick_other m r g hother]

/-- C17 (counterexample): the `pick()` cycle in CHECK_MARKER writes the field `marker`
of the task state: with the recognized marker stored it changes from false to true. -/
theorem check_marker_cycle_writes_marker :
    ({ PickGlobals.ready with task := CHECK_AR_MARKER_POSE } : PickGlobals ℚ).state.marker
        = false
    ∧ (pick LibM.identity Replies.planned
        { PickGlobals.ready with task := CHECK_AR_MARKER_POSE }).1.state.marker = true := by
  refine ⟨rfl, ?_⟩
  rw [pick_state, if_pos rfl]
  rfl

/-- C17 (as amended): a `pick()` cycle never changes the fields `arm` and `gripper`; it
changes `marker` only in CHECK_MARKER, where it sets it to whether the stored
observation has the recognized id.  The arm callback writes at most `arm`, the gripper
callback at most `gripper`, and the marker callback and the start signal write no field
of the task state. -/
theorem task_state_writers (m : LibM R) (r : Replies) (g : PickGlobals R) (msg : StateMsg)
    (markers : List (AlvarMarker R)) :
    (pick m r g).1.state.arm = g.state.arm
    ∧ (pick m r g).1.state.gripper = g.state.gripper
    ∧ (pick m r g).1.state.marker
        = (if g.task = CHECK_AR_MARKER_POSE then decide (g.ar_marker_pose.id = MARKER_ID)
            else g.state.marker)
    ∧ (armStateMsgCallback msg g).state.gripper = g.state.gripper
    ∧ (armStateMsgCallback msg g).state.marker = g.state.marker
    ∧ (gripperStateMsgCallback msg g).state.arm = g.state.arm
    ∧ (gripperStateMsgCallback msg g).state.marker = g.state.marker
    ∧ (arMarkerPoseMsgCallback markers g).state = g.state
    ∧ (pickMsgCallback g).1.state = g.state := by
  have hp := pick_state m r g
  refine ⟨?_, ?_, ?_, ?_, ?_, ?_, ?_, ?_, ?_⟩
  · rw [hp]; split <;> rfl
  · rw [hp]; split <;> rfl
  · rw [hp]; split <;> rfl
  · unfold armStateMsgCallback
    split
    · rfl
    · split <;> rfl
  · unfold armStateMsgCallback
    split
    · rfl
    · split <;> rfl
  · unfold gripperStateMsgCallback
    split
    · rfl
    · split <;> rfl
  · unfold gripperStateMsgCallback
    split
    · rfl
    · split <;> rfl
  · cases markers <;> rfl
  · unfold pickMsgCallback
    split <;> rfl

/-! ## Sequencer: the WAITING_FOR_STOP step -/

/-- C18: a `pick()` cycle in WAITING_FOR_STOP changes nothing and sends nothing unless
the arm and the gripper both read Stopped.  When both do, it sets the tolerance to 0.01
and the retry counter to 0 and changes nothing else but the step: after INIT_POSITION
the step is GRIPPER_OFF, after GRIPPER_OFF MOVE_ARM, after MOVE_ARM CLOSE_TO_OBJECT,
after CLOSE_TO_OBJECT GRIP_OBJECT, after GRIP_OBJECT PICK_OBJECT_UP, in each case with
no output; after PICK_OBJECT_UP the step is WAITING_FOR_SIGNAL, no goal is issued and
the result channel carries exactly one report, "Success". -/
theorem waiting_for_stop_step (m : LibM R) (r : Replies) (g : PickGlobals R)
    (ht : g.task = WAITING_FOR_STOP) :
    (¬ (g.state.arm = STOPPED ∧ g.state.gripper = STOPPED) → pick m r g = (g, []))
    ∧ (g.state.arm = STOPPED ∧ g.state.gripper = STOPPED →
        (pick m r g).1 = { g with tolerance := 1 / 100, planning_cnt := 0,
                                  task := (pick m r g).1.task }
        ∧ (g.pre_task = INIT_POSITION → (pick m r g).1.task = GRIPPER_OFF)
        ∧ (g.pre_task = GRIPPER_OFF → (pick m r g).1.task = MOVE_ARM)
        ∧ (g.pre_task = MOVE_ARM → (pick m r g).1.task = CLOSE_TO_OBJECT)
        ∧ (g.pre_task = CLOSE_TO_OBJECT → (pick m r g).1.task = GRIP_OBJECT)
        ∧ (g.pre_task = GRIP_OBJECT → (pick m r g).1.task = PICK_OBJECT_UP)
        ∧ (g.pre_task ≠ PICK_OBJECT_UP → (pick m r g).2 = [])
        ∧ (g.pre_task = PICK_OBJECT_UP →
            (pick m r g).1.task = WAITING_FOR_SIGNAL
            ∧ (pick m r g).2.filter Event.isGoal = []
            ∧ (pick m r g).2.filter Event.isResult = [Event.pick_result "Success"])) := by
  rw [pick_waiting_for_stop m r g ht]
  refine ⟨fun h => by rw [if_neg h], fun h => ?_⟩
  rw [if_pos h]
  by_cases hp : g.pre_task = PICK_OBJECT_UP
  · rw [if_pos hp]
    refine ⟨rfl, ?_, ?_, ?_, ?_, ?_, fun h8 => absurd hp h8, fun _ =>
      ⟨rfl, result_filter_goal _ _, result_filter_result _ _⟩⟩ <;>
    · intro h'; rw [hp] at h'; exact absurd h' (by decide)
  · rw [if_neg hp]
    refine ⟨rfl, ?_, ?_, ?_, ?_, ?_, fun _ => rfl, fun h8 => absurd h8 hp⟩ <;>
    · intro h'; rw [h']; rfl

/-- Witness for `waiting_for_stop_step`: WAITING_FOR_STOP after PICK_OBJECT_UP with both
actuators Stopped. -/
theorem waiting_for_stop_step_witness :
    (pick LibM.identity Replies.planned
        { PickGlobals.ready with task := WAITING_FOR_STOP, pre_task := PICK_OBJECT_UP }).1.task
          = WAITING_FOR_SIGNAL
    ∧ (pick LibM.identity Replies.planned
        { PickGlobals.ready with task := WAITING_FOR_STOP, pre_task := PICK_OBJECT_UP }
        ).2.filter Event.isResult = [Event.pick_result "Success"] :=
  ⟨(((waiting_for_stop_step LibM.identity Replies.planned
      { PickGlobals.ready with task := WAITING_FOR_STOP, pre_task := PICK_OBJECT_UP }
      rfl).2 ⟨rfl, rfl⟩).2.2.2.2.2.2.2 rfl).1,
   (((waiting_for_stop_step LibM.identity Replies.planned
      { PickGlobals.ready with task := WAITING_FOR_STOP, pre_task := PICK_OBJECT_UP }
      rfl).2 ⟨rfl, rfl⟩).2.2.2.2.2.2.2 rfl).2.2⟩

/-! ## Sequencer: planning failure of a gripper goal -/

theorem callOutcome_failed (cmd : Event R) (reply : Option Bool) (hr : reply ≠ some true) :
    (callOutcome cmd reply).1 = false := by
  rcases reply with _ | _ | _
  · rfl
  · rfl
  · exact absurd rfl hr

/-- A gripper step whose goal is not answered `planned = true`: INIT_POSITION is next,
the 8 bit retry counter is incremented, nothing else changes. -/
theorem pick_gripper_failed (m : LibM R) (r : Replies) (g : PickGlobals R)
    (ht : g.task = GRIPPER_OFF ∨ g.task = GRIP_OBJECT) (hg : g.state.gripper = STOPPED)
    (hr : r.goal ≠ some true) :
    (pick m r g).1 =
      { g with planning_cnt := (g.planning_cnt + 1) % 256, task := INIT_POSITION } := by
  rcases ht with h | h
  · rw [pick_gripper_off m r g h, if_pos hg,
      afterWrapper_failed _ _ (gripper false r.goal) g (callOutcome_failed _ _ hr)]
  · rw [pick_grip_object m r g h, if_pos hg,
      afterWrapper_failed _ _ (gripper true r.goal) g (callOutcome_failed _ _ hr)]

theorem afterWrapper_task_cases (a b : Nat) (out : Bool × List (Event R)) (g : PickGlobals R) :
    (afterWrapper a b out g).1.task = WAITING_FOR_STOP
      ∨ (afterWrapper a b out g).1.task = b := by
  unfold afterWrapper
  split
  · exact Or.inl rfl
  · exact Or.inr rfl

theorem poseGoal_task_cases (m : LibM R) (a : Nat) (req : KinematicsPoseRequest R)
    (reply : Option Bool) (g : PickGlobals R) :
    (poseGoal m a req reply g).1.task = WAITING_FOR_STOP
      ∨ (poseGoal m a req reply g).1.task = a
      ∨ (poseGoal m a req reply g).1.task = g.task := by
  unfold poseGoal
  rcases reply with _ | _ | _
  · exact Or.inr (Or.inr rfl)
  · exact Or.inr (Or.inl rfl)
  · exact Or.inl rfl

/-- After a `pick()` cycle: the globals are unchanged, or the retry counter is 0, or the
step is none of the two gripper steps. -/
theorem pick_gripper_step_cases (m : LibM R) (r : Replies) (g : PickGlobals R) :
    (pick m r g).1 = g ∨ (pick m r g).1.planning_cnt = 0
      ∨ ((pick m r g).1.task ≠ GRIPPER_OFF ∧ (pick m r g).1.task ≠ GRIP_OBJECT) := by
  by_cases h2 : g.task = CHECK_AR_MARKER_POSE
  · rw [pick_check m r g h2]
    right; right
    split <;> exact ⟨by dsimp only; decide, by dsimp only; decide⟩
  by_cases h3 : g.task = INIT_POSITION
  · rw [pick_init_position m r g h3]
    split
    · right; right
      rcases afterWrapper_task_cases INIT_POSITION INIT_POSITION (initJointPosition r.goal) g
        with h | h <;> rw [h] <;> exact ⟨by decide, by decide⟩
    · exact Or.inl rfl
  by_cases h4 : g.task = GRIPPER_OFF
  · rw [pick_gripper_off m r g h4]
    split
    · right; right
      rcases afterWrapper_task_cases GRIPPER_OFF INIT_POSITION (gripper false r.goal) g
        with h | h <;> rw [h] <;> exact ⟨by decide, by decide⟩
    · exact Or.inl rfl
  by_cases h5 : g.task = MOVE_ARM
  · rw [pick_move_arm m r g h5]
    split
    · right; right
      rcases poseGoal_task_cases m MOVE_ARM (moveArmRequest g) r.goal g with h | h | h
      · rw [h]; exact ⟨by decide, by decide⟩
      · rw [h]; exact ⟨by decide, by decide⟩
      · rw [h, h5]; exact ⟨by decide, by decide⟩
    · exact Or.inl rfl
  by_cases h6 : g.task = CLOSE_TO_OBJECT
  · rw [pick_close_to_object m r g h6]
    split
    · right; right
      rcases poseGoal_task_cases m CLOSE_TO_OBJECT (closeToObjectRequest g) r.goal g
        with h | h | h
      · rw [h]; exact ⟨by decide, by decide⟩
      · rw [h]; exact ⟨by decide, by decide⟩
      · rw [h, h6]; exact ⟨by decide, by decide⟩
    · exact Or.inl rfl
  by_cases h7 : g.task = GRIP_OBJECT
  · rw [pick_grip_object m r g h7]
    split
    · right; right
      rcases afterWrapper_task_cases GRIP_OBJECT INIT_POSITION (gripper true r.goal) g
        with h | h <;> rw [h] <;> exact ⟨by decide, by decide⟩
    · exact Or.inl rfl
  by_cases h8 : g.task = PICK_OBJECT_UP
  · rw [pick_pick_object_up m r g h8]
    split
    · right; right
      exact ⟨by dsimp only; decide, by dsimp only; decide⟩
    · exact Or.inl rfl
  by_cases h9 : g.task = WAITING_FOR_STOP
  · rw [pick_waiting_for_stop m r g h9]
    split
    · right; left
      split <;> rfl
    · exact Or.inl rfl
  · have hother : g.task < CHECK_AR_MARKER_POSE ∨ WAITING_FOR_STOP < g.task := by
      have h2 : g.task ≠ 2 := h2
      have h3 : g.task ≠ 3 := h3
      have h4 : g.task ≠ 4 := h4
      have h5 : g.task ≠ 5 := h5
      have h6 : g.task ≠ 6 := h6
      have h7 : g.task ≠ 7 := h7
      have h8 : g.task ≠ 8 := h8
      have h9 : g.task ≠ 9 := h9
      show g.task < 2 ∨ 9 < g.task
      omega
    rw [pick_other m r g hother]
    exact Or.inl rfl

theorem step_callback_cnt (m : LibM R) (i : Input R) (g : PickGlobals R)
    (hp : ∀ r, i ≠ Input.pick r) (hs : i ≠ Input.pickMsg) :
    (step m i g).1.planning_cnt = g.planning_cnt := by
  have h := (step_tolerance_cnt m i g (fun r hr => absurd hr (hp r))).2
  cases i with
  | pick r => exact absurd rfl (hp r)
  | pickMsg => exact absurd rfl hs
  | armState msg =>
    simp only [step, armStateMsgCallback]
    split
    · rfl
    · split <;> rfl
  | gripperState msg =>
    simp only [step, gripperStateMsgCallback]
    split
    · rfl
    · split <;> rfl
  | arMarkerPose markers =>
    cases markers <;> rfl

/-- In every state reached from start-up, the retry counter is 0 whenever the step is
GRIPPER_OFF or GRIP_OBJECT: these steps are entered only from WAITING_FOR_STOP, which
clears the counter. -/
theorem run_gripper_step_cnt (m : LibM R) (inputs : List (Input R)) (g : PickGlobals R)
    (hg : g.task = GRIPPER_OFF ∨ g.task = GRIP_OBJECT → g.planning_cnt = 0) :
    (run m inputs g).1.task = GRIPPER_OFF ∨ (run m inputs g).1.task = GRIP_OBJECT →
      (run m inputs g).1.planning_cnt = 0 := by
  induction inputs generalizing g with
  | nil => exact hg
  | cons i rest ih =>
    rw [run_cons]
    apply ih
    intro ht
    cases i with
    | pick r =>
      simp only [step] at ht ⊢
      rcases pick_gripper_step_cases m r g with h | h | h
      · rw [h] at ht ⊢; exact hg ht
      · exact h
      · rcases ht with ht | ht
        · exact absurd ht h.1
        · exact absurd ht h.2
    | pickMsg =>
      exfalso
      simp only [step, pickMsgCallback] at ht
      split at ht <;> rcases ht with ht | ht <;> exact absurd ht (by dsimp only; decide)
    | armState msg =>
      have h1 := step_callback_task m (Input.armState msg) g (fun r => by simp) (by simp)
      have h2 := step_callback_cnt m (Input.armState msg) g (fun r => by simp) (by simp)
      rw [h1.1] at ht; rw [h2]; exact hg ht
    | gripperState msg =>
      have h1 := step_callback_task m (Input.gripperState msg) g (fun r => by simp) (by simp)
      have h2 := step_callback_cnt m (Input.gripperState msg) g (fun r => by simp) (by simp)
      rw [h1.1] at ht; rw [h2]; exact hg ht
    | arMarkerPose markers =>
      have h1 := step_callback_task m (Input.arMarkerPose markers) g (fun r => by simp)
        (by simp)
      have h2 := step_callback_cnt m (Input.arMarkerPose markers) g (fun r => by simp)
        (by simp)
      rw [h1.1] at ht; rw [h2]; exact hg ht

/-- C19: in every state reached from start-up, a `pick()` cycle in GRIPPER_OFF or
GRIP_OBJECT with the gripper Stopped whose gripper goal is answered `planned = false`,
or whose call fails, makes INIT_POSITION the next step and increments the retry counter
by one; the tolerance, the stored previous step and all other globals are unchanged. -/
theorem gripper_failure_falls_back (m : LibM R) (inputs : List (Input R)) (r : Replies)
    (ht : (run m inputs PickGlobals.init).1.task = GRIPPER_OFF
      ∨ (run m inputs PickGlobals.init).1.task = GRIP_OBJECT)
    (hg : (run m inputs PickGlobals.init).1.state.gripper = STOPPED)
    (hr : r.goal = some false ∨ r.goal = none) :
    (pick m r (run m inputs PickGlobals.init).1).1 =
      { (run m inputs PickGlobals.init).1 with
        planning_cnt := (run m inputs PickGlobals.init).1.planning_cnt + 1
        task := INIT_POSITION } := by
  have hcnt := run_gripper_step_cnt m inputs PickGlobals.init
    (fun h => by
      rcases h with h | h <;> exact absurd h (by simp only [PickGlobals.init]; decide)) ht
  have hr' : r.goal ≠ some true := by
    rcases hr with h | h <;> rw [h] <;> simp
  rw [pick_gripper_failed m r _ ht hg hr', hcnt]

/-- Witness for `gripper_failure_falls_back`: the execution `reachGripperOff`, then a
`planned = false` reply to the open-gripper goal. -/
theorem gripper_failure_falls_back_witness :
    (pick LibM.identity Replies.failed (run LibM.identity reachGripperOff PickGlobals.init).1).1
      = { (run LibM.identity reachGripperOff PickGlobals.init).1 with
          planning_cnt := (run LibM.identity reachGripperOff PickGlobals.init).1.planning_cnt + 1
          task := INIT_POSITION } :=
  gripper_failure_falls_back LibM.identity reachGripperOff Replies.failed
    (Or.inl (by decide)) (by decide) (Or.inl rfl)

/-! ## Sequencer: the tolerance over whole executions -/

/-- The tolerance after a `pick()` cycle, in all cases. -/
theorem pick_tolerance (m : LibM R) (r : Replies) (g : PickGlobals R) :
    (pick m r g).1.tolerance =
      if g.task = WAITING_FOR_STOP ∧ g.state.arm = STOPPED ∧ g.state.gripper = STOPPED
        then 1 / 100
      else if (g.task = MOVE_ARM ∨ g.task = CLOSE_TO_OBJECT) ∧ g.state.arm = STOPPED
          ∧ r.goal = some false
        then m.add g.tolerance (5 / 1000)
      else g.tolerance := by
  by_cases hw : g.task = WAITING_FOR_STOP ∧ g.state.arm = STOPPED ∧ g.state.gripper = STOPPED
  · rw [if_pos hw]
    exact (pick_waiting_for_stop_resets m r g hw.1 hw.2.1 hw.2.2).1
  · rw [if_neg hw]
    exact (pick_tolerance_cnt m r g hw).1

theorem step_callback_tolerance (m : LibM R) (i : Input R) (g : PickGlobals R)
    (hp : ∀ r, i ≠ Input.pick r) : (step m i g).1.tolerance = g.tolerance := by
  cases i with
  | pick r => exact absurd rfl (hp r)
  | pickMsg =>
    simp only [step, pickMsgCallback]
    split <;> rfl
  | armState msg =>
    simp only [step, armStateMsgCallback]
    split
    · rfl
    · split <;> rfl
  | gripperState msg =>
    simp only [step, gripperStateMsgCallback]
    split
    · rfl
    · split <;> rfl
  | arMarkerPose markers =>
    cases markers <;> rfl

theorem run_tolerance_iterate (m : LibM R) (inputs : List (Input R)) :
    ∃ k : Nat, (run m inputs PickGlobals.init).1.tolerance
      = (fun t => m.add t (5 / 1000))^[k] (1 / 100) :=
  run_tolerance_closed m (fun x => ∃ k : Nat, x = (fun t => m.add t (5 / 1000))^[k] (1 / 100))
    ⟨0, rfl⟩
    (fun t ⟨k, hk⟩ => ⟨k + 1, by rw [hk, Function.iterate_succ_apply']⟩)
    inputs PickGlobals.init ⟨0, rfl⟩

/-- C20 (counterexample): the tolerance reached from start-up after four `planned =
false` replies in MOVE_ARM is 0.030000000000000002, which is `0.01 + 0.005 * k` for no
natural number k, and is not the `double` nearest to 0.03 either. -/
theorem tolerance_leaves_decimal_grid :
    (run LibM.identity (reachMoveArm ++ (List.replicate 4 Replies.failed).map Input.pick)
        PickGlobals.init).1.tolerance = 8646911284551353 / 288230376151711744
    ∧ (∀ k : Nat,
        (run LibM.identity (reachMoveArm ++ (List.replicate 4 Replies.failed).map Input.pick)
          PickGlobals.init).1.tolerance ≠ 1 / 100 + 5 / 1000 * (k : ℚ))
    ∧ (run LibM.identity (reachMoveArm ++ (List.replicate 4 Replies.failed).map Input.pick)
        PickGlobals.init).1.tolerance ≠ roundDouble (3 / 100) := by
  obtain ⟨h1, h2, h3, h4⟩ := reachMoveArm_state
  have hn := pickCycles_pose_failures LibM.identity (List.replicate 4 Replies.failed)
    (run LibM.identity reachMoveArm PickGlobals.init).1 (Or.inl h1) h2 (by rw [h3]; decide)
    (by intro r hr; rw [List.eq_of_mem_replicate hr]; rfl)
  have ht : (run LibM.identity
      (reachMoveArm ++ (List.replicate 4 Replies.failed).map Input.pick)
      PickGlobals.init).1.tolerance = 8646911284551353 / 288230376151711744 := by
    rw [run_append]
    show (pickCycles LibM.identity (List.replicate 4 Replies.failed)
      (run LibM.identity reachMoveArm PickGlobals.init).1).1.tolerance = _
    rw [hn, List.length_replicate]
    show (fun t => LibM.identity.add t (5 / 1000))^[4]
      (run LibM.identity reachMoveArm PickGlobals.init).1.tolerance = _
    rw [h4, doubleAdd_iterate_four]
  refine ⟨ht, ?_, ?_⟩
  · intro k hk
    rw [ht] at hk
    have hk4 : (k : ℚ) = 144115188075855889 / 36028797018963968 := by linarith
    rcases Nat.lt_or_ge k 5 with hlt | hge
    · have : (k : ℚ) ≤ 4 := by exact_mod_cast Nat.lt_succ_iff.mp hlt
      rw [hk4] at this
      norm_num at this
    · have : (5 : ℚ) ≤ (k : ℚ) := by exact_mod_cast hge
      rw [hk4] at this
      norm_num at this
  · rw [ht, doubleAdd_tolerance_steps.2.2.2.2.2]
    norm_num

/-- C20 (as amended): the tolerance after a `pick()` cycle is 0.01 when the cycle is in
WAITING_FOR_STOP and reads both actuators as Stopped, the `double` sum of the old
tolerance and 0.005 when the cycle is in MOVE_ARM or CLOSE_TO_OBJECT, issues its pose
goal (arm Stopped) and is answered `planned = false`, and the old tolerance in every
other case; the four callbacks leave it unchanged; a planning failure in INIT_POSITION
stays in INIT_POSITION with the tolerance unchanged; hence in every state reached from
start-up the tolerance is obtained from 0.01 by k `double` additions of 0.005 for a
natural number k, and with the `double` addition it is at least 0.01 (and at most
2^46). -/
theorem tolerance_frame (m : LibM R) (mq : LibM ℚ) :
    (∀ (r : Replies) (g : PickGlobals R),
      (pick m r g).1.tolerance =
        if g.task = WAITING_FOR_STOP ∧ g.state.arm = STOPPED ∧ g.state.gripper = STOPPED
          then 1 / 100
        else if (g.task = MOVE_ARM ∨ g.task = CLOSE_TO_OBJECT) ∧ g.state.arm = STOPPED
            ∧ r.goal = some false
          then m.add g.tolerance (5 / 1000)
        else g.tolerance)
    ∧ (∀ (i : Input R) (g : PickGlobals R), (∀ r, i ≠ Input.pick r) →
        (step m i g).1.tolerance = g.tolerance)
    ∧ (∀ (r : Replies) (g : PickGlobals R), g.task = INIT_POSITION →
        g.state.arm = STOPPED → r.goal ≠ some true →
        (pick m r g).1.task = INIT_POSITION ∧ (pick m r g).1.tolerance = g.tolerance)
    ∧ (∀ inputs : List (Input R),
        ∃ k : Nat, (run m inputs PickGlobals.init).1.tolerance
          = (fun t => m.add t (5 / 1000))^[k] (1 / 100))
    ∧ ((∀ a b, mq.add a b = doubleAdd a b) → ∀ inputs : List (Input ℚ),
        1 / 100 ≤ (run mq inputs PickGlobals.init).1.tolerance
        ∧ (run mq inputs PickGlobals.init).1.tolerance ≤ 70368744177664) := by
  refine ⟨pick_tolerance m, step_callback_tolerance m, ?_, run_tolerance_iterate m, ?_⟩
  · intro r g ht harm hr
    rw [pick_init_position m r g ht, if_pos harm,
      afterWrapper_failed _ _ (initJointPosition r.goal) g (callOutcome_failed _ _ hr)]
    exact ⟨rfl, rfl⟩
  · intro hadd inputs
    exact run_tolerance_closed mq (fun t => 1 / 100 ≤ t ∧ t ≤ 70368744177664)
      (by norm_num) (tolerance_range_closed mq hadd) inputs PickGlobals.init
      (by simp only [PickGlobals.init]; norm_num)

/-- Witness for `tolerance_frame`: a planning failure in INIT_POSITION. -/
theorem tolerance_frame_witness :
    (pick LibM.identity Replies.failed { PickGlobals.ready with task := INIT_POSITION }).1.task
        = INIT_POSITION
    ∧ (pick LibM.identity Replies.failed
        { PickGlobals.ready with task := INIT_POSITION }).1.tolerance
        = ({ PickGlobals.ready with task := INIT_POSITION } : PickGlobals ℚ).tolerance :=
  (tolerance_frame LibM.identity LibM.identity).2.2.1 Replies.failed
    { PickGlobals.ready with task := INIT_POSITION } rfl rfl (by decide)

/-! ## Sequencer: the steps that can be reached -/

theorem afterWrapper_task_pre (a b : Nat) (out : Bool × List (Event R)) (g : PickGlobals R) :
    ((afterWrapper a b out g).1.task = WAITING_FOR_STOP ∧ (afterWrapper a b out g).1.pre_task = a)
    ∨ ((afterWrapper a b out g).1.task = b
      ∧ (afterWrapper a b out g).1.pre_task = g.pre_task) := by
  unfold afterWrapper
  split
  · exact Or.inl ⟨rfl, rfl⟩
  · exact Or.inr ⟨rfl, rfl⟩

theorem poseGoal_task_pre (m : LibM R) (a : Nat) (req : KinematicsPoseRequest R)
    (reply : Option Bool) (g : PickGlobals R) :
    ((poseGoal m a req reply g).1.task = WAITING_FOR_STOP ∧ (poseGoal m a req reply g).1.pre_task = a)
    ∨ ((poseGoal m a req reply g).1.task = a ∧ (poseGoal m a req reply g).1.pre_task = g.pre_task)
    ∨ ((poseGoal m a req reply g).1.task = g.task
      ∧ (poseGoal m a req reply g).1.pre_task = g.pre_task) := by
  unfold poseGoal
  rcases reply with _ | _ | _
  · exact Or.inr (Or.inr ⟨rfl, rfl⟩)
  · exact Or.inr (Or.inl ⟨rfl, rfl⟩)
  · exact Or.inl ⟨rfl, rfl⟩

/-- The step and the stored previous step after a `pick()` cycle: both unchanged; or
WAITING_FOR_STOP entered with one of the six goal steps stored; or the step set to
WAITING_FOR_SIGNAL or INIT_POSITION; or, from WAITING_FOR_STOP, the step after the stored
one. -/
theorem pick_task_pre_cases (m : LibM R) (r : Replies) (g : PickGlobals R) :
    ((pick m r g).1.task = g.task ∧ (pick m r g).1.pre_task = g.pre_task)
    ∨ ((pick m r g).1.task = WAITING_FOR_STOP ∧ INIT_POSITION ≤ (pick m r g).1.pre_task
      ∧ (pick m r g).1.pre_task ≤ PICK_OBJECT_UP)
    ∨ (((pick m r g).1.task = WAITING_FOR_SIGNAL ∨ (pick m r g).1.task = INIT_POSITION)
      ∧ (pick m r g).1.pre_task = g.pre_task)
    ∨ (g.task = WAITING_FOR_STOP ∧ g.pre_task ≠ PICK_OBJECT_UP
      ∧ (pick m r g).1.task = (g.pre_task + 1) % 256
      ∧ (pick m r g).1.pre_task = g.pre_task) := by
  by_cases h2 : g.task = CHECK_AR_MARKER_POSE
  · rw [pick_check m r g h2]
    have hf := calcDesiredPose_frame m g.ar_marker_pose g
    right; right; left
    split
    · exact ⟨Or.inr rfl, hf.2.2.2.1⟩
    · exact ⟨Or.inl rfl, hf.2.2.2.1⟩
  by_cases h3 : g.task = INIT_POSITION
  · rw [pick_init_position m r g h3]
    split
    · rcases afterWrapper_task_pre INIT_POSITION INIT_POSITION (initJointPosition r.goal) g
        with h | h
      · right; left; rw [h.1, h.2]; exact ⟨rfl, by decide, by decide⟩
      · right; right; left; exact ⟨Or.inr h.1, h.2⟩
    · exact Or.inl ⟨rfl, rfl⟩
  by_cases h4 : g.task = GRIPPER_OFF
  · rw [pick_gripper_off m r g h4]
    split
    · rcases afterWrapper_task_pre GRIPPER_OFF INIT_POSITION (gripper false r.goal) g
        with h | h
      · right; left; rw [h.1, h.2]; exact ⟨rfl, by decide, by decide⟩
      · right; right; left; exact ⟨Or.inr h.1, h.2⟩
    · exact Or.inl ⟨rfl, rfl⟩
  by_cases h5 : g.task = MOVE_ARM
  · rw [pick_move_arm m r g h5]
    split
    · rcases poseGoal_task_pre m MOVE_ARM (moveArmRequest g) r.goal g with h | h | h
      · right; left; rw [h.1, h.2]; exact ⟨rfl, by decide, by decide⟩
      · left; rw [h.1, h.2, h5]; exact ⟨rfl, rfl⟩
      · left; exact h
    · exact Or.inl ⟨rfl, rfl⟩
  by_cases h6 : g.task = CLOSE_TO_OBJECT
  · rw [pick_close_to_object m r g h6]
    split
    · rcases poseGoal_task_pre m CLOSE_TO_OBJECT (closeToObjectRequest g) r.goal g
        with h | h | h
      · right; left; rw [h.1, h.2]; exact ⟨rfl, by decide, by decide⟩
      · left; rw [h.1, h.2, h6]; exact ⟨rfl, rfl⟩
      · left; exact h
    · exact Or.inl ⟨rfl, rfl⟩
  by_cases h7 : g.task = GRIP_OBJECT
  · rw [pick_grip_object m r g h7]
    split
    · rcases afterWrapper_task_pre GRIP_OBJECT INIT_POSITION (gripper true r.goal) g
        with h | h
      · right; left; rw [h.1, h.2]; exact ⟨rfl, by decide, by decide⟩
      · right; right; left; exact ⟨Or.inr h.1, h.2⟩
    · exact Or.inl ⟨rfl, rfl⟩
  by_cases h8 : g.task = PICK_OBJECT_UP
  · rw [pick_pick_object_up m r g h8]
    split
    · right; left; exact ⟨rfl, by dsimp only; decide, by dsimp only; decide⟩
    · exact Or.inl ⟨rfl, rfl⟩
  by_cases h9 : g.task = WAITING_FOR_STOP
  · rw [pick_waiting_for_stop m r g h9]
    split
    · split
      · right; right; left; exact ⟨Or.inl rfl, rfl⟩
      · rename_i hp
        right; right; right; exact ⟨h9, hp, rfl, rfl⟩
    · exact Or.inl ⟨rfl, rfl⟩
  · have hother : g.task < CHECK_AR_MARKER_POSE ∨ WAITING_FOR_STOP < g.task := by
      have h2 : g.task ≠ 2 := h2
      have h3 : g.task ≠ 3 := h3
      have h4 : g.task ≠ 4 := h4
      have h5 : g.task ≠ 5 := h5
      have h6 : g.task ≠ 6 := h6
      have h7 : g.task ≠ 7 := h7
      have h8 : g.task ≠ 8 := h8
      have h9 : g.task ≠ 9 := h9
      show g.task < 2 ∨ 9 < g.task
      omega
    rw [pick_other m r g hother]
    exact Or.inl ⟨rfl, rfl⟩

theorem step_callback_pre_task (m : LibM R) (i : Input R) (g : PickGlobals R)
    (hp : ∀ r, i ≠ Input.pick r) : (step m i g).1.pre_task = g.pre_task := by
  cases i with
  | pick r => exact absurd rfl (hp r)
  | pickMsg =>
    simp only [step, pickMsgCallback]
    split <;> rfl
  | armState msg =>
    simp only [step, armStateMsgCallback]
    split
    · rfl
    · split <;> rfl
  | gripperState msg =>
    simp only [step, gripperStateMsgCallback]
    split
    · rfl
    · split <;> rfl
  | arMarkerPose markers =>
    cases markers <;> rfl

/-- The step invariant is kept by every input. -/
theorem step_keeps_steps (m : LibM R) (i : Input R) (g : PickGlobals R)
    (h1 : g.task ≤ WAITING_FOR_STOP)
    (h2 : g.task = WAITING_FOR_STOP → INIT_POSITION ≤ g.pre_task ∧ g.pre_task ≤ PICK_OBJECT_UP) :
    (step m i g).1.task ≤ WAITING_FOR_STOP
    ∧ ((step m i g).1.task = WAITING_FOR_STOP →
        INIT_POSITION ≤ (step m i g).1.pre_task ∧ (step m i g).1.pre_task ≤ PICK_OBJECT_UP) := by
  have h1 : g.task ≤ 9 := h1
  have h2 : g.task = 9 → 3 ≤ g.pre_task ∧ g.pre_task ≤ 8 := h2
  show (step m i g).1.task ≤ 9
    ∧ ((step m i g).1.task = 9 → 3 ≤ (step m i g).1.pre_task ∧ (step m i g).1.pre_task ≤ 8)
  by_cases hp : ∃ r, i = Input.pick r
  · obtain ⟨r, rfl⟩ := hp
    simp only [step]
    rcases pick_task_pre_cases m r g with h | h | h | h
    · rw [h.1, h.2]; exact ⟨h1, h2⟩
    · have ha : (pick m r g).1.task = 9 := h.1
      have hb : 3 ≤ (pick m r g).1.pre_task := h.2.1
      have hc : (pick m r g).1.pre_task ≤ 8 := h.2.2
      rw [ha]; exact ⟨by decide, fun _ => ⟨hb, hc⟩⟩
    · have ha : (pick m r g).1.task = 1 ∨ (pick m r g).1.task = 3 := h.1
      constructor
      · omega
      · intro h9; omega
    · have ha : g.task = 9 := h.1
      have hb : g.pre_task ≠ 8 := h.2.1
      have hc := h.2.2.1
      have hd := h2 ha
      constructor
      · omega
      · intro h9; omega
  · have hp' : ∀ r, i ≠ Input.pick r := fun r hr => hp ⟨r, hr⟩
    by_cases hs : i = Input.pickMsg
    · subst hs
      have hpre := step_callback_pre_task m Input.pickMsg g hp'
      have ht : (step m Input.pickMsg g).1.task = 2 ∨ (step m Input.pickMsg g).1.task = 1 := by
        simp only [step, pickMsgCallback]
        split
        · exact Or.inl rfl
        · exact Or.inr rfl
      constructor
      · omega
      · intro h9; omega
    · have ht := (step_callback_task m i g hp' hs).1
      have hpre := step_callback_pre_task m i g hp'
      rw [ht, hpre]
      exact ⟨h1, h2⟩

theorem run_keeps_steps (m : LibM R) (inputs : List (Input R)) (g : PickGlobals R)
    (h1 : g.task ≤ WAITING_FOR_STOP)
    (h2 : g.task = WAITING_FOR_STOP → INIT_POSITION ≤ g.pre_task ∧ g.pre_task ≤ PICK_OBJECT_UP) :
    (run m inputs g).1.task ≤ WAITING_FOR_STOP
    ∧ ((run m inputs g).1.task = WAITING_FOR_STOP →
        INIT_POSITION ≤ (run m inputs g).1.pre_task
          ∧ (run m inputs g).1.pre_task ≤ PICK_OBJECT_UP) := by
  induction inputs generalizing g with
  | nil => exact ⟨h1, h2⟩
  | cons i rest ih =>
    rw [run_cons]
    have h := step_keeps_steps m i g h1 h2
    exact ih (step m i g).1 h.1 h.2

/-- C28: in every state reached from start-up (step 0, previous step 0) by `pick()`
cycles, feedback callbacks and start signals, the step is 0 or one of the nine
enumerated steps; whenever it is WAITING_FOR_STOP the stored previous step is one of
INIT_POSITION .. PICK_OBJECT_UP, so that "previous step + 1", which is used only when
the previous step is not PICK_OBJECT_UP, is one of GRIPPER_OFF .. PICK_OBJECT_UP; and in
the steps 0 and WAITING_FOR_SIGNAL a `pick()` cycle changes nothing and sends nothing. -/
theorem step_invariant (m : LibM R) (inputs : List (Input R)) (r : Replies) :
    (run m inputs PickGlobals.init).1.task ≤ WAITING_FOR_STOP
    ∧ ((run m inputs PickGlobals.init).1.task = WAITING_FOR_STOP →
        INIT_POSITION ≤ (run m inputs PickGlobals.init).1.pre_task
        ∧ (run m inputs PickGlobals.init).1.pre_task ≤ PICK_OBJECT_UP
        ∧ ((run m inputs PickGlobals.init).1.pre_task ≠ PICK_OBJECT_UP →
            GRIPPER_OFF ≤ ((run m inputs PickGlobals.init).1.pre_task + 1) % 256
            ∧ ((run m inputs PickGlobals.init).1.pre_task + 1) % 256 ≤ PICK_OBJECT_UP))
    ∧ ((run m inputs PickGlobals.init).1.task = 0
          ∨ (run m inputs PickGlobals.init).1.task = WAITING_FOR_SIGNAL →
        pick m r (run m inputs PickGlobals.init).1 = ((run m inputs PickGlobals.init).1, [])) := by
  have h := run_keeps_steps m inputs (PickGlobals.init : PickGlobals R)
    (by simp only [PickGlobals.init]; decide)
    (fun h => absurd h (by simp only [PickGlobals.init]; decide))
  refine ⟨h.1, ?_, ?_⟩
  · intro h9
    have ha : 3 ≤ (run m inputs PickGlobals.init).1.pre_task := (h.2 h9).1
    have hb : (run m inputs PickGlobals.init).1.pre_task ≤ 8 := (h.2 h9).2
    refine ⟨ha, hb, fun hne => ?_⟩
    have hne : (run m inputs PickGlobals.init).1.pre_task ≠ 8 := hne
    show 4 ≤ ((run m inputs PickGlobals.init).1.pre_task + 1) % 256
      ∧ ((run m inputs PickGlobals.init).1.pre_task + 1) % 256 ≤ 8
    omega
  · intro h0
    apply pick_other
    left
    show (run m inputs PickGlobals.init).1.task < 2
    rcases h0 with h0 | h0
    · omega
    · have h0 : (run m inputs PickGlobals.init).1.task = 1 := h0
      omega

/-- Witness for `step_invariant`: the execution `reachGripperOff`, one cycle earlier in
WAITING_FOR_STOP. -/
theorem step_invariant_witness :
    (run LibM.identity (reachGripperOff.take 6) PickGlobals.init).1.task = WAITING_FOR_STOP
    ∧ INIT_POSITION ≤ (run LibM.identity (reachGripperOff.take 6) PickGlobals.init).1.pre_task :=
  ⟨by decide,
    ((step_invariant LibM.identity (reachGripperOff.take 6) Replies.planned).2.1
      (by decide)).1⟩

/-! ## Sequencer: which globals a cycle writes -/

theorem afterWrapper_frame (a b : Nat) (out : Bool × List (Event R)) (g : PickGlobals R) :
    (afterWrapper a b out g).1.ar_marker_pose = g.ar_marker_pose
    ∧ (afterWrapper a b out g).1.desired_pose = g.desired_pose
    ∧ (afterWrapper a b out g).1.roll = g.roll
    ∧ (afterWrapper a b out g).1.pitch = g.pitch
    ∧ (afterWrapper a b out g).1.yaw = g.yaw := by
  unfold afterWrapper
  split <;> exact ⟨rfl, rfl, rfl, rfl, rfl⟩

theorem poseGoal_frame (m : LibM R) (a : Nat) (req : KinematicsPoseRequest R)
    (reply : Option Bool) (g : PickGlobals R) :
    (poseGoal m a req reply g).1.ar_marker_pose = g.ar_marker_pose
    ∧ (poseGoal m a req reply g).1.desired_pose = g.desired_pose
    ∧ (poseGoal m a req reply g).1.roll = g.roll
    ∧ (poseGoal m a req reply g).1.pitch = g.pitch
    ∧ (poseGoal m a req reply g).1.yaw = g.yaw := by
  unfold poseGoal
  rcases reply with _ | _ | _ <;> exact ⟨rfl, rfl, rfl, rfl, rfl⟩

/-- Outside CHECK_MARKER a `pick()` cycle writes neither the stored observation, nor the
desired pose, nor roll, pitch or yaw. -/
theorem pick_frame (m : LibM R) (r : Replies) (g : PickGlobals R)
    (h2 : g.task ≠ CHECK_AR_MARKER_POSE) :
    (pick m r g).1.ar_marker_pose = g.ar_marker_pose
    ∧ (pick m r g).1.desired_pose = g.desired_pose
    ∧ (pick m r g).1.roll = g.roll
    ∧ (pick m r g).1.pitch = g.pitch
    ∧ (pick m r g).1.yaw = g.yaw := by
  by_cases h3 : g.task = INIT_POSITION
  · rw [pick_init_position m r g h3]
    split
    · exact afterWrapper_frame _ _ _ _
    · exact ⟨rfl, rfl, rfl, rfl, rfl⟩
  by_cases h4 : g.task = GRIPPER_OFF
  · rw [pick_gripper_off m r g h4]
    split
    · exact afterWrapper_frame _ _ _ _
    · exact ⟨rfl, rfl, rfl, rfl, rfl⟩
  by_cases h5 : g.task = MOVE_ARM
  · rw [pick_move_arm m r g h5]
    split
    · exact poseGoal_frame _ _ _ _ _
    · exact ⟨rfl, rfl, rfl, rfl, rfl⟩
  by_cases h6 : g.task = CLOSE_TO_OBJECT
  · rw [pick_close_to_object m r g h6]
    split
    · exact poseGoal_frame _ _ _ _ _
    · exact ⟨rfl, rfl, rfl, rfl, rfl⟩
  by_cases h7 : g.task = GRIP_OBJECT
  · rw [pick_grip_object m r g h7]
    split
    · exact afterWrapper_frame _ _ _ _
    · exact ⟨rfl, rfl, rfl, rfl, rfl⟩
  by_cases h8 : g.task = PICK_OBJECT_UP
  · rw [pick_pick_object_up m r g h8]
    split <;> exact ⟨rfl, rfl, rfl, rfl, rfl⟩
  by_cases h9 : g.task = WAITING_FOR_STOP
  · rw [pick_waiting_for_stop m r g h9]
    split
    · split <;> exact ⟨rfl, rfl, rfl, rfl, rfl⟩
    · exact ⟨rfl, rfl, rfl, rfl, rfl⟩
  · have hother : g.task < CHECK_AR_MARKER_POSE ∨ WAITING_FOR_STOP < g.task := by
      have h2 : g.task ≠ 2 := h2
      have h3 : g.task ≠ 3 := h3
      have h4 : g.task ≠ 4 := h4
      have h5 : g.task ≠ 5 := h5
      have h6 : g.task ≠ 6 := h6
      have h7 : g.task ≠ 7 := h7
      have h8 : g.task ≠ 8 := h8
      have h9 : g.task ≠ 9 := h9
      show g.task < 2 ∨ 9 < g.task
      omega
    rw [pick_other m r g hother]
    exact ⟨rfl, rfl, rfl, rfl, rfl⟩

/-- The CHECK_MARKER cycle: the desired pose is what `calcDesiredPose` returns for the
stored observation, which itself, roll and pitch are not written, and the step after the
cycle is INIT_POSITION or WAITING_FOR_SIGNAL. -/
theorem pick_check_frame (m : LibM R) (r : Replies) (g : PickGlobals R)
    (h2 : g.task = CHECK_AR_MARKER_POSE) :
    (pick m r g).1.desired_pose = (calcDesiredPose m g.ar_marker_pose g).1
    ∧ (pick m r g).1.ar_marker_pose = g.ar_marker_pose
    ∧ (pick m r g).1.roll = g.roll
    ∧ (pick m r g).1.pitch = g.pitch
    ∧ ((pick m r g).1.task = INIT_POSITION ∨ (pick m r g).1.task = WAITING_FOR_SIGNAL) := by
  have hf := calcDesiredPose_frame m g.ar_marker_pose g
  rw [pick_check m r g h2]
  split
  · exact ⟨rfl, hf.2.2.2.2.2.2.1, hf.2.2.2.2.2.2.2.1, hf.2.2.2.2.2.2.2.2.1, Or.inl rfl⟩
  · exact ⟨rfl, hf.2.2.2.2.2.2.1, hf.2.2.2.2.2.2.2.1, hf.2.2.2.2.2.2.2.2.1, Or.inr rfl⟩

theorem step_callback_frame (m : LibM R) (i : Input R) (g : PickGlobals R)
    (hp : ∀ r, i ≠ Input.pick r) :
    (step m i g).1.desired_pose = g.desired_pose
    ∧ (step m i g).1.roll = g.roll ∧ (step m i g).1.pitch = g.pitch := by
  cases i with
  | pick r => exact absurd rfl (hp r)
  | pickMsg =>
    simp only [step, pickMsgCallback]
    split <;> exact ⟨rfl, rfl, rfl⟩
  | armState msg =>
    simp only [step, armStateMsgCallback]
    split
    · exact ⟨rfl, rfl, rfl⟩
    · split <;> exact ⟨rfl, rfl, rfl⟩
  | gripperState msg =>
    simp only [step, gripperStateMsgCallback]
    split
    · exact ⟨rfl, rfl, rfl⟩
    · split <;> exact ⟨rfl, rfl, rfl⟩
  | arMarkerPose markers =>
    cases markers <;> exact ⟨rfl, rfl, rfl⟩

/-! ## Sequencer: the desired pose -/

/-- From a state that satisfies the step invariant and is not in CHECK_MARKER, the only
input that leads into CHECK_MARKER is a start signal received while both actuators read
Stopped. -/
theorem step_enters_check (m : LibM R) (i : Input R) (g : PickGlobals R)
    (h1 : g.task = WAITING_FOR_STOP → INIT_POSITION ≤ g.pre_task ∧ g.pre_task ≤ PICK_OBJECT_UP)
    (hne : g.task ≠ CHECK_AR_MARKER_POSE)
    (h : (step m i g).1.task = CHECK_AR_MARKER_POSE) :
    i = Input.pickMsg ∧ g.state.arm = STOPPED ∧ g.state.gripper = STOPPED := by
  have h1 : g.task = 9 → 3 ≤ g.pre_task ∧ g.pre_task ≤ 8 := h1
  have hne : g.task ≠ 2 := hne
  have h : (step m i g).1.task = 2 := h
  cases i with
  | pick r =>
    exfalso
    simp only [step] at h
    rcases pick_task_pre_cases m r g with c | c | c | c
    · rw [c.1] at h; exact hne h
    · have c1 : (pick m r g).1.task = 9 := c.1
      omega
    · have c1 : (pick m r g).1.task = 1 ∨ (pick m r g).1.task = 3 := c.1
      omega
    · have c1 : g.task = 9 := c.1
      have c2 : g.pre_task ≠ 8 := c.2.1
      have c3 := c.2.2.1
      have c4 := h1 c1
      omega
  | pickMsg =>
    refine ⟨rfl, ?_⟩
    simp only [step, pickMsgCallback] at h
    split at h
    · assumption
    · exact absurd h (by dsimp only; decide)
  | armState msg =>
    have ht := (step_callback_task m (Input.armState msg) g (fun r => by simp) (by simp)).1
    rw [ht] at h; exact absurd h hne
  | gripperState msg =>
    have ht := (step_callback_task m (Input.gripperState msg) g (fun r => by simp) (by simp)).1
    rw [ht] at h; exact absurd h hne
  | arMarkerPose markers =>
    have ht := (step_callback_task m (Input.arMarkerPose markers) g (fun r => by simp)
      (by simp)).1
    rw [ht] at h; exact absurd h hne

/-- C22: the stored desired pose is written only by the `pick()` cycle in CHECK_MARKER:
every other cycle and every callback leave it unchanged.  The CHECK_MARKER cycle stores
what one evaluation of `calcDesiredPose` returns for the stored observation, for a
recognized marker with position (marker.x - 0.145, 0, marker.z + 0.150), and leaves
CHECK_MARKER, which in an execution from start-up is entered only by an accepted start
signal.  A CLOSE_TO_OBJECT cycle with the arm Stopped issues a pose goal whose pose is
the stored desired pose with 0.070 added to x and nothing else changed. -/
theorem desired_pose_written_by_check_marker (m : LibM R) (r : Replies) (g : PickGlobals R)
    (i : Input R) (inputs : List (Input R)) :
    (g.task ≠ CHECK_AR_MARKER_POSE → (pick m r g).1.desired_pose = g.desired_pose)
    ∧ ((∀ r1, i ≠ Input.pick r1) → (step m i g).1.desired_pose = g.desired_pose)
    ∧ (g.task = CHECK_AR_MARKER_POSE →
        (pick m r g).1.desired_pose = (calcDesiredPose m g.ar_marker_pose g).1
        ∧ (pick m r g).1.task ≠ CHECK_AR_MARKER_POSE
        ∧ (g.ar_marker_pose.id = MARKER_ID →
            (pick m r g).1.desired_pose.pose.position
              = { x := g.ar_marker_pose.pose.pose.position.x - 145 / 1000
                  y := 0
                  z := g.ar_marker_pose.pose.pose.position.z + 150 / 1000 }))
    ∧ ((run m inputs PickGlobals.init).1.task ≠ CHECK_AR_MARKER_POSE →
        (step m i (run m inputs PickGlobals.init).1).1.task = CHECK_AR_MARKER_POSE →
        i = Input.pickMsg ∧ (run m inputs PickGlobals.init).1.state.arm = STOPPED
          ∧ (run m inputs PickGlobals.init).1.state.gripper = STOPPED)
    ∧ (g.task = CLOSE_TO_OBJECT → g.state.arm = STOPPED →
        (pick m r g).2.head? = some (Event.kinematics_pose_command (closeToObjectRequest g))
        ∧ (closeToObjectRequest g).pose
            = { position := { x := g.desired_pose.pose.position.x + 70 / 1000
                              y := g.desired_pose.pose.position.y
                              z := g.desired_pose.pose.position.z }
                orientation := g.desired_pose.pose.orientation }
        ∧ (pick m r g).1.desired_pose = g.desired_pose) := by
  refine ⟨fun h => (pick_frame m r g h).2.1, fun h => (step_callback_frame m i g h).1,
    ?_, ?_, ?_⟩
  · intro h2
    have hc := pick_check_frame m r g h2
    refine ⟨hc.1, ?_, ?_⟩
    · rcases hc.2.2.2.2 with h | h <;> rw [h] <;> decide
    · intro hid
      rw [hc.1]
      simp only [calcDesiredPose, if_pos hid]
  · intro hne h
    have hinv := run_keeps_steps m inputs (PickGlobals.init : PickGlobals R)
      (by simp only [PickGlobals.init]; decide)
      (fun h => absurd h (by simp only [PickGlobals.init]; decide))
    exact step_enters_check m i _ hinv.2 hne h
  · intro h6 harm
    refine ⟨?_, ?_, (pick_frame m r g (by rw [h6]; decide)).2.1⟩
    · rw [pick_close_to_object m r g h6, if_pos harm]
      unfold poseGoal
      rcases r.goal with _ | _ | _ <;> rfl
    · simp only [closeToObjectRequest]
      congr 2
      norm_num

/-- Witness for `desired_pose_written_by_check_marker`: the CHECK_MARKER cycle with the
recognized marker at (0.3, 0.1, 0). -/
theorem desired_pose_written_by_check_marker_witness :
    (pick LibM.identity Replies.planned
        { PickGlobals.ready with task := CHECK_AR_MARKER_POSE }).1.desired_pose.pose.position
      = { x := ({ PickGlobals.ready with task := CHECK_AR_MARKER_POSE } :
                PickGlobals ℚ).ar_marker_pose.pose.pose.position.x - 145 / 1000
          y := 0
          z := ({ PickGlobals.ready with task := CHECK_AR_MARKER_POSE } :
                PickGlobals ℚ).ar_marker_pose.pose.pose.position.z + 150 / 1000 } :=
  ((desired_pose_written_by_check_marker LibM.identity Replies.planned
    { PickGlobals.ready with task := CHECK_AR_MARKER_POSE } Input.pickMsg []).2.2.1 rfl).2.2 rfl

/-! ## Sequencer: the stored marker observation -/

theorem arMarkerPoseMsgs_eq (msgs : List (List (AlvarMarker R))) (g : PickGlobals R) :
    arMarkerPoseMsgs msgs g =
      { g with ar_marker_pose :=
          ((msgs.filterMap List.head?).getLast?).getD g.ar_marker_pose } := by
  induction msgs generalizing g with
  | nil => rfl
  | cons ms rest ih =>
    have hc : arMarkerPoseMsgs (ms :: rest) g
        = arMarkerPoseMsgs rest (arMarkerPoseMsgCallback ms g) := rfl
    rw [hc, ih]
    cases ms with
    | nil => rfl
    | cons first tl =>
      have hf : (first :: tl).head? = some first := rfl
      rw [List.filterMap_cons_some hf]
      cases hl : (List.filterMap List.head? rest).getLast? with
      | none =>
        have hnil : List.filterMap List.head? rest = [] := by
          simpa using hl
        rw [hnil]
        rfl
      | some last =>
        have : (first :: List.filterMap List.head? rest).getLast? = some last := by
          cases hr : List.filterMap List.head? rest with
          | nil => rw [hr] at hl; simp at hl
          | cons a l =>
            rw [hr] at hl
            rw [List.getLast?_cons_cons]; exact hl
        rw [this]
        rfl

/-- C23: a `pick()` cycle in CHECK_MARKER sets `state.marker` to true exactly if the
stored observation has id 8.  After any sequence of marker messages the stored observation
is the first marker of the most recent non-empty message (the earlier one if all were
empty) and nothing else has changed, in particular not `state.marker`; with the start-up
observation (no non-empty message yet) the CHECK_MARKER cycle does not find the marker. -/
theorem marker_recognition (m : LibM R) (r : Replies) (g : PickGlobals R)
    (msgs : List (List (AlvarMarker R))) :
    (g.task = CHECK_AR_MARKER_POSE →
        ((pick m r g).1.state.marker = true ↔ g.ar_marker_pose.id = MARKER_ID))
    ∧ arMarkerPoseMsgs msgs g =
        { g with ar_marker_pose :=
            ((msgs.filterMap List.head?).getLast?).getD g.ar_marker_pose }
    ∧ (arMarkerPoseMsgs msgs g).state.marker = g.state.marker
    ∧ (msgs.filterMap List.head? = [] →
        (pick m r { arMarkerPoseMsgs msgs (PickGlobals.init : PickGlobals R) with
            task := CHECK_AR_MARKER_POSE }).1.state.marker = false
        ∧ (pick m r { arMarkerPoseMsgs msgs (PickGlobals.init : PickGlobals R) with
            task := CHECK_AR_MARKER_POSE }).2
            = [Event.ROS_ERROR "CAN NOT FIND AR MARKER(ID : 8)" []]) := by
  refine ⟨?_, arMarkerPoseMsgs_eq msgs g, ?_, ?_⟩
  · intro h2
    rw [pick_state m r g, if_pos h2]
    simp
  · rw [arMarkerPoseMsgs_eq]
  · intro hnil
    rw [arMarkerPoseMsgs_eq, hnil]
    have hid : ¬ ({ ({ (PickGlobals.init : PickGlobals R) with
        ar_marker_pose := (([] : List (AlvarMarker R)).getLast?).getD
          (PickGlobals.init : PickGlobals R).ar_marker_pose } : PickGlobals R) with
        task := CHECK_AR_MARKER_POSE } : PickGlobals R).ar_marker_pose.id = MARKER_ID := by
      simp only [PickGlobals.init, List.getLast?_nil, Option.getD_none]
      decide
    constructor
    · rw [pick_state, if_pos rfl]
      simp only [decide_eq_false hid]
    · rw [pick_check _ _ _ rfl, if_neg hid]

/-- Witness for `marker_recognition`: the CHECK_MARKER cycle with the recognized marker
stored finds it. -/
theorem marker_recognition_witness :
    (pick LibM.identity Replies.planned
      { PickGlobals.ready with task := CHECK_AR_MARKER_POSE }).1.state.marker = true :=
  ((marker_recognition LibM.identity Replies.planned
    { PickGlobals.ready with task := CHECK_AR_MARKER_POSE } []).1 rfl).2 rfl

/-! ## Sequencer: a goal call that itself fails -/

theorem pick_pose_call_failed (m : LibM R) (r : Replies) (g : PickGlobals R)
    (hr : r.goal = none) (ht : g.task = MOVE_ARM ∨ g.task = CLOSE_TO_OBJECT)
    (ha : g.state.arm = STOPPED) :
    pick m r g = (g, [Event.kinematics_pose_command
      (if g.task = MOVE_ARM then moveArmRequest g else closeToObjectRequest g)]) := by
  rcases ht with h | h
  · rw [pick_move_arm m r g h, if_pos ha, if_pos h, hr]
    rfl
  · rw [pick_close_to_object m r g h, if_pos ha, if_neg (by rw [h]; decide), hr]
    rfl

theorem pick_pose_first_event (m : LibM R) (r : Replies) (g : PickGlobals R)
    (ht : g.task = MOVE_ARM ∨ g.task = CLOSE_TO_OBJECT) (ha : g.state.arm = STOPPED) :
    (pick m r g).2.head? = some (Event.kinematics_pose_command
      (if g.task = MOVE_ARM then moveArmRequest g else closeToObjectRequest g)) := by
  rcases ht with h | h
  · rw [pick_move_arm m r g h, if_pos ha, if_pos h]
    unfold poseGoal
    rcases r.goal with _ | _ | _ <;> rfl
  · rw [pick_close_to_object m r g h, if_pos ha, if_neg (by rw [h]; decide)]
    unfold poseGoal
    rcases r.goal with _ | _ | _ <;> rfl

theorem pick_init_position_failed (m : LibM R) (r : Replies) (g : PickGlobals R)
    (ht : g.task = INIT_POSITION) (ha : g.state.arm = STOPPED) (hr : r.goal ≠ some true) :
    (pick m r g).1 =
      { g with planning_cnt := (g.planning_cnt + 1) % 256, task := INIT_POSITION } := by
  rw [pick_init_position m r g ht, if_pos ha,
    afterWrapper_failed _ _ (initJointPosition r.goal) g (callOutcome_failed _ _ hr)]

/-- C29: in a `pick()` cycle in MOVE_ARM or CLOSE_TO_OBJECT with the arm Stopped, a
service call that itself fails leaves every global unchanged (step, stored previous step,
tolerance and retry counter included) and only sends the request, so the next cycle
sends the identical request again, whatever its replies.  In INIT_POSITION (arm Stopped),
GRIPPER_OFF and GRIP_OBJECT (gripper Stopped) a failed call leaves the same globals as the
reply `planned = false`: the 8 bit retry counter is incremented and INIT_POSITION is
next. -/
theorem pose_call_failure_is_not_counted (m : LibM R) (r r2 : Replies) (g : PickGlobals R)
    (hr : r.goal = none) :
    ((g.task = MOVE_ARM ∨ g.task = CLOSE_TO_OBJECT) → g.state.arm = STOPPED →
        (pick m r g).1 = g
        ∧ (pick m r g).2 = [Event.kinematics_pose_command
            (if g.task = MOVE_ARM then moveArmRequest g else closeToObjectRequest g)]
        ∧ (pick m r2 (pick m r g).1).2.head? = (pick m r g).2.head?)
    ∧ ((g.task = INIT_POSITION ∧ g.state.arm = STOPPED)
          ∨ ((g.task = GRIPPER_OFF ∨ g.task = GRIP_OBJECT) ∧ g.state.gripper = STOPPED) →
        (pick m r g).1 = (pick m { r with goal := some false } g).1
        ∧ (pick m r g).1 =
            { g with planning_cnt := (g.planning_cnt + 1) % 256, task := INIT_POSITION }) := by
  constructor
  · intro ht ha
    have hp := pick_pose_call_failed m r g hr ht ha
    refine ⟨by rw [hp], by rw [hp], ?_⟩
    rw [hp]
    exact pick_pose_first_event m r2 g ht ha
  · intro h
    rcases h with ⟨ht, ha⟩ | ⟨ht, hg⟩
    · rw [pick_init_position_failed m r g ht ha (by rw [hr]; exact fun h => nomatch h),
        pick_init_position_failed m _ g ht ha (by exact fun h => nomatch h)]
      exact ⟨rfl, rfl⟩
    · rw [pick_gripper_failed m r g ht hg (by rw [hr]; exact fun h => nomatch h),
        pick_gripper_failed m _ g ht hg (by exact fun h => nomatch h)]
      exact ⟨rfl, rfl⟩

/-- Witness for `pose_call_failure_is_not_counted`: the MOVE_ARM cycle of the ready
globals with a failed call. -/
theorem pose_call_failure_is_not_counted_witness :
    (pick LibM.identity { goal := none, result := true }
        { PickGlobals.ready with task := MOVE_ARM }).1
      = { PickGlobals.ready with task := MOVE_ARM } :=
  ((pose_call_failure_is_not_counted LibM.identity { goal := none, result := true }
    Replies.planned { PickGlobals.ready with task := MOVE_ARM } rfl).1
      (Or.inl rfl) rfl).1

/-! ## Sequencer: roll and pitch -/

theorem step_roll_pitch (m : LibM R) (i : Input R) (g : PickGlobals R) :
    (step m i g).1.roll = g.roll ∧ (step m i g).1.pitch = g.pitch := by
  by_cases hp : ∃ r, i = Input.pick r
  · obtain ⟨r, rfl⟩ := hp
    simp only [step]
    by_cases h2 : g.task = CHECK_AR_MARKER_POSE
    · have h := pick_check_frame m r g h2
      exact ⟨h.2.2.1, h.2.2.2.1⟩
    · have h := pick_frame m r g h2
      exact ⟨h.2.2.1, h.2.2.2.1⟩
  · have h := step_callback_frame m i g (fun r hr => hp ⟨r, hr⟩)
    exact h.2

theorem run_roll_pitch (m : LibM R) (inputs : List (Input R)) (g : PickGlobals R) :
    (run m inputs g).1.roll = g.roll ∧ (run m inputs g).1.pitch = g.pitch := by
  induction inputs generalizing g with
  | nil => exact ⟨rfl, rfl⟩
  | cons i rest ih =>
    rw [run_cons]
    have h := step_roll_pitch m i g
    have h2 := ih (step m i g).1
    exact ⟨h2.1.trans h.1, h2.2.trans h.2⟩

end SequencerTheorems

/-! ## Replay of a MoveIt plan -/

theorem periodNsec_ten_and_a_half_ms : periodNsec (21 / 2000) = 10000000 := by decide!

/-- A configured period of 1.001 s: the `double` product is just below 1001. -/
theorem periodNsec_1001_ms : periodNsec (1001 / 1000) = 1000 * 1000000 := by decide!

/-- A configured period of 0.009 s: the stored `double` is below 0.009, the `double`
product is 9. -/
theorem periodNsec_nine_ms : periodNsec (9 / 1000) = 9 * 1000000 := by decide!

/-- The default period `0.010f`: the `double` product is just below 10. -/
theorem periodNsec_default : periodNsec control_period_default = 9 * 1000000 := by decide!

/-- C11 (counterexample): a control period of 10.5 ms advances the deadline by 10 ms,
not by 10.5 ms: the update uses the whole milliseconds of the period only. -/
theorem advance_drops_fraction_of_millisecond :
    ¬ ∀ (p : ℚ) (t : Timespec), 0 < p →
      (((advanceDeadline p t).totalNsec : Int) : ℚ) = (t.totalNsec : ℚ) + p * 1000000000 := by
  intro h
  have h1 := h (21 / 2000) { tv_sec := 0, tv_nsec := 0 } (by norm_num)
  rw [advanceDeadline_totalNsec, periodNsec_ten_and_a_half_ms] at h1
  norm_num [Timespec.totalNsec] at h1

/-- C11 (as amended): the deadline update at the start of a tick, in `commTimerThread`
and in `calThread` alike, adds to the deadline the nanosecond count
`((int)(period * 1000)) * 1000000`, the product being the `double` product of the stored
period: for m = `(int)(period * 1000)` between 0 and 2147 the deadline grows by m
milliseconds, which is exactly the period when the stored period is exactly m
milliseconds.  Otherwise the part below a millisecond is lost, also when the product
rounds to just below a whole number: a configured 1.001 s advances the deadline by
1000 ms, the default `0.010f` by 9 ms. -/
theorem advance_is_truncated_double_product (p : ℚ) (t : Timespec) :
    (advanceDeadline p t).totalNsec = t.totalNsec + periodNsec p
    ∧ (∀ (j : JointWayPoint) (tool : List ℚ) (l : CommLoop),
        (calThreadStep j tool l).1.next_time
          = advanceDeadline l.controller.control_period_ l.next_time)
    ∧ (0 ≤ controlPeriodMs p → controlPeriodMs p ≤ 2147 →
        (advanceDeadline p t).totalNsec = t.totalNsec + controlPeriodMs p * 1000000
        ∧ (roundDouble p * 1000 = controlPeriodMs p →
            (((advanceDeadline p t).totalNsec : Int) : ℚ)
              = (t.totalNsec : ℚ) + roundDouble p * 1000000000))
    ∧ periodNsec (1001 / 1000) = 1000 * 1000000
    ∧ periodNsec control_period_default = 9 * 1000000 := by
  refine ⟨advanceDeadline_totalNsec p t, fun _ _ _ => rfl, ?_, periodNsec_1001_ms,
    periodNsec_default⟩
  intro h0 h1
  have hp := periodNsec_of_ms p h0 h1
  refine ⟨by rw [advanceDeadline_totalNsec, hp], fun hms => ?_⟩
  rw [advanceDeadline_totalNsec, hp]
  have hp2 : roundDouble p * 1000000000 = ((controlPeriodMs p : Int) : ℚ) * 1000000 := by
    rw [← hms]; ring
  rw [hp2]
  push_cast
  ring

/-- Witness for `advance_is_truncated_double_product`: a period of 0.125 s, which is a
`double` and exactly 125 ms. -/
theorem advance_is_truncated_double_product_witness :
    (((advanceDeadline (1 / 8) { tv_sec := 0, tv_nsec := 0 }).totalNsec : Int) : ℚ)
      = ((Timespec.totalNsec { tv_sec := 0, tv_nsec := 0 } : Int) : ℚ)
        + roundDouble (1 / 8) * 1000000000 :=
  ((advance_is_truncated_double_product (1 / 8) { tv_sec := 0, tv_nsec := 0 }).2.2.1
    (by decide!) (by decide!)).2 (by decide!)

/-! ## Waypoint queues: a tick with nothing queued -/

theorem commTimerTransfer_locals (c : OM_CONTROLLER) (tx : CommLocals) :
    (commTimerTransfer c tx).2.1 = CommLocals.initial := rfl

theorem commTimerDequeue_initial (c : OM_CONTROLLER) :
    ((commTimerDequeue c CommLocals.initial).1,
      (commTimerDequeue c CommLocals.initial).2.tx_joint_way_point,
      (commTimerDequeue c CommLocals.initial).2.tx_tool_way_point) = commTimerPop c := by
  unfold commTimerDequeue commTimerPop CommLocals.initial
  cases c.joint_way_point_buf_ <;> cases hc : c.tool_way_point_buf_ <;> simp [hc]

/-- C12: at every iteration of `commTimerThread` the two locals are empty on entry (they
are empty at thread start and cleared by every iteration); hence at a tick at which both
waypoint queues are empty, the joint set and the tool set handed to the actuators are
both empty, whatever an earlier tick transmitted, and the controller (queues and
`present_joint_value` included) is unchanged. -/
theorem empty_pop_sends_empty_sets (c : OM_CONTROLLER) (curr_time next_time : Timespec)
    (earlier : OM_CONTROLLER) (tx : CommLocals)
    (hj : c.joint_way_point_buf_ = []) (ht : c.tool_way_point_buf_ = []) :
    commTimerTransfer c CommLocals.initial
        = (c, CommLocals.initial, CommEvent.communicationProcessToActuator [] [])
    ∧ commTimerTransfer c (commTimerTransfer earlier tx).2.1
        = (c, CommLocals.initial, CommEvent.communicationProcessToActuator [] [])
    ∧ (commTimerThreadStep curr_time { controller := c, next_time := next_time }).1.controller
        = c
    ∧ (commTimerThreadStep curr_time { controller := c, next_time := next_time }).2.head?
        = some (CommEvent.communicationProcessToActuator [] []) := by
  have h0 : commTimerTransfer c CommLocals.initial
      = (c, CommLocals.initial, CommEvent.communicationProcessToActuator [] []) := by
    simp [commTimerTransfer, commTimerDequeue, hj, ht, CommLocals.initial]
  have hp : commTimerPop c = (c, [], []) := by
    simp [commTimerPop, hj, ht]
  refine ⟨h0, ?_, ?_, ?_⟩
  · rw [commTimerTransfer_locals]; exact h0
  · rw [commTimerThreadStep_eq]; simp [hp]
  · rw [commTimerThreadStep_eq]; simp [hp]

/-- Witness for `empty_pop_sends_empty_sets`: the idle controller, after an earlier tick
that transmitted a set. -/
theorem empty_pop_sends_empty_sets_witness :
    commTimerTransfer OM_CONTROLLER.idle
        (commTimerTransfer
          (calThreadPush [{ value := 1, velocity := 0, acceleration := 0, effort := 0 }] [1]
            OM_CONTROLLER.idle) CommLocals.initial).2.1
      = (OM_CONTROLLER.idle, CommLocals.initial,
          CommEvent.communicationProcessToActuator [] []) :=
  (empty_pop_sends_empty_sets OM_CONTROLLER.idle { tv_sec := 0, tv_nsec := 0 }
    { tv_sec := 0, tv_nsec := 0 }
    (calThreadPush [{ value := 1, velocity := 0, acceleration := 0, effort := 0 }] [1]
      OM_CONTROLLER.idle) CommLocals.initial rfl rfl).2.1

/-! ## The transmit step of the manipulator -/

/-- C14: in hardware mode the joint/tool operations of `openManipulatorProcess` are, in
this order: read the joint feedback, read the tool feedback, send the joint goal if and
only if it is not empty, send the tool goal if and only if it is not empty; in
simulation mode no feedback is read and nothing is sent, and the joint and tool values
are set, each if and only if its set is not empty. -/
theorem read_before_write (present_time : ℚ) (goal_value : List WayPoint)
    (tool_value : List ℚ) :
    (openManipulatorProcess true present_time goal_value tool_value).filter
        ProcessCall.isSinkOperation
      = [ProcessCall.receiveAllJointActuatorValue, ProcessCall.receiveAllToolActuatorValue]
          ++ (if goal_value ≠ [] then [ProcessCall.sendAllJointActuatorValue goal_value] else [])
          ++ (if tool_value ≠ [] then [ProcessCall.sendAllToolActuatorValue tool_value] else [])
    ∧ (openManipulatorProcess false present_time goal_value tool_value).filter
        ProcessCall.isSinkOperation
      = (if goal_value ≠ [] then [ProcessCall.setAllActiveJointWayPoint goal_value] else [])
          ++ (if tool_value ≠ [] then [ProcessCall.setAllToolValue tool_value] else []) := by
  constructor
  · cases goal_value <;> cases tool_value <;>
      simp [openManipulatorProcess, ProcessCall.isSinkOperation]
  · cases goal_value <;> cases tool_value <;>
      simp [openManipulatorProcess, ProcessCall.isSinkOperation]

/-! ## Stopping the transmit thread before the actuators are switched -/

/-- C15: in the destructor and in both branches of `setActuatorStateCallback` the run
flag is cleared first, the transmit thread is joined next, and only then
`allActuatorDisable` or `allActuatorEnable` is called, so that the call is made while
the flag is cleared and the thread has ended, whatever the state of the thread before;
in `setActuatorStateCallback` the thread is created again only after that call. -/
theorem actuators_switched_after_join (s : TransmitThread) (set_actuator_state : Bool)
    (error : Int) :
    OM_CONTROLLER.destructor.filter ControllerEffect.isOrdered
      = [ControllerEffect.set_comm_timer_thread_flag false, ControllerEffect.pthread_join,
          ControllerEffect.allActuatorDisable]
    ∧ (setActuatorStateCallback set_actuator_state error).filter ControllerEffect.isOrdered
      = [ControllerEffect.set_comm_timer_thread_flag false, ControllerEffect.pthread_join,
          if set_actuator_state = true then ControllerEffect.allActuatorEnable
          else ControllerEffect.allActuatorDisable,
          ControllerEffect.pthread_create error]
    ∧ actuatorCallsAfterStop OM_CONTROLLER.destructor s = true
    ∧ actuatorCallsAfterStop (setActuatorStateCallback set_actuator_state error) s = true := by
  refine ⟨by decide, ?_, ?_, ?_⟩
  · by_cases he : error = 0 <;> cases set_actuator_state <;>
      simp [setActuatorStateCallback, startCommTimerThread, ControllerEffect.isOrdered, he]
  · simp [OM_CONTROLLER.destructor, actuatorCallsAfterStop, ControllerEffect.isActuatorCall,
      ControllerEffect.apply]
  · by_cases he : error = 0 <;> cases set_actuator_state <;>
      simp [setActuatorStateCallback, startCommTimerThread, actuatorCallsAfterStop,
        ControllerEffect.isActuatorCall, ControllerEffect.apply, he]

/-! ## Replay: one call of `moveitTimer` -/

theorem moveitTimer_advance_at (t : ℚ) (c : OM_CONTROLLER) (st : MoveitTimerStatics)
    (target : List WayPoint)
    (hf : c.moveit_plan_flag_ = true) (ht : t - st.priv_time > c.moveit_sampling_time_)
    (hj : st.step_cnt < c.joint_trajectory_.length)
    (hK : c.joint_trajectory_.length < 4294967296)
    (htarget : buildTarget (c.joint_trajectory_.get ⟨st.step_cnt, hj⟩) = some target) :
    moveitTimer t c st =
      if st.step_cnt + 1 = c.joint_trajectory_.length then
        some ({ c with moveit_plan_flag_ := false }, { priv_time := t, step_cnt := 0 },
          [{ target := target, path_time := t - st.priv_time }])
      else
        some (c, { priv_time := t, step_cnt := st.step_cnt + 1 },
          [{ target := target, path_time := t - st.priv_time }]) := by
  unfold moveitTimer
  rw [if_pos hf]
  simp only
  rw [if_pos ht, List.getElem?_eq_getElem hj]
  simp only
  have hget : c.joint_trajectory_[st.step_cnt] = c.joint_trajectory_.get ⟨st.step_cnt, hj⟩ := rfl
  rw [hget, htarget]
  simp only
  have h1 : (st.step_cnt + 1) % 4294967296 = st.step_cnt + 1 := Nat.mod_eq_of_lt (by omega)
  have h2 : c.joint_trajectory_.length % 4294967296 = c.joint_trajectory_.length :=
    Nat.mod_eq_of_lt hK
  rw [h1, h2]
  by_cases he : st.step_cnt + 1 = c.joint_trajectory_.length
  · rw [if_pos he, if_pos (by omega)]
  · rw [if_neg he, if_neg (by omega)]

theorem polar_angle_of_acos (x y : ℝ) (hxy : ¬ (x = 0 ∧ y = 0)) :
    Real.cos (if y > 0 then Real.arccos (x / Real.sqrt (x * x + y * y))
        else (-1) * Real.arccos (x / Real.sqrt (x * x + y * y)))
      = x / Real.sqrt (x * x + y * y)
    ∧ Real.sin (if y > 0 then Real.arccos (x / Real.sqrt (x * x + y * y))
        else (-1) * Real.arccos (x / Real.sqrt (x * x + y * y)))
      = y / Real.sqrt (x * x + y * y) := by
  have hpos : 0 < x * x + y * y := by
    by_cases hx : x = 0
    · have hy : y ≠ 0 := fun hy => hxy ⟨hx, hy⟩
      have := mul_self_pos.2 hy
      nlinarith [mul_self_nonneg x]
    · have := mul_self_pos.2 hx
      nlinarith [mul_self_nonneg y]
  have hd : 0 < Real.sqrt (x * x + y * y) := Real.sqrt_pos.2 hpos
  have hd2 : Real.sqrt (x * x + y * y) * Real.sqrt (x * x + y * y) = x * x + y * y :=
    Real.mul_self_sqrt hpos.le
  generalize Real.sqrt (x * x + y * y) = d at hd hd2
  have hq : (x / d) ^ 2 + (y / d) ^ 2 = 1 := by
    field_simp
    nlinarith
  have hle : x / d ≤ 1 := by nlinarith [sq_nonneg (y / d), sq_nonneg (x / d - 1)]
  have hge : -1 ≤ x / d := by nlinarith [sq_nonneg (y / d), sq_nonneg (x / d + 1)]
  have hs : Real.sqrt (1 - (x / d) ^ 2) = |y| / d := by
    have h1 : 1 - (x / d) ^ 2 = (|y| / d) ^ 2 := by
      have h2 : (|y| / d) ^ 2 = (y / d) ^ 2 := by rw [div_pow, sq_abs, div_pow]
      rw [h2]
      linarith
    rw [h1]
    exact Real.sqrt_sq (div_nonneg (abs_nonneg y) hd.le)
  by_cases hy : y > 0
  · rw [if_pos hy, Real.cos_arccos hge hle, Real.sin_arccos, hs, abs_of_pos hy]
    exact ⟨rfl, rfl⟩
  · rw [if_neg hy, neg_one_mul, Real.cos_neg, Real.sin_neg, Real.cos_arccos hge hle,
      Real.sin_arccos, hs, abs_of_nonpos (not_lt.1 hy)]
    exact ⟨rfl, by ring⟩

/-- C21: over the reals, with the C functions `sqrt`, `acos`, `cos` and `sin` read as the
real ones: for a marker with the recognized id and planar position (x, y) other than
(0, 0), and roll and pitch 0 (their value in every state reached from start-up), the
yaw stored by `calcDesiredPose` has cosine x/dist and sine y/dist, dist being the square
root of x*x + y*y, and the orientation returned is (w, x, y, z) =
(cos(yaw/2), 0, 0, sin(yaw/2)), of norm 1. -/
theorem yaw_is_polar_angle (marker : AlvarMarker ℝ) (g : PickGlobals ℝ)
    (inputs : List (Input ℝ))
    (hid : marker.id = MARKER_ID)
    (hxy : ¬ (marker.pose.pose.position.x = 0 ∧ marker.pose.pose.position.y = 0))
    (hroll : g.roll = 0) (hpitch : g.pitch = 0) :
    Real.cos (calcDesiredPose
        { sqrt := Real.sqrt, acos := Real.arccos, cos := Real.cos, sin := Real.sin, add := fun a b => a + b }
        marker g).2.yaw
      = marker.pose.pose.position.x
          / Real.sqrt (marker.pose.pose.position.x * marker.pose.pose.position.x
              + marker.pose.pose.position.y * marker.pose.pose.position.y)
    ∧ Real.sin (calcDesiredPose
        { sqrt := Real.sqrt, acos := Real.arccos, cos := Real.cos, sin := Real.sin, add := fun a b => a + b }
        marker g).2.yaw
      = marker.pose.pose.position.y
          / Real.sqrt (marker.pose.pose.position.x * marker.pose.pose.position.x
              + marker.pose.pose.position.y * marker.pose.pose.position.y)
    ∧ (calcDesiredPose
        { sqrt := Real.sqrt, acos := Real.arccos, cos := Real.cos, sin := Real.sin, add := fun a b => a + b }
        marker g).1.pose.orientation
      = { w := Real.cos ((calcDesiredPose
            { sqrt := Real.sqrt, acos := Real.arccos, cos := Real.cos, sin := Real.sin, add := fun a b => a + b }
            marker g).2.yaw / 2)
          x := 0
          y := 0
          z := Real.sin ((calcDesiredPose
            { sqrt := Real.sqrt, acos := Real.arccos, cos := Real.cos, sin := Real.sin, add := fun a b => a + b }
            marker g).2.yaw / 2) }
    ∧ (calcDesiredPose
        { sqrt := Real.sqrt, acos := Real.arccos, cos := Real.cos, sin := Real.sin, add := fun a b => a + b }
        marker g).1.pose.orientation.w ^ 2
      + (calcDesiredPose
        { sqrt := Real.sqrt, acos := Real.arccos, cos := Real.cos, sin := Real.sin, add := fun a b => a + b }
        marker g).1.pose.orientation.x ^ 2
      + (calcDesiredPose
        { sqrt := Real.sqrt, acos := Real.arccos, cos := Real.cos, sin := Real.sin, add := fun a b => a + b }
        marker g).1.pose.orientation.y ^ 2
      + (calcDesiredPose
        { sqrt := Real.sqrt, acos := Real.arccos, cos := Real.cos, sin := Real.sin, add := fun a b => a + b }
        marker g).1.pose.orientation.z ^ 2 = 1
    ∧ (run { sqrt := Real.sqrt, acos := Real.arccos, cos := Real.cos, sin := Real.sin, add := fun a b => a + b }
        inputs PickGlobals.init).1.roll = 0
    ∧ (run { sqrt := Real.sqrt, acos := Real.arccos, cos := Real.cos, sin := Real.sin, add := fun a b => a + b }
        inputs PickGlobals.init).1.pitch = 0 := by
  have hp := polar_angle_of_acos marker.pose.pose.position.x marker.pose.pose.position.y hxy
  have hrun := run_roll_pitch
    ({ sqrt := Real.sqrt, acos := Real.arccos, cos := Real.cos, sin := Real.sin, add := fun a b => a + b } : LibM ℝ)
    inputs PickGlobals.init
  have half : ∀ a : ℝ, a * (1 / 2) = a / 2 := fun a => by ring
  simp only [calcDesiredPose, if_pos hid, hroll, hpitch, half, zero_div, Real.cos_zero,
    Real.sin_zero, mul_one, mul_zero, add_zero, sub_zero, zero_add]
  refine ⟨hp.1, hp.2, trivial, ?_, hrun.1, hrun.2⟩
  · have := Real.cos_sq_add_sin_sq
      ((if marker.pose.pose.position.y > 0 then
          Real.arccos (marker.pose.pose.position.x
            / Real.sqrt (marker.pose.pose.position.x * marker.pose.pose.position.x
              + marker.pose.pose.position.y * marker.pose.pose.position.y))
        else
          (-1) * Real.arccos (marker.pose.pose.position.x
            / Real.sqrt (marker.pose.pose.position.x * marker.pose.pose.position.x
              + marker.pose.pose.position.y * marker.pose.pose.position.y))) / 2)
    nlinarith

/-- Witness for `yaw_is_polar_angle`: the recognized marker at (3, 4, 0) seen from the
start-up globals. -/
theorem yaw_is_polar_angle_witness :
    Real.cos (calcDesiredPose
        { sqrt := Real.sqrt, acos := Real.arccos, cos := Real.cos, sin := Real.sin, add := fun a b => a + b }
        { (PickGlobals.init : PickGlobals ℝ).ar_marker_pose with
          id := MARKER_ID
          pose := { (PoseStamped.zero : PoseStamped ℝ) with
            pose := { position := { x := 3, y := 4, z := 0 }
                      orientation := { x := 0, y := 0, z := 0, w := 1 } } } }
        PickGlobals.init).2.yaw
      = 3 / Real.sqrt (3 * 3 + 4 * 4) :=
  (yaw_is_polar_angle
    { (PickGlobals.init : PickGlobals ℝ).ar_marker_pose with
      id := MARKER_ID
      pose := { (PoseStamped.zero : PoseStamped ℝ) with
        pose := { position := { x := 3, y := 4, z := 0 }
                  orientation := { x := 0, y := 0, z := 0, w := 1 } } } }
    PickGlobals.init [] rfl (by simp) rfl rfl).1

/-! ## Controller: the queues under interleavings -/

theorem commTimerPop_queues (c : OM_CONTROLLER) :
    (commTimerPop c).1.joint_way_point_buf_ = c.joint_way_point_buf_.tail
    ∧ (commTimerPop c).1.tool_way_point_buf_ = c.tool_way_point_buf_.tail
    ∧ (commTimerPop c).1.present_joint_value
        = (commTimerTaken c).1.getD c.present_joint_value
    ∧ (commTimerPop c).2 = ((commTimerTaken c).1.getD [], (commTimerTaken c).2.getD []) := by
  unfold commTimerPop commTimerTaken
  cases hj : c.joint_way_point_buf_ <;> cases ht : c.tool_way_point_buf_ <;>
    simp [hj, ht]

theorem commTimerTaken_eq (c : OM_CONTROLLER) :
    commTimerTaken c = (c.joint_way_point_buf_.head?, c.tool_way_point_buf_.head?) := by
  unfold commTimerTaken
  cases c.joint_way_point_buf_ <;> cases c.tool_way_point_buf_ <;> rfl

theorem queueRun_cons (op : QueueOp) (rest : List QueueOp) (c : OM_CONTROLLER) :
    queueRun (op :: rest) c
      = ((queueRun rest (queueStep op c).1).1,
          (queueStep op c).2 ++ (queueRun rest (queueStep op c).1).2) := rfl

theorem getLast?_cons_getD {α : Type} (a d : α) (l : List α) :
    ((a :: l).getLast?).getD d = (l.getLast?).getD a := by
  cases l with
  | nil => rfl
  | cons b l =>
    rw [List.getLast?_cons_cons]
    cases h : (b :: l).getLast? with
    | none => simp at h
    | some x => rfl

/-- The joint sets: what was queued followed by what is pushed equals what the ticks took
followed by what is still queued. -/
theorem queueRun_joints (ops : List QueueOp) (c : OM_CONTROLLER) :
    c.joint_way_point_buf_ ++ (pushedPairs ops).map Prod.fst
      = (queueRun ops c).2.filterMap Prod.fst ++ (queueRun ops c).1.joint_way_point_buf_ := by
  induction ops generalizing c with
  | nil => simp [queueRun, pushedPairs]
  | cons op rest ih =>
    rw [queueRun_cons]
    cases op with
    | push j t =>
      have h := ih (calThreadPush j t c)
      simp only [queueStep, List.nil_append]
      rw [← h]
      simp [pushedPairs, QueueOp.pushed, calThreadPush]
    | tick =>
      have h := ih (commTimerPop c).1
      simp only [queueStep]
      rw [(commTimerPop_queues c).1] at h
      rw [List.filterMap_append, List.append_assoc, ← h, commTimerTaken_eq]
      cases hj : c.joint_way_point_buf_ <;> simp [pushedPairs, QueueOp.pushed]

/-- The tool sets, likewise. -/
theorem queueRun_tools (ops : List QueueOp) (c : OM_CONTROLLER) :
    c.tool_way_point_buf_ ++ (pushedPairs ops).map Prod.snd
      = (queueRun ops c).2.filterMap Prod.snd ++ (queueRun ops c).1.tool_way_point_buf_ := by
  induction ops generalizing c with
  | nil => simp [queueRun, pushedPairs]
  | cons op rest ih =>
    rw [queueRun_cons]
    cases op with
    | push j t =>
      have h := ih (calThreadPush j t c)
      simp only [queueStep, List.nil_append]
      rw [← h]
      simp [pushedPairs, QueueOp.pushed, calThreadPush]
    | tick =>
      have h := ih (commTimerPop c).1
      simp only [queueStep]
      rw [(commTimerPop_queues c).2.1] at h
      rw [List.filterMap_append, List.append_assoc, ← h, commTimerTaken_eq]
      cases hj : c.tool_way_point_buf_ <;> simp [pushedPairs, QueueOp.pushed]

/-- Queues of equal length stay of equal length, every tick takes from both queues or
from none, and the pairs taken are the pairs queued and pushed, in order. -/
theorem queueRun_paired (ops : List QueueOp) (c : OM_CONTROLLER)
    (hlen : c.joint_way_point_buf_.length = c.tool_way_point_buf_.length) :
    (queueRun ops c).1.joint_way_point_buf_.length
        = (queueRun ops c).1.tool_way_point_buf_.length
    ∧ (∀ p ∈ (queueRun ops c).2, p = (none, none) ∨ ∃ j t, p = (some j, some t))
    ∧ List.zip c.joint_way_point_buf_ c.tool_way_point_buf_ ++ pushedPairs ops
        = (queueRun ops c).2.filterMap takenPair
          ++ List.zip (queueRun ops c).1.joint_way_point_buf_
              (queueRun ops c).1.tool_way_point_buf_ := by
  induction ops generalizing c with
  | nil => simp [queueRun, pushedPairs, hlen]
  | cons op rest ih =>
    rw [queueRun_cons]
    cases op with
    | push j t =>
      have h := ih (calThreadPush j t c) (by simp [calThreadPush, hlen])
      simp only [queueStep, List.nil_append]
      refine ⟨h.1, h.2.1, ?_⟩
      rw [← h.2.2]
      simp only [calThreadPush, pushedPairs, QueueOp.pushed, List.filterMap_cons]
      rw [List.zip_append hlen]
      simp
    | tick =>
      have hq := commTimerPop_queues c
      have h := ih (commTimerPop c).1 (by rw [hq.1, hq.2.1]; simp [hlen])
      simp only [queueStep]
      refine ⟨h.1, ?_, ?_⟩
      · intro p hp
        rcases List.mem_append.1 hp with hp | hp
        · rw [List.mem_singleton] at hp
          rw [hp, commTimerTaken_eq]
          cases hj : c.joint_way_point_buf_ with
          | nil =>
            cases ht : c.tool_way_point_buf_ with
            | nil => exact Or.inl rfl
            | cons b tl => rw [hj, ht] at hlen; simp at hlen
          | cons a jl =>
            cases ht : c.tool_way_point_buf_ with
            | nil => rw [hj, ht] at hlen; simp at hlen
            | cons b tl => exact Or.inr ⟨a, b, rfl⟩
        · exact h.2.1 p hp
      · rw [List.filterMap_append, List.append_assoc, ← h.2.2, hq.1, hq.2.1,
          commTimerTaken_eq]
        cases hj : c.joint_way_point_buf_ with
        | nil =>
          cases ht : c.tool_way_point_buf_ with
          | nil => simp [takenPair, pushedPairs, QueueOp.pushed]
          | cons b tl => rw [hj, ht] at hlen; simp at hlen
        | cons a jl =>
          cases ht : c.tool_way_point_buf_ with
          | nil => rw [hj, ht] at hlen; simp at hlen
          | cons b tl => simp [takenPair, pushedPairs, QueueOp.pushed]

/-- The member `present_joint_value` is the last joint set a tick took, or still what it
was when no tick took one. -/
theorem queueRun_present (ops : List QueueOp) (c : OM_CONTROLLER) :
    (queueRun ops c).1.present_joint_value
      = (((queueRun ops c).2.filterMap Prod.fst).getLast?).getD c.present_joint_value := by
  induction ops generalizing c with
  | nil => rfl
  | cons op rest ih =>
    rw [queueRun_cons]
    cases op with
    | push j t =>
      have h := ih (calThreadPush j t c)
      simp only [queueStep, List.nil_append]
      rw [h]
      rfl
    | tick =>
      have h := ih (commTimerPop c).1
      simp only [queueStep]
      rw [h, (commTimerPop_queues c).2.2.1, List.filterMap_append, commTimerTaken_eq]
      cases hj : c.joint_way_point_buf_ with
      | nil => simp
      | cons a jl =>
        simp only [List.head?_cons, List.filterMap_cons, List.filterMap_nil, Option.getD_some,
          List.singleton_append]
        rw [getLast?_cons_getD]

/-- C24: from empty queues, under every interleaving of `calThread` enqueues and
`commTimerThread` ticks, the joint sets the ticks took, followed by the joint sets still
queued, are exactly the joint sets pushed, in the order pushed, and likewise the tool
sets: the k-th set taken is the k-th set pushed, and the queue length plus the number of
sets taken is the number of pushes. -/
theorem fifo_delivery (ops : List QueueOp) (c : OM_CONTROLLER)
    (hj : c.joint_way_point_buf_ = []) (ht : c.tool_way_point_buf_ = []) :
    (pushedPairs ops).map Prod.fst
      = (queueRun ops c).2.filterMap Prod.fst ++ (queueRun ops c).1.joint_way_point_buf_
    ∧ (pushedPairs ops).map Prod.snd
      = (queueRun ops c).2.filterMap Prod.snd ++ (queueRun ops c).1.tool_way_point_buf_
    ∧ (∀ (k : Nat) (j : JointWayPoint), ((queueRun ops c).2.filterMap Prod.fst)[k]? = some j →
        ((pushedPairs ops).map Prod.fst)[k]? = some j)
    ∧ (∀ (k : Nat) (t : List ℚ), ((queueRun ops c).2.filterMap Prod.snd)[k]? = some t →
        ((pushedPairs ops).map Prod.snd)[k]? = some t)
    ∧ (queueRun ops c).1.joint_way_point_buf_.length
        + ((queueRun ops c).2.filterMap Prod.fst).length = (pushedPairs ops).length
    ∧ (queueRun ops c).1.tool_way_point_buf_.length
        + ((queueRun ops c).2.filterMap Prod.snd).length = (pushedPairs ops).length := by
  have h1 := queueRun_joints ops c
  have h2 := queueRun_tools ops c
  rw [hj, List.nil_append] at h1
  rw [ht, List.nil_append] at h2
  refine ⟨h1, h2, ?_, ?_, ?_, ?_⟩
  · intro k j hk
    have hlt : k < ((queueRun ops c).2.filterMap Prod.fst).length := by
      by_contra hge
      rw [List.getElem?_eq_none (not_lt.1 hge)] at hk
      exact absurd hk (fun h => nomatch h)
    rw [h1, List.getElem?_append_left hlt]
    exact hk
  · intro k t hk
    have hlt : k < ((queueRun ops c).2.filterMap Prod.snd).length := by
      by_contra hge
      rw [List.getElem?_eq_none (not_lt.1 hge)] at hk
      exact absurd hk (fun h => nomatch h)
    rw [h2, List.getElem?_append_left hlt]
    exact hk
  · have := congrArg List.length h1
    rw [List.length_map, List.length_append] at this
    omega
  · have := congrArg List.length h2
    rw [List.length_map, List.length_append] at this
    omega

/-- Witness for `fifo_delivery`: two enqueues, a tick, an enqueue and a tick, from the
idle controller. -/
theorem fifo_delivery_witness :
    (pushedPairs [QueueOp.push [] [1], QueueOp.push [] [2], QueueOp.tick,
        QueueOp.push [] [3], QueueOp.tick]).map Prod.snd
      = (queueRun [QueueOp.push [] [1], QueueOp.push [] [2], QueueOp.tick,
          QueueOp.push [] [3], QueueOp.tick] OM_CONTROLLER.idle).2.filterMap Prod.snd
        ++ (queueRun [QueueOp.push [] [1], QueueOp.push [] [2], QueueOp.tick,
          QueueOp.push [] [3], QueueOp.tick] OM_CONTROLLER.idle).1.tool_way_point_buf_ :=
  (fifo_delivery [QueueOp.push [] [1], QueueOp.push [] [2], QueueOp.tick,
    QueueOp.push [] [3], QueueOp.tick] OM_CONTROLLER.idle rfl rfl).2.1

/-- C25: from empty queues, under every interleaving of `calThread` enqueues and
`commTimerThread` ticks, the two queues have the same length; every tick takes from both
queues or from none, the pairs taken, followed by the pairs still queued, are the pairs
pushed, each by one generation cycle, in order; and `present_joint_value` is the last
joint set taken (its first value while none was taken). -/
theorem queues_are_paired (ops : List QueueOp) (c : OM_CONTROLLER)
    (hj : c.joint_way_point_buf_ = []) (ht : c.tool_way_point_buf_ = []) :
    (queueRun ops c).1.joint_way_point_buf_.length
        = (queueRun ops c).1.tool_way_point_buf_.length
    ∧ (∀ p ∈ (queueRun ops c).2, p = (none, none) ∨ ∃ j t, p = (some j, some t))
    ∧ pushedPairs ops
        = (queueRun ops c).2.filterMap takenPair
          ++ List.zip (queueRun ops c).1.joint_way_point_buf_
              (queueRun ops c).1.tool_way_point_buf_
    ∧ (queueRun ops c).1.present_joint_value
        = (((queueRun ops c).2.filterMap Prod.fst).getLast?).getD c.present_joint_value := by
  have h := queueRun_paired ops c (by simp [hj, ht])
  refine ⟨h.1, h.2.1, ?_, queueRun_present ops c⟩
  have h3 := h.2.2
  rw [hj, ht] at h3
  exact h3

/-- Witness for `queues_are_paired`: two enqueues, a tick, an enqueue and a tick, from
the idle controller. -/
theorem queues_are_paired_witness :
    (queueRun [QueueOp.push [] [1], QueueOp.push [] [2], QueueOp.tick,
        QueueOp.push [] [3], QueueOp.tick] OM_CONTROLLER.idle).1.joint_way_point_buf_.length
      = (queueRun [QueueOp.push [] [1], QueueOp.push [] [2], QueueOp.tick,
        QueueOp.push [] [3], QueueOp.tick] OM_CONTROLLER.idle).1.tool_way_point_buf_.length :=
  (queues_are_paired [QueueOp.push [] [1], QueueOp.push [] [2], QueueOp.tick,
    QueueOp.push [] [3], QueueOp.tick] OM_CONTROLLER.idle rfl rfl).1

/-! ## Control clock: the deadline stays a normal `timespec` -/

theorem moveitTimer_reads_outside (t : ℚ) (c : OM_CONTROLLER) (st : MoveitTimerStatics)
    (i : Nat) (hr : moveitTimerReads t c st = some i) (hi : c.joint_trajectory_.length ≤ i) :
    moveitTimer t c st = none := by
  unfold moveitTimerReads at hr
  unfold moveitTimer
  by_cases hf : c.moveit_plan_flag_ = true
  · rw [if_pos hf] at hr ⊢
    by_cases ht : t - st.priv_time > c.moveit_sampling_time_
    · rw [if_pos ht] at hr
      simp only
      rw [if_pos ht]
      have hi2 : st.step_cnt = i := Option.some.inj hr
      rw [hi2, List.getElem?_eq_none hi]
    · rw [if_neg ht] at hr
      exact absurd hr (fun h => nomatch h)
  · rw [if_neg hf] at hr
    exact absurd hr (fun h => nomatch h)

theorem replayRun_then_no_result (a : List ReplayInput) (t : ℚ) (c c1 : OM_CONTROLLER)
    (st st1 : MoveitTimerStatics) (evs : List JointTrajectoryMove)
    (ha : replayRun a c st = some (c1, st1, evs)) (ht : moveitTimer t c1 st1 = none) :
    replayRun (a ++ [ReplayInput.process t]) c st = none := by
  induction a generalizing c st evs with
  | nil =>
    simp only [replayRun] at ha
    obtain ⟨rfl, rfl, _⟩ := Prod.mk.inj (Option.some.inj ha) |> fun h =>
      (⟨h.1, (Prod.mk.inj h.2).1, (Prod.mk.inj h.2).2⟩ : c = c1 ∧ st = st1 ∧ [] = evs)
    simp only [List.nil_append, replayRun, ht]
  | cons i rest ih =>
    cases i with
    | displayPlannedPath points =>
      simp only [List.cons_append, replayRun] at ha ⊢
      exact ih _ _ _ ha
    | process t1 =>
      simp only [List.cons_append, replayRun] at ha ⊢
      cases hm : moveitTimer t1 c st with
      | none => rfl
      | some out =>
        obtain ⟨c2, st2, e2⟩ := out
        rw [hm] at ha
        simp only at ha ⊢
        cases hr : replayRun rest c2 st2 with
        | none => rw [hr] at ha; exact absurd ha (fun h => nomatch h)
        | some out2 =>
          obtain ⟨c3, st3, e3⟩ := out2
          rw [hr] at ha
          simp only [Option.some.injEq, Prod.mk.injEq] at ha
          obtain ⟨rfl, rfl, _⟩ := ha
          have h3 : replayRun (rest.append [ReplayInput.process t]) c2 st2 = none :=
            ih c2 st2 e3 hr
          rw [h3]

theorem restageDuringReplay_run :
    replayRun restageDuringReplay OM_CONTROLLER.idle MoveitTimerStatics.initial
      = some
        ({ OM_CONTROLLER.idle with
            moveit_plan_flag_ := true
            joint_trajectory_ :=
              [{ positions := [5, 5], velocities := [0, 0], accelerations := [0, 0] }] },
          { priv_time := 2, step_cnt := 2 },
          [{ target := [{ value := 0, velocity := 0, acceleration := 0, effort := 0 },
              { value := 0, velocity := 0, acceleration := 0, effort := 0 }]
             path_time := 1 - 0 },
            { target := [{ value := 1, velocity := 1, acceleration := 0, effort := 0 },
              { value := 2, velocity := 1, acceleration := 0, effort := 0 }]
              path_time := 2 - 1 }]) := by
  have h1 := moveitTimer_advance_at 1 OM_CONTROLLER.staged { priv_time := 0, step_cnt := 0 }
    [{ value := 0, velocity := 0, acceleration := 0, effort := 0 },
      { value := 0, velocity := 0, acceleration := 0, effort := 0 }] rfl
    (by norm_num [OM_CONTROLLER.staged, displayPlannedPathMsgCallback, OM_CONTROLLER.idle])
    (by decide) (by decide) (by decide)
  rw [if_neg (by decide)] at h1
  have h2 := moveitTimer_advance_at 2 OM_CONTROLLER.staged { priv_time := 1, step_cnt := 1 }
    [{ value := 1, velocity := 1, acceleration := 0, effort := 0 },
      { value := 2, velocity := 1, acceleration := 0, effort := 0 }] rfl
    (by norm_num [OM_CONTROLLER.staged, displayPlannedPathMsgCallback, OM_CONTROLLER.idle])
    (by decide) (by decide) (by decide)
  rw [if_neg (by decide)] at h2
  have hs : displayPlannedPathMsgCallback OM_CONTROLLER.staged.joint_trajectory_
      OM_CONTROLLER.idle = OM_CONTROLLER.staged := rfl
  simp only [restageDuringReplay, replayRun, MoveitTimerStatics.initial, hs, h1, h2]
  rfl

/-- C27: the cursor can leave the staged trajectory.  From start-up, after a plan of
three points is staged, two advances move the cursor to 2; a plan of one point staged
then leaves the cursor at 2 (staging does not reset it), so the next call of
`moveitTimer` later than the sampling time reads `joint_trajectory_.points` at index 2
although the staged trajectory has one point, and the call has no defined result. -/
theorem replay_cursor_leaves_restaged_plan :
    (∀ points ∈ restageDuringReplay.filterMap
        (fun i => match i with
          | ReplayInput.displayPlannedPath points => some points
          | ReplayInput.process _ => none), points ≠ [])
    ∧ ∃ c st evs,
      replayRun restageDuringReplay OM_CONTROLLER.idle MoveitTimerStatics.initial
        = some (c, st, evs)
      ∧ c.joint_trajectory_.length = 1
      ∧ moveitTimerReads 3 c st = some 2
      ∧ ¬ 2 < c.joint_trajectory_.length
      ∧ moveitTimer 3 c st = none
      ∧ replayRun (restageDuringReplay ++ [ReplayInput.process 3]) OM_CONTROLLER.idle
          MoveitTimerStatics.initial = none := by
  constructor
  · decide
  · refine ⟨_, _, _, restageDuringReplay_run, rfl, ?_, by decide, ?_, ?_⟩
    · unfold moveitTimerReads
      rw [if_pos rfl, if_pos (by norm_num [OM_CONTROLLER.idle])]
    · apply moveitTimer_reads_outside 3 _ _ 2
      · unfold moveitTimerReads
        rw [if_pos rfl, if_pos (by norm_num [OM_CONTROLLER.idle])]
      · decide
    · exact replayRun_then_no_result _ 3 _ _ _ _ _ restageDuringReplay_run
        (moveitTimer_reads_outside 3 _ _ 2
          (by unfold moveitTimerReads
              rw [if_pos rfl, if_pos (by norm_num [OM_CONTROLLER.idle])])
          (by decide))

/-! ## Planning requests -/

theorem planUnlessMoving_result (w1 w2 : String) (isMoving planSucceeds : Bool) :
    ((planUnlessMoving w1 w2 isMoving planSucceeds).1 = true
        ↔ isMoving = false ∧ planSucceeds = true)
    ∧ ((planUnlessMoving w1 w2 isMoving planSucceeds).1 = true
        ↔ PlanEvent.plan true ∈ (planUnlessMoving w1 w2 isMoving planSucceeds).2)
    ∧ (isMoving = true →
        (planUnlessMoving w1 w2 isMoving planSucceeds).1 = false
        ∧ (planUnlessMoving w1 w2 isMoving planSucceeds).2.filter PlanEvent.isPlan = [])
    ∧ (isMoving = false →
        (planUnlessMoving w1 w2 isMoving planSucceeds).1 = planSucceeds
        ∧ (planUnlessMoving w1 w2 isMoving planSucceeds).2.filter PlanEvent.isPlan
            = [PlanEvent.plan planSucceeds]) := by
  cases isMoving <;> cases planSucceeds <;>
    simp [planUnlessMoving, PlanEvent.isPlan, List.filter]

/-- C30 (counterexample): a joint space request with five positions for a planning group
of four joints, received while the manipulator is not moving and the planner would
succeed.  The copy loop of lines 619-622 writes `joint_group_positions[4]`, outside the
vector: `calcPlannedPath` has no defined result, so it does not return true, and
neither does the callback report `is_planned`. -/
theorem joint_request_longer_than_group :
    calcPlannedPathJointPosition
        { joint_name := ["joint1", "joint2", "joint3", "joint4", "gripper"]
          position := [0, 0, 0, 0, 0]
          max_accelerations_scaling_factor := 1, max_velocity_scaling_factor := 1 }
        [1, 1, 1, 1] false true = none
    ∧ setJointPositionMsgCallback
        { joint_name := ["joint1", "joint2", "joint3", "joint4", "gripper"]
          position := [0, 0, 0, 0, 0]
          max_accelerations_scaling_factor := 1, max_velocity_scaling_factor := 1 }
        [1, 1, 1, 1] false true = none := by
  constructor <;> rfl

/-- C30 (as amended): the task space overload of `calcPlannedPath`, and the joint space
overload for a request of fewer than 256 positions, not more than the planning group
has, return true exactly if the manipulator is not moving and the planner reports
success.  While it is moving the planner is not called (the targets and scaling factors
are still set) and the result is false; while it is not moving the planner is called
exactly once and the result is its reply.  Both service callbacks return true and report
the result of `calcPlannedPath` as `is_planned`. -/
theorem planning_is_refused_while_moving (planning_group : String) (kmsg : KinematicsPoseMsg)
    (jmsg : JointPositionMsg) (joint_group_positions : List ℚ) (isMoving planSucceeds : Bool)
    (h1 : jmsg.position.length < 256)
    (h2 : jmsg.position.length ≤ joint_group_positions.length) :
    ((calcPlannedPathKinematicsPose planning_group kmsg isMoving planSucceeds).1 = true
        ↔ isMoving = false ∧ planSucceeds = true)
    ∧ ((calcPlannedPathKinematicsPose planning_group kmsg isMoving planSucceeds).1 = true
        ↔ PlanEvent.plan true
            ∈ (calcPlannedPathKinematicsPose planning_group kmsg isMoving planSucceeds).2)
    ∧ (isMoving = true →
        (calcPlannedPathKinematicsPose planning_group kmsg isMoving planSucceeds).1 = false
        ∧ (calcPlannedPathKinematicsPose planning_group kmsg isMoving
            planSucceeds).2.filter PlanEvent.isPlan = [])
    ∧ (isMoving = false →
        (calcPlannedPathKinematicsPose planning_group kmsg isMoving planSucceeds).1
          = planSucceeds
        ∧ (calcPlannedPathKinematicsPose planning_group kmsg isMoving
            planSucceeds).2.filter PlanEvent.isPlan = [PlanEvent.plan planSucceeds])
    ∧ (∃ out, calcPlannedPathJointPosition jmsg joint_group_positions isMoving planSucceeds
          = some out
        ∧ (out.1 = true ↔ isMoving = false ∧ planSucceeds = true)
        ∧ (out.1 = true ↔ PlanEvent.plan true ∈ out.2)
        ∧ (isMoving = true → out.1 = false ∧ out.2.filter PlanEvent.isPlan = [])
        ∧ (isMoving = false →
            out.1 = planSucceeds
            ∧ out.2.filter PlanEvent.isPlan = [PlanEvent.plan planSucceeds])
        ∧ setJointPositionMsgCallback jmsg joint_group_positions isMoving planSucceeds
            = some (true, out.1, out.2))
    ∧ setKinematicsPoseMsgCallback planning_group kmsg isMoving planSucceeds
        = (true,
            (calcPlannedPathKinematicsPose planning_group kmsg isMoving planSucceeds).1,
            (calcPlannedPathKinematicsPose planning_group kmsg isMoving planSucceeds).2) := by
  have hk := planUnlessMoving_result "Failed to Plan (task space goal)" "Robot is Moving"
    isMoving planSucceeds
  have hj := planUnlessMoving_result "Failed to Plan (joint space goal)" "Robot is moving"
    isMoving planSucceeds
  refine ⟨hk.1, ?_, ?_, ?_, ?_, rfl⟩
  · simp only [calcPlannedPathKinematicsPose]
    rw [hk.2.1]
    simp
  · intro hm
    refine ⟨(hk.2.2.1 hm).1, ?_⟩
    simp only [calcPlannedPathKinematicsPose, List.filter_append, (hk.2.2.1 hm).2]
    rfl
  · intro hm
    refine ⟨(hk.2.2.2 hm).1, ?_⟩
    simp only [calcPlannedPathKinematicsPose, List.filter_append, (hk.2.2.2 hm).2]
    rfl
  · have hc : calcPlannedPathJointPosition jmsg joint_group_positions isMoving planSucceeds
        = some ((planUnlessMoving "Failed to Plan (joint space goal)" "Robot is moving"
            isMoving planSucceeds).1,
          [PlanEvent.setJointValueTarget
              (jmsg.position ++ joint_group_positions.drop jmsg.position.length),
            PlanEvent.setMaxVelocityScalingFactor jmsg.max_velocity_scaling_factor,
            PlanEvent.setMaxAccelerationScalingFactor jmsg.max_accelerations_scaling_factor]
            ++ (planUnlessMoving "Failed to Plan (joint space goal)" "Robot is moving"
              isMoving planSucceeds).2) := by
      unfold calcPlannedPathJointPosition
      rw [if_pos ⟨h1, h2⟩]
    refine ⟨_, hc, hj.1, ?_, ?_, ?_, ?_⟩
    · dsimp only
      rw [hj.2.1]
      simp
    · intro hm
      refine ⟨(hj.2.2.1 hm).1, ?_⟩
      simp only [List.filter_append, (hj.2.2.1 hm).2]
      rfl
    · intro hm
      refine ⟨(hj.2.2.2 hm).1, ?_⟩
      simp only [List.filter_append, (hj.2.2.2 hm).2]
      rfl
    · unfold setJointPositionMsgCallback
      rw [hc]

/-- Witness for `planning_is_refused_while_moving`: a joint space request of four
positions for a group of four joints, received while the manipulator is moving. -/
theorem planning_is_refused_while_moving_witness :
    (calcPlannedPathKinematicsPose "arm"
        { pose := { position := { x := 0, y := 0, z := 0 }
                    orientation := { x := 0, y := 0, z := 0, w := 1 } }
          max_accelerations_scaling_factor := 1, max_velocity_scaling_factor := 1
          tolerance := 1 / 100 } true true).1 = false :=
  ((planning_is_refused_while_moving "arm"
    { pose := { position := { x := 0, y := 0, z := 0 }
                orientation := { x := 0, y := 0, z := 0, w := 1 } }
      max_accelerations_scaling_factor := 1, max_velocity_scaling_factor := 1
      tolerance := 1 / 100 }
    { joint_name := ["joint1", "joint2", "joint3", "joint4"]
      position := [0, 0, 0, 0]
      max_accelerations_scaling_factor := 1, max_velocity_scaling_factor := 1 }
    [1, 1, 1, 1] true true (by decide) (by decide)).2.2.1 rfl).1

end OpenManipulator
